import Mathlib

/-!
Verification development for the rubygo Ruby lexer/parser core.

This file gives a shallow embedding, in Lean 4, of the Go sources
`token/token.go`, `lexer/lexer.go`, `parser/parser.go` and the AST package
(`ast`), and proves/refutes the frozen specification claims about them.

Modelling conventions, applied uniformly:
* Go strings are modelled as `List Char` (the sources only ever index bytes;
  all inputs of interest are ASCII).  Token literals and diagnostics are Lean
  `String`s built from such lists.
* The Go byte value `0` (the lexer's end-of-input sentinel) is the character
  `charNul`.
* Go's `l.currentState` is a pointer that, whenever non-nil, aliases the top
  (last pushed) entry of `l.stringStack`; we model the stack with the top at
  the HEAD of a list and the pointer as a Boolean `hasCurrent`, with all
  reads/writes through the pointer performed on the head of the stack.
* Loops are compiled to fueled recursions.  Wherever a Go loop consumes at
  least one input byte per iteration, the fuel supplied at the call site is
  larger than the whole input, so fuel exhaustion is unreachable there; the
  fuel-0 branches return the current state unchanged.
-/

/-- `token.Type` from `token/token.go`.  The Go `keyword_beg`/`keyword_end`
iota sentinels delimit the keyword range and are not themselves token kinds;
`IsKeyword` below enumerates exactly the constructors that lie between them. -/
inductive TokenType where
  | ILLEGAL
  | EOF
  | NEWLINE
  | IGNORED_NEWLINE
  | COMMENT
  | EMBDOC_BEGIN
  | EMBDOC_LINE
  | EMBDOC_END
  | END_MARKER
  | IDENT
  | CONSTANT
  | IVAR
  | CVAR
  | GVAR
  | NTH_REF
  | BACK_REF
  | LABEL
  | METHOD_NAME
  | INTEGER
  | FLOAT
  | RATIONAL
  | IMAGINARY
  | CHAR
  | KEYWORD___ENCODING__
  | KEYWORD___FILE__
  | KEYWORD___LINE__
  | KEYWORD_ALIAS
  | KEYWORD_AND
  | KEYWORD_BEGIN
  | KEYWORD_BEGIN_UPCASE
  | KEYWORD_BREAK
  | KEYWORD_CASE
  | KEYWORD_CLASS
  | KEYWORD_DEF
  | KEYWORD_DEFINED
  | KEYWORD_DO
  | KEYWORD_DO_BLOCK
  | KEYWORD_DO_COND
  | KEYWORD_DO_LAMBDA
  | KEYWORD_ELSE
  | KEYWORD_ELSIF
  | KEYWORD_END
  | KEYWORD_END_UPCASE
  | KEYWORD_ENSURE
  | KEYWORD_FALSE
  | KEYWORD_FOR
  | KEYWORD_IF
  | KEYWORD_IF_MODIFIER
  | KEYWORD_IN
  | KEYWORD_MODULE
  | KEYWORD_NEXT
  | KEYWORD_NIL
  | KEYWORD_NOT
  | KEYWORD_OR
  | KEYWORD_REDO
  | KEYWORD_RESCUE
  | KEYWORD_RESCUE_MODIFIER
  | KEYWORD_RETRY
  | KEYWORD_RETURN
  | KEYWORD_SELF
  | KEYWORD_SUPER
  | KEYWORD_THEN
  | KEYWORD_TRUE
  | KEYWORD_UNDEF
  | KEYWORD_UNLESS
  | KEYWORD_UNLESS_MODIFIER
  | KEYWORD_UNTIL
  | KEYWORD_UNTIL_MODIFIER
  | KEYWORD_WHEN
  | KEYWORD_WHILE
  | KEYWORD_WHILE_MODIFIER
  | KEYWORD_YIELD
  | AMPERSAND
  | AMPERSAND_AMPERSAND
  | AMPERSAND_AMPERSAND_EQUAL
  | AMPERSAND_DOT
  | AMPERSAND_EQUAL
  | BANG
  | BANG_EQUAL
  | BANG_TILDE
  | CARET
  | CARET_EQUAL
  | COLON
  | COLON_COLON
  | COMMA
  | DOT
  | DOT_DOT
  | DOT_DOT_DOT
  | EQUAL
  | EQUAL_EQUAL
  | EQUAL_EQUAL_EQUAL
  | EQUAL_GREATER
  | EQUAL_TILDE
  | GREATER
  | GREATER_EQUAL
  | GREATER_GREATER
  | GREATER_GREATER_EQUAL
  | LESS
  | LESS_EQUAL
  | LESS_EQUAL_GREATER
  | LESS_LESS
  | LESS_LESS_EQUAL
  | MINUS
  | MINUS_EQUAL
  | MINUS_GREATER
  | PERCENT
  | PERCENT_EQUAL
  | PIPE
  | PIPE_EQUAL
  | PIPE_PIPE
  | PIPE_PIPE_EQUAL
  | PLUS
  | PLUS_EQUAL
  | QUESTION
  | SEMICOLON
  | SLASH
  | SLASH_EQUAL
  | STAR
  | STAR_EQUAL
  | STAR_STAR
  | STAR_STAR_EQUAL
  | TILDE
  | BACKSLASH
  | UPLUS
  | UMINUS
  | USTAR
  | USTAR_STAR
  | UAMPERSAND
  | UCOLON_COLON
  | LPAREN
  | LPAREN_ARG
  | LPAREN_BEG
  | RPAREN
  | LBRACKET
  | LBRACKET_ARRAY
  | RBRACKET
  | LBRACE
  | LBRACE_ARG
  | LBRACE_BLOCK
  | RBRACE
  | BRACKET_LEFT_RIGHT
  | BRACKET_LEFT_RIGHT_EQUAL
  | STRING_BEGIN
  | STRING_CONTENT
  | STRING_END
  | XSTRING_BEGIN
  | SYMBOL_BEGIN
  | REGEXP_BEGIN
  | REGEXP_END
  | WORDS_BEGIN
  | WORDS_SEP
  | SYMBOLS_BEGIN
  | HEREDOC_BEGIN
  | HEREDOC_END
  | EMBEXPR_BEGIN
  | EMBEXPR_END
  | EMBVAR
  | LAMBDA_BEGIN
  | LAMBDA_LBRACE
  | BDOT2
  | BDOT3
  | MISSING
  deriving DecidableEq, Repr

/-- `token.Token`.  In Go the zero value has `Type == ILLEGAL` (iota 0) and
empty literal and zero positions. -/
structure Token where
  type : TokenType
  literal : String
  line : Nat
  column : Nat
  offset : Nat
  deriving DecidableEq, Repr

/-- The Go zero `token.Token` value. -/
def zeroToken : Token := { type := .ILLEGAL, literal := "", line := 0, column := 0, offset := 0 }

/-- `tokenNames` / `Type.String()` from `token/token.go` (display names used
in diagnostics).  Every constructor is present in the Go map, so the
"UNKNOWN" fallback of `Type.String` is unreachable. -/
def TokenType.goString : TokenType → String
  | .ILLEGAL => "ILLEGAL"
  | .EOF => "EOF"
  | .NEWLINE => "NEWLINE"
  | .IGNORED_NEWLINE => "IGNORED_NEWLINE"
  | .COMMENT => "COMMENT"
  | .EMBDOC_BEGIN => "EMBDOC_BEGIN"
  | .EMBDOC_LINE => "EMBDOC_LINE"
  | .EMBDOC_END => "EMBDOC_END"
  | .END_MARKER => "__END__"
  | .IDENT => "IDENT"
  | .CONSTANT => "CONSTANT"
  | .IVAR => "IVAR"
  | .CVAR => "CVAR"
  | .GVAR => "GVAR"
  | .NTH_REF => "NTH_REF"
  | .BACK_REF => "BACK_REF"
  | .LABEL => "LABEL"
  | .METHOD_NAME => "METHOD_NAME"
  | .INTEGER => "INTEGER"
  | .FLOAT => "FLOAT"
  | .RATIONAL => "RATIONAL"
  | .IMAGINARY => "IMAGINARY"
  | .CHAR => "CHAR"
  | .KEYWORD___ENCODING__ => "__ENCODING__"
  | .KEYWORD___FILE__ => "__FILE__"
  | .KEYWORD___LINE__ => "__LINE__"
  | .KEYWORD_ALIAS => "alias"
  | .KEYWORD_AND => "and"
  | .KEYWORD_BEGIN => "begin"
  | .KEYWORD_BEGIN_UPCASE => "BEGIN"
  | .KEYWORD_BREAK => "break"
  | .KEYWORD_CASE => "case"
  | .KEYWORD_CLASS => "class"
  | .KEYWORD_DEF => "def"
  | .KEYWORD_DEFINED => "defined?"
  | .KEYWORD_DO => "do"
  | .KEYWORD_DO_BLOCK => "do"
  | .KEYWORD_DO_COND => "do"
  | .KEYWORD_DO_LAMBDA => "do"
  | .KEYWORD_ELSE => "else"
  | .KEYWORD_ELSIF => "elsif"
  | .KEYWORD_END => "end"
  | .KEYWORD_END_UPCASE => "END"
  | .KEYWORD_ENSURE => "ensure"
  | .KEYWORD_FALSE => "false"
  | .KEYWORD_FOR => "for"
  | .KEYWORD_IF => "if"
  | .KEYWORD_IF_MODIFIER => "if"
  | .KEYWORD_IN => "in"
  | .KEYWORD_MODULE => "module"
  | .KEYWORD_NEXT => "next"
  | .KEYWORD_NIL => "nil"
  | .KEYWORD_NOT => "not"
  | .KEYWORD_OR => "or"
  | .KEYWORD_REDO => "redo"
  | .KEYWORD_RESCUE => "rescue"
  | .KEYWORD_RESCUE_MODIFIER => "rescue"
  | .KEYWORD_RETRY => "retry"
  | .KEYWORD_RETURN => "return"
  | .KEYWORD_SELF => "self"
  | .KEYWORD_SUPER => "super"
  | .KEYWORD_THEN => "then"
  | .KEYWORD_TRUE => "true"
  | .KEYWORD_UNDEF => "undef"
  | .KEYWORD_UNLESS => "unless"
  | .KEYWORD_UNLESS_MODIFIER => "unless"
  | .KEYWORD_UNTIL => "until"
  | .KEYWORD_UNTIL_MODIFIER => "until"
  | .KEYWORD_WHEN => "when"
  | .KEYWORD_WHILE => "while"
  | .KEYWORD_WHILE_MODIFIER => "while"
  | .KEYWORD_YIELD => "yield"
  | .AMPERSAND => "&"
  | .AMPERSAND_AMPERSAND => "&&"
  | .AMPERSAND_AMPERSAND_EQUAL => "&&="
  | .AMPERSAND_DOT => "&."
  | .AMPERSAND_EQUAL => "&="
  | .BANG => "!"
  | .BANG_EQUAL => "!="
  | .BANG_TILDE => "!~"
  | .CARET => "^"
  | .CARET_EQUAL => "^="
  | .COLON => ":"
  | .COLON_COLON => "::"
  | .COMMA => ","
  | .DOT => "."
  | .DOT_DOT => ".."
  | .DOT_DOT_DOT => "..."
  | .EQUAL => "="
  | .EQUAL_EQUAL => "=="
  | .EQUAL_EQUAL_EQUAL => "==="
  | .EQUAL_GREATER => "=>"
  | .EQUAL_TILDE => "=~"
  | .GREATER => ">"
  | .GREATER_EQUAL => ">="
  | .GREATER_GREATER => ">>"
  | .GREATER_GREATER_EQUAL => ">>="
  | .LESS => "<"
  | .LESS_EQUAL => "<="
  | .LESS_EQUAL_GREATER => "<=>"
  | .LESS_LESS => "<<"
  | .LESS_LESS_EQUAL => "<<="
  | .MINUS => "-"
  | .MINUS_EQUAL => "-="
  | .MINUS_GREATER => "->"
  | .PERCENT => "%"
  | .PERCENT_EQUAL => "%="
  | .PIPE => "|"
  | .PIPE_EQUAL => "|="
  | .PIPE_PIPE => "||"
  | .PIPE_PIPE_EQUAL => "||="
  | .PLUS => "+"
  | .PLUS_EQUAL => "+="
  | .QUESTION => "?"
  | .SEMICOLON => ";"
  | .SLASH => "/"
  | .SLASH_EQUAL => "/="
  | .STAR => "*"
  | .STAR_EQUAL => "*="
  | .STAR_STAR => "**"
  | .STAR_STAR_EQUAL => "**="
  | .TILDE => "~"
  | .BACKSLASH => "\\"
  | .UPLUS => "+@"
  | .UMINUS => "-@"
  | .USTAR => "*"
  | .USTAR_STAR => "**"
  | .UAMPERSAND => "&"
  | .UCOLON_COLON => "::"
  | .LPAREN => "("
  | .LPAREN_ARG => "("
  | .LPAREN_BEG => "("
  | .RPAREN => ")"
  | .LBRACKET => "["
  | .LBRACKET_ARRAY => "["
  | .RBRACKET => "]"
  | .LBRACE => "\x7b"
  | .LBRACE_ARG => "\x7b"
  | .LBRACE_BLOCK => "\x7b"
  | .RBRACE => "\x7d"
  | .BRACKET_LEFT_RIGHT => "[]"
  | .BRACKET_LEFT_RIGHT_EQUAL => "[]="
  | .STRING_BEGIN => "STRING_BEGIN"
  | .STRING_CONTENT => "STRING_CONTENT"
  | .STRING_END => "STRING_END"
  | .XSTRING_BEGIN => "XSTRING_BEGIN"
  | .SYMBOL_BEGIN => "SYMBOL_BEGIN"
  | .REGEXP_BEGIN => "REGEXP_BEGIN"
  | .REGEXP_END => "REGEXP_END"
  | .WORDS_BEGIN => "WORDS_BEGIN"
  | .WORDS_SEP => "WORDS_SEP"
  | .SYMBOLS_BEGIN => "SYMBOLS_BEGIN"
  | .HEREDOC_BEGIN => "HEREDOC_BEGIN"
  | .HEREDOC_END => "HEREDOC_END"
  | .EMBEXPR_BEGIN => "EMBEXPR_BEGIN"
  | .EMBEXPR_END => "EMBEXPR_END"
  | .EMBVAR => "EMBVAR"
  | .LAMBDA_BEGIN => "LAMBDA_BEGIN"
  | .LAMBDA_LBRACE => "LAMBDA_LBRACE"
  | .BDOT2 => "BDOT2"
  | .BDOT3 => "BDOT3"
  | .MISSING => "MISSING"

/-- `token.Keywords` (map from keyword literals to token types), as an
association list in the source order of `token/token.go`. -/
def keywordsList : List (String × TokenType) :=
  [("__ENCODING__", .KEYWORD___ENCODING__),
   ("__FILE__", .KEYWORD___FILE__),
   ("__LINE__", .KEYWORD___LINE__),
   ("alias", .KEYWORD_ALIAS),
   ("and", .KEYWORD_AND),
   ("begin", .KEYWORD_BEGIN),
   ("BEGIN", .KEYWORD_BEGIN_UPCASE),
   ("break", .KEYWORD_BREAK),
   ("case", .KEYWORD_CASE),
   ("class", .KEYWORD_CLASS),
   ("def", .KEYWORD_DEF),
   ("defined?", .KEYWORD_DEFINED),
   ("do", .KEYWORD_DO),
   ("else", .KEYWORD_ELSE),
   ("elsif", .KEYWORD_ELSIF),
   ("end", .KEYWORD_END),
   ("END", .KEYWORD_END_UPCASE),
   ("ensure", .KEYWORD_ENSURE),
   ("false", .KEYWORD_FALSE),
   ("for", .KEYWORD_FOR),
   ("if", .KEYWORD_IF),
   ("in", .KEYWORD_IN),
   ("module", .KEYWORD_MODULE),
   ("next", .KEYWORD_NEXT),
   ("nil", .KEYWORD_NIL),
   ("not", .KEYWORD_NOT),
   ("or", .KEYWORD_OR),
   ("redo", .KEYWORD_REDO),
   ("rescue", .KEYWORD_RESCUE),
   ("retry", .KEYWORD_RETRY),
   ("return", .KEYWORD_RETURN),
   ("self", .KEYWORD_SELF),
   ("super", .KEYWORD_SUPER),
   ("then", .KEYWORD_THEN),
   ("true", .KEYWORD_TRUE),
   ("undef", .KEYWORD_UNDEF),
   ("unless", .KEYWORD_UNLESS),
   ("until", .KEYWORD_UNTIL),
   ("when", .KEYWORD_WHEN),
   ("while", .KEYWORD_WHILE),
   ("yield", .KEYWORD_YIELD)]

/-- Lookup in the `Keywords` map (Go map lookup by key). -/
def keywordsFind (s : String) : Option TokenType :=
  (keywordsList.find? (fun kv => kv.1 = s)).map (·.2)

/-- `token.LookupIdent`. -/
def lookupIdent (ident : String) : TokenType :=
  match keywordsFind ident with
  | some tok => tok
  | none =>
      if ident.length > 0 ∧ 'A' ≤ ident.data.headD 'a' ∧ ident.data.headD 'a' ≤ 'Z' then
        .CONSTANT
      else
        .IDENT

/-- `Type.IsKeyword`: in Go this is an ordinal range check
`keyword_beg < t && t < keyword_end`; the constructors strictly between those
sentinels are exactly the ones enumerated here. -/
def TokenType.isKeyword : TokenType → Bool
  | .KEYWORD___ENCODING__ | .KEYWORD___FILE__ | .KEYWORD___LINE__
  | .KEYWORD_ALIAS | .KEYWORD_AND | .KEYWORD_BEGIN | .KEYWORD_BEGIN_UPCASE
  | .KEYWORD_BREAK | .KEYWORD_CASE | .KEYWORD_CLASS | .KEYWORD_DEF
  | .KEYWORD_DEFINED | .KEYWORD_DO | .KEYWORD_DO_BLOCK | .KEYWORD_DO_COND
  | .KEYWORD_DO_LAMBDA | .KEYWORD_ELSE | .KEYWORD_ELSIF | .KEYWORD_END
  | .KEYWORD_END_UPCASE | .KEYWORD_ENSURE | .KEYWORD_FALSE | .KEYWORD_FOR
  | .KEYWORD_IF | .KEYWORD_IF_MODIFIER | .KEYWORD_IN | .KEYWORD_MODULE
  | .KEYWORD_NEXT | .KEYWORD_NIL | .KEYWORD_NOT | .KEYWORD_OR
  | .KEYWORD_REDO | .KEYWORD_RESCUE | .KEYWORD_RESCUE_MODIFIER
  | .KEYWORD_RETRY | .KEYWORD_RETURN | .KEYWORD_SELF | .KEYWORD_SUPER
  | .KEYWORD_THEN | .KEYWORD_TRUE | .KEYWORD_UNDEF | .KEYWORD_UNLESS
  | .KEYWORD_UNLESS_MODIFIER | .KEYWORD_UNTIL | .KEYWORD_UNTIL_MODIFIER
  | .KEYWORD_WHEN | .KEYWORD_WHILE | .KEYWORD_WHILE_MODIFIER
  | .KEYWORD_YIELD => true
  | _ => false

/-! ## Lexer state (`lexer/lexer.go`) -/

/-- The NUL character: Go's byte value 0, the lexer's end-of-input marker. -/
def charNul : Char := Char.ofNat 0

/-- `stringMode` from `lexer/lexer.go`. -/
inductive StringMode where
  | modeNone
  | modeSingleQuote
  | modeDoubleQuote
  | modeBacktick
  | modeRegexp
  | modePercentQ
  | modePercentQUpper
  | modePercentW
  | modePercentWUpper
  | modePercentI
  | modePercentIUpper
  | modePercentR
  | modePercentS
  | modePercentX
  | modePercentDefault
  | modeHeredoc
  | modeSymbolDoubleQuote
  | modeSymbolSingleQuote
  deriving DecidableEq, Repr

/-- `stringState` from `lexer/lexer.go`.  `terminator`/`openDelimiter` are
bytes in Go (0 meaning "none"); we use `Char` with `charNul` for 0.  The
heredoc code reuses `terminator` as a flag by assigning byte value 1. -/
structure StringState where
  mode : StringMode
  terminator : Char
  openDelimiter : Char
  nestingLevel : Nat
  interpolating : Bool
  heredocIdent : String
  heredocIndented : Bool
  heredocSquiggle : Bool
  heredocQuoted : Bool
  savedBraceDepth : Nat
  deriving DecidableEq, Repr

/-- The Go zero `stringState` value. -/
def zeroStringState : StringState :=
  { mode := .modeNone, terminator := charNul, openDelimiter := charNul,
    nestingLevel := 0, interpolating := false, heredocIdent := "",
    heredocIndented := false, heredocSquiggle := false, heredocQuoted := false,
    savedBraceDepth := 0 }

/-- `Lexer` from `lexer/lexer.go`.  `currentState` is a Go pointer that, when
non-nil, always aliases the most recently pushed entry of `stringStack` (every
assignment in the source sets it to `&l.stringStack[len-1]` or to nil), so it
is modelled as the Boolean `hasCurrent` and all accesses through it act on the
head of `stringStack` (which holds the top). -/
structure Lexer where
  input : List Char
  position : Nat
  readPosition : Nat
  ch : Char
  line : Nat
  column : Nat
  prevColumn : Nat
  stringStack : List StringState
  hasCurrent : Bool
  braceDepth : Nat
  afterOperator : Bool
  afterKeyword : Bool
  afterIdent : Bool
  afterRightParen : Bool
  afterRightBracket : Bool
  inLabelContext : Bool
  sawNewline : Bool
  startOfLine : Bool
  afterDot : Bool
  heredocQueue : List StringState
  deriving DecidableEq, Repr

/-- `readChar`. -/
def Lexer.readChar (l : Lexer) : Lexer :=
  let c := if l.readPosition ≥ l.input.length then charNul
           else l.input.getD l.readPosition charNul
  let l' := { l with prevColumn := l.column, ch := c, position := l.readPosition,
                     readPosition := l.readPosition + 1 }
  if c = '\n' then { l' with line := l'.line + 1, column := 0 }
  else { l' with column := l'.column + 1 }

/-- `New`. -/
def Lexer.newL (input : List Char) : Lexer :=
  Lexer.readChar
    { input := input, position := 0, readPosition := 0, ch := charNul,
      line := 1, column := 0, prevColumn := 0, stringStack := [],
      hasCurrent := false, braceDepth := 0,
      afterOperator := false, afterKeyword := false, afterIdent := false,
      afterRightParen := false, afterRightBracket := false,
      inLabelContext := false, sawNewline := false, startOfLine := true,
      afterDot := false, heredocQueue := [] }

/-- `New` on a Lean string. -/
def Lexer.new (s : String) : Lexer := Lexer.newL s.data

/-- `peekChar`. -/
def Lexer.peekChar (l : Lexer) : Char :=
  if l.readPosition ≥ l.input.length then charNul
  else l.input.getD l.readPosition charNul

/-- `peekCharN`. -/
def Lexer.peekCharN (l : Lexer) (n : Nat) : Char :=
  let pos := l.readPosition + n - 1
  if pos ≥ l.input.length then charNul
  else l.input.getD pos charNul

/-- `setTokenPosition`. -/
def setTokenPosition (tok : Token) (line column offset : Nat) : Token :=
  { tok with line := line, column := column, offset := offset }

/-- `newToken` (the Go method ignores the receiver; positions stay zero until
`setTokenPosition` stamps them). -/
def newToken (tokenType : TokenType) (literal : String) : Token :=
  { type := tokenType, literal := literal, line := 0, column := 0, offset := 0 }

/-- Go slice `l.input[lo:hi]` as a character list. -/
def subList (xs : List Char) (lo hi : Nat) : List Char := (xs.drop lo).take (hi - lo)

/-- Go slice `l.input[lo:hi]` as a string. -/
def subStr (xs : List Char) (lo hi : Nat) : String := String.mk (subList xs lo hi)

/-- `isLetter`. -/
def isLetter (ch : Char) : Bool :=
  ('a' ≤ ch ∧ ch ≤ 'z') ∨ ('A' ≤ ch ∧ ch ≤ 'Z')

/-- `isDigit`. -/
def isDigit (ch : Char) : Bool := '0' ≤ ch ∧ ch ≤ '9'

/-- `isHexDigit`. -/
def isHexDigit (ch : Char) : Bool :=
  isDigit ch ∨ ('a' ≤ ch ∧ ch ≤ 'f') ∨ ('A' ≤ ch ∧ ch ≤ 'F')

/-- `isOctalDigit`. -/
def isOctalDigit (ch : Char) : Bool := '0' ≤ ch ∧ ch ≤ '7'

/-- `isPunctuation`. -/
def isPunctuation (ch : Char) : Bool :=
  ch = ':' ∨ ch = ';' ∨ ch = '/' ∨ ch = '\\' ∨ ch = '!' ∨
  ch = '?' ∨ ch = '"' ∨ ch = '\'' ∨ ch = '<' ∨ ch = '>' ∨
  ch = '.' ∨ ch = ',' ∨ ch = '=' ∨ ch = '~' ∨ ch = '*' ∨
  ch = '$' ∨ ch = '@' ∨ ch = '&' ∨ ch = '`' ∨ ch = '+' ∨
  ch = '-' ∨ ch = '0'

/-- `matchingDelimiter`. -/
def matchingDelimiter (openC : Char) : Char :=
  if openC = '(' then ')'
  else if openC = '[' then ']'
  else if openC = '\x7b' then '\x7d'
  else if openC = '<' then '>'
  else openC

/-- `isPercentDelimiter`. -/
def isPercentDelimiter (ch : Char) : Bool :=
  ch ≠ charNul ∧ ¬isLetter ch ∧ ¬isDigit ch ∧ ch ≠ ' ' ∧ ch ≠ '\t' ∧ ch ≠ '\n'

/-- A fueled `for pred(l.ch) { l.readChar() }` loop.  Every Go loop of this
shape consumes one input byte per iteration, so the standard fuel
`l.input.length + 2` supplied by `Lexer.runConsume` can never run out on
states reachable from `Lexer.new`. -/
def consumeWhile (pred : Char → Bool) : Nat → Lexer → Lexer
  | 0, l => l
  | fuel + 1, l => if pred l.ch then consumeWhile pred fuel l.readChar else l

/-- `consumeWhile` with the standard (always sufficient) fuel. -/
def Lexer.runConsume (l : Lexer) (pred : Char → Bool) : Lexer :=
  consumeWhile pred (l.input.length + 2) l

/-- `skipWhitespace`. -/
def Lexer.skipWhitespace (l : Lexer) : Lexer :=
  l.runConsume (fun c => c = ' ' ∨ c = '\t' ∨ c = '\r')

/-- Replace the stack entry aliased by `currentState` (the top = head). -/
def Lexer.setTop (l : Lexer) (f : StringState → StringState) : Lexer :=
  match l.stringStack with
  | [] => l
  | s :: rest => { l with stringStack := f s :: rest }

/-- The stack entry aliased by `currentState`. -/
def Lexer.topState (l : Lexer) : StringState := l.stringStack.headD zeroStringState

/-- `pushStringState`. -/
def Lexer.pushStringState (l : Lexer) (mode : StringMode) (terminator openDelim : Char)
    (interpolating : Bool) : Lexer :=
  let state := { zeroStringState with
                 mode := mode, terminator := terminator, openDelimiter := openDelim,
                 nestingLevel := 1, interpolating := interpolating }
  { l with stringStack := state :: l.stringStack, hasCurrent := true }

/-- `pushStringStateWithBraceDepth`. -/
def Lexer.pushStringStateWithBraceDepth (l : Lexer) (mode : StringMode)
    (terminator openDelim : Char) (interpolating : Bool) : Lexer :=
  let state := { zeroStringState with
                 mode := mode, terminator := terminator, openDelimiter := openDelim,
                 nestingLevel := 1, interpolating := interpolating,
                 savedBraceDepth := l.braceDepth }
  { l with braceDepth := 0, stringStack := state :: l.stringStack, hasCurrent := true }

/-- `popStringState`. -/
def Lexer.popStringState (l : Lexer) : Lexer :=
  let l :=
    match l.stringStack with
    | [] => l
    | top :: rest => { l with braceDepth := top.savedBraceDepth, stringStack := rest }
  if l.braceDepth > 0 then { l with hasCurrent := false }
  else if l.stringStack ≠ [] then { l with hasCurrent := true }
  else { l with hasCurrent := false }

/-- `lexIdentifier`. -/
def Lexer.lexIdentifier (l : Lexer) : Token × Lexer :=
  let startPos := l.position
  let l := l.runConsume (fun c => isLetter c ∨ isDigit c ∨ c = '_')
  let literal := subStr l.input startPos l.position
  if l.ch = '?' ∨ l.ch = '!' then
    let literal := literal ++ String.mk [l.ch]
    let l := l.readChar
    if literal = "defined?" then
      (newToken .KEYWORD_DEFINED literal, { l with afterKeyword := true })
    else
      (newToken .METHOD_NAME literal, { l with afterIdent := true })
  else if l.ch = '=' ∧ l.peekChar ≠ '=' ∧ l.peekChar ≠ '~' ∧ l.peekChar ≠ '>' ∧
          ¬l.afterDot ∧ ¬(l.inLabelContext ∧ l.peekChar ≠ '=') ∧ l.peekChar ≠ '=' then
    -- setter method (name=); the two inner peek checks repeat the outer one
    let literal := literal ++ "="
    let l := l.readChar
    (newToken .METHOD_NAME literal, { l with afterIdent := true })
  else if l.ch = ':' ∧ l.peekChar ≠ ':' ∧ (l.inLabelContext ∨ l.afterOperator ∨ l.startOfLine) then
    let literal := literal ++ ":"
    let l := l.readChar
    (newToken .LABEL literal, { l with afterIdent := false })
  else
    let tokType := lookupIdent literal
    if literal = "__END__" ∧ l.startOfLine then
      let l := { l with afterKeyword := false, afterIdent := false,
                        position := l.input.length, readPosition := l.input.length,
                        ch := charNul }
      (newToken .END_MARKER literal, l)
    else
      let l :=
        if tokType.isKeyword then { l with afterKeyword := true, afterIdent := false }
        else { l with afterKeyword := false, afterIdent := true }
      (newToken tokType literal, { l with startOfLine := false })

/-- `lexNumber`. -/
def Lexer.lexNumber (l : Lexer) : Token × Lexer :=
  let startPos := l.position
  -- leading 0 with a base prefix returns directly from inside the switch
  let prefixed : Option (Token × Lexer) :=
    if l.ch = '0' then
      let l := l.readChar
      if l.ch = 'x' ∨ l.ch = 'X' then
        let l := l.readChar
        let l := l.runConsume (fun c => isHexDigit c ∨ c = '_')
        some (newToken .INTEGER (subStr l.input startPos l.position),
              { l with afterIdent := true, startOfLine := false })
      else if l.ch = 'o' ∨ l.ch = 'O' then
        let l := l.readChar
        let l := l.runConsume (fun c => isOctalDigit c ∨ c = '_')
        some (newToken .INTEGER (subStr l.input startPos l.position),
              { l with afterIdent := true, startOfLine := false })
      else if l.ch = 'b' ∨ l.ch = 'B' then
        let l := l.readChar
        let l := l.runConsume (fun c => c = '0' ∨ c = '1' ∨ c = '_')
        some (newToken .INTEGER (subStr l.input startPos l.position),
              { l with afterIdent := true, startOfLine := false })
      else if l.ch = 'd' ∨ l.ch = 'D' then
        let l := l.readChar
        let l := l.runConsume (fun c => isDigit c ∨ c = '_')
        some (newToken .INTEGER (subStr l.input startPos l.position),
              { l with afterIdent := true, startOfLine := false })
      else none
    else none
  match prefixed with
  | some r => r
  | none =>
    -- state after the optional leading-0 handling (cases '.'/'e'/'E' fall through)
    let (l, isFloat) :=
      if l.ch = '0' then
        let l := l.readChar
        if l.ch = '.' then
          if isDigit l.peekChar then
            let l := l.readChar
            (l.runConsume (fun c => isDigit c ∨ c = '_'), true)
          else (l, false)
        else if l.ch = 'e' ∨ l.ch = 'E' then
          let l := l.readChar
          let l := if l.ch = '+' ∨ l.ch = '-' then l.readChar else l
          (l.runConsume (fun c => isDigit c ∨ c = '_'), true)
        else (l, false)
      else (l, false)
    let l := l.runConsume (fun c => isDigit c ∨ c = '_')
    let (l, isFloat) :=
      if l.ch = '.' ∧ isDigit l.peekChar then
        let l := l.readChar
        (l.runConsume (fun c => isDigit c ∨ c = '_'), true)
      else (l, isFloat)
    let (l, isFloat) :=
      if l.ch = 'e' ∨ l.ch = 'E' then
        let l := l.readChar
        let l := if l.ch = '+' ∨ l.ch = '-' then l.readChar else l
        (l.runConsume (fun c => isDigit c ∨ c = '_'), true)
      else (l, isFloat)
    let (l, isRational) := if l.ch = 'r' then (l.readChar, true) else (l, false)
    let (l, isImaginary) := if l.ch = 'i' then (l.readChar, true) else (l, false)
    let literal := subStr l.input startPos l.position
    let l := { l with afterIdent := true, startOfLine := false }
    if isImaginary then (newToken .IMAGINARY literal, l)
    else if isRational then (newToken .RATIONAL literal, l)
    else if isFloat then (newToken .FLOAT literal, l)
    else (newToken .INTEGER literal, l)

/-- `lexInstanceOrClassVariable`. -/
def Lexer.lexInstanceOrClassVariable (l : Lexer) : Token × Lexer :=
  let startPos := l.position
  let l := l.readChar
  if l.ch = '@' then
    let l := l.readChar
    let l := l.runConsume (fun c => isLetter c ∨ isDigit c ∨ c = '_')
    (newToken .CVAR (subStr l.input startPos l.position), { l with afterIdent := true })
  else
    let l := l.runConsume (fun c => isLetter c ∨ isDigit c ∨ c = '_')
    (newToken .IVAR (subStr l.input startPos l.position), { l with afterIdent := true })

/-- `lexGlobalVariable`. -/
def Lexer.lexGlobalVariable (l : Lexer) : Token × Lexer :=
  let startPos := l.position
  let l := l.readChar
  if isDigit l.ch ∧ l.ch ≠ '0' then
    let l := l.runConsume (fun c => isDigit c)
    (newToken .NTH_REF (subStr l.input startPos l.position), l)
  else if l.ch = '&' ∨ l.ch = '`' ∨ l.ch = '\'' ∨ l.ch = '+' then
    let l := l.readChar
    (newToken .BACK_REF (subStr l.input startPos l.position), l)
  else if l.ch = '-' ∧ isLetter l.peekChar then
    let l := l.readChar.readChar
    (newToken .GVAR (subStr l.input startPos l.position), l)
  else if isPunctuation l.ch then
    let l := l.readChar
    (newToken .GVAR (subStr l.input startPos l.position), l)
  else
    let l := l.runConsume (fun c => isLetter c ∨ isDigit c ∨ c = '_')
    (newToken .GVAR (subStr l.input startPos l.position), { l with afterIdent := true })

/-- `lexComment`. -/
def Lexer.lexComment (l : Lexer) : Token × Lexer :=
  let startPos := l.position
  let l := l.runConsume (fun c => c ≠ '\n' ∧ c ≠ charNul)
  (newToken .COMMENT (subStr l.input startPos l.position), l)

/-- `lexEmbeddedDoc` (the `=begin` line; token position is set inline). -/
def Lexer.lexEmbeddedDoc (l : Lexer) : Token × Lexer :=
  let startPos := l.position
  let l := l.readChar.readChar.readChar.readChar.readChar.readChar
  let l := l.runConsume (fun c => c ≠ '\n' ∧ c ≠ charNul)
  let l := if l.ch = '\n' then l.readChar else l
  let tok := { newToken .EMBDOC_BEGIN "=begin" with
               line := l.line - 1, column := 1, offset := startPos }
  let l := l.pushStringState .modeNone charNul charNul false
  (tok, l)

/-- `lexCharLiteral`. -/
def Lexer.lexCharLiteral (l : Lexer) : Token × Lexer :=
  let startPos := l.position
  let l := l.readChar
  let l := if l.ch = '\\' then l.readChar.readChar else l.readChar
  (newToken .CHAR (subStr l.input startPos l.position), l)

/-- `shouldLexCharLiteral`. -/
def Lexer.shouldLexCharLiteral (l : Lexer) : Bool :=
  if l.peekChar = charNul then false
  else if l.afterIdent ∨ l.afterRightParen ∨ l.afterRightBracket then false
  else true

/-- `isHeredocStart`. -/
def Lexer.isHeredocStart (l : Lexer) : Bool :=
  let pos := l.readPosition
  let pos := if pos < l.input.length ∧
                (l.input.getD pos charNul = '-' ∨ l.input.getD pos charNul = '~')
             then pos + 1 else pos
  if pos < l.input.length then
    let c := l.input.getD pos charNul
    isLetter c ∨ c = '_' ∨ c = '"' ∨ c = '\'' ∨ c = '`'
  else false

/-- `lexHeredocBegin` (called with `l.ch` on the second `<`). -/
def Lexer.lexHeredocBegin (l : Lexer) : Token × Lexer :=
  let startPos := l.position - 1
  let (l, indented, squiggle) :=
    if l.peekChar = '-' then (l.readChar, true, false)
    else if l.peekChar = '~' then (l.readChar, true, true)
    else (l, false, false)
  let (l, quoted, quoteChar) :=
    if l.peekChar = '"' ∨ l.peekChar = '\'' ∨ l.peekChar = '`' then
      let q := l.peekChar
      (l.readChar, true, q)
    else (l, false, charNul)
  let l := l.readChar
  let identStart := l.position
  let l := l.runConsume (fun c => isLetter c ∨ isDigit c ∨ c = '_')
  let ident := subStr l.input identStart l.position
  let l := if quoted ∧ l.ch = quoteChar then l.readChar else l
  let literal := subStr l.input startPos l.position
  let l := if l.ch = '\n' then l.readChar else l
  let state := { zeroStringState with
                 mode := .modeHeredoc, heredocIdent := ident,
                 heredocIndented := indented, heredocSquiggle := squiggle,
                 heredocQuoted := quoted,
                 interpolating := (¬quoted ∨ quoteChar ≠ '\'' : Bool) }
  let l := { l with stringStack := state :: l.stringStack, hasCurrent := true }
  (newToken .HEREDOC_BEGIN literal, l)

/-- `strings.TrimLeft(line, " \t")`. -/
def trimLeftSpaceTab : List Char → List Char
  | [] => []
  | c :: cs => if c = ' ' ∨ c = '\t' then trimLeftSpaceTab cs else c :: cs

/-- The line-reading `for` loop of the heredoc readers (`lexHeredocContent`,
`lexHeredocBody`), fueled. -/
def heredocLines (indented : Bool) (ident : String) :
    Nat → Lexer → List Char → (Bool × List Char × Lexer)
  | 0, l, content => (false, content, l)
  | fuel + 1, l, content =>
    let lineStart := l.position
    let l := l.runConsume (fun c => c ≠ '\n' ∧ c ≠ charNul)
    let line := subList l.input lineStart l.position
    let trimmedLine := trimLeftSpaceTab line
    if (indented ∧ String.mk trimmedLine = ident) ∨
       (¬indented ∧ String.mk line = ident) then
      -- found the terminator line: first component `true`
      (true, content, l)
    else
      let content := content ++ line
      let (content, l) :=
        if l.ch = '\n' then (content ++ ['\n'], l.readChar) else (content, l)
      if l.ch = charNul then (false, content, l)
      else heredocLines indented ident fuel l content

/-- `lexHeredocContent` (the `currentState`-driven heredoc reader). -/
def Lexer.lexHeredocContent (l : Lexer) : Token × Lexer :=
  let state := l.topState
  let ident := state.heredocIdent
  if state.terminator = Char.ofNat 1 then
    (newToken .HEREDOC_END ident, l.popStringState)
  else
    let (found, content, l) :=
      heredocLines state.heredocIndented ident (l.input.length + 2) l []
    if found then
      let l := l.setTop (fun s => { s with terminator := Char.ofNat 1 })
      (newToken .STRING_CONTENT (String.mk content), l)
    else
      (newToken .STRING_CONTENT (String.mk content), l.popStringState)

/-- `shouldLexRegexp`. -/
def Lexer.shouldLexRegexp (l : Lexer) : Bool :=
  if l.afterIdent ∨ l.afterRightParen ∨ l.afterRightBracket then false
  else l.afterOperator ∨ l.afterKeyword ∨ l.startOfLine ∨ l.sawNewline

/-- `lexRegexp`. -/
def Lexer.lexRegexp (l : Lexer) : Token × Lexer :=
  let tok := newToken .REGEXP_BEGIN "/"
  let l := l.pushStringState .modeRegexp '/' charNul true
  (tok, l.readChar)

/-- `isPercentLiteral`. -/
def Lexer.isPercentLiteral (l : Lexer) : Bool :=
  let next := l.peekChar
  if next = 'q' ∨ next = 'Q' ∨ next = 'w' ∨ next = 'W' ∨
     next = 'i' ∨ next = 'I' ∨ next = 'r' ∨ next = 's' ∨ next = 'x' then
    isPercentDelimiter (l.peekCharN 2)
  else
    isPercentDelimiter next

/-- `lexPercentLiteral`. -/
def Lexer.lexPercentLiteral (l : Lexer) : Token × Lexer :=
  let startPos := l.position
  let l := l.readChar
  let (l, mode, tokenType, interpolating) :
      Lexer × StringMode × TokenType × Bool :=
    if l.ch = 'q' then (l.readChar, .modePercentQ, .STRING_BEGIN, false)
    else if l.ch = 'Q' then (l.readChar, .modePercentQUpper, .STRING_BEGIN, true)
    else if l.ch = 'w' then (l.readChar, .modePercentW, .WORDS_BEGIN, false)
    else if l.ch = 'W' then (l.readChar, .modePercentWUpper, .WORDS_BEGIN, true)
    else if l.ch = 'i' then (l.readChar, .modePercentI, .SYMBOLS_BEGIN, false)
    else if l.ch = 'I' then (l.readChar, .modePercentIUpper, .SYMBOLS_BEGIN, true)
    else if l.ch = 'r' then (l.readChar, .modePercentR, .REGEXP_BEGIN, true)
    else if l.ch = 's' then (l.readChar, .modePercentS, .SYMBOL_BEGIN, false)
    else if l.ch = 'x' then (l.readChar, .modePercentX, .XSTRING_BEGIN, true)
    else (l, .modePercentDefault, .STRING_BEGIN, true)
  let openDelim := l.ch
  let closeDelim := matchingDelimiter openDelim
  let l := l.readChar
  let literal := subStr l.input startPos l.position
  let l := l.pushStringState mode closeDelim openDelim interpolating
  (newToken tokenType literal, l)

/-- The inner word-reading `for` loop of `lexWordArrayContent`, fueled.
Returns `some tok` on the in-loop `return`, otherwise the state at `break`.
The break check on a close delimiter comes before the decrement, so a nested
close delimiter decrements the level and then falls through to be appended
to the word like any other character. -/
def wordLoop : Nat → Lexer → List Char → (Option Token × Lexer × List Char)
  | 0, l, content => (none, l, content)
  | fuel + 1, l, content =>
    let state := l.topState
    if l.ch = charNul then (none, l, content)
    else if l.ch = ' ' ∨ l.ch = '\t' ∨ l.ch = '\n' ∨ l.ch = '\r' then
      if content.length > 0 then
        (some (newToken .STRING_CONTENT (String.mk content)), l, content)
      else (none, l, content)
    else if l.ch = state.terminator ∧
            (state.nestingLevel = 1 ∨ state.openDelimiter = charNul) then
      (none, l, content)
    else
      let l :=
        if l.ch = state.terminator then
          l.setTop (fun s => { s with nestingLevel := s.nestingLevel - 1 })
        else l
      let l :=
        if l.topState.openDelimiter ≠ charNul ∧ l.ch = l.topState.openDelimiter then
          l.setTop (fun s => { s with nestingLevel := s.nestingLevel + 1 })
        else l
      if l.ch = '\\' then
        let l := l.readChar
        if l.ch ≠ charNul then
          wordLoop fuel l.readChar (content ++ [l.ch])
        else
          wordLoop fuel l content
      else
        wordLoop fuel l.readChar (content ++ [l.ch])

/-- The whitespace-skipping loop of `lexWordArrayContent`, fueled (stops at
the terminator byte like the Go loop). -/
def wordSkipWs (term : Char) : Nat → Lexer → Lexer
  | 0, l => l
  | fuel + 1, l =>
    if l.ch = ' ' ∨ l.ch = '\t' ∨ l.ch = '\n' ∨ l.ch = '\r' then
      if l.ch = term then l
      else wordSkipWs term fuel l.readChar
    else l

/-- `lexWordArrayContent`. -/
def Lexer.lexWordArrayContent (l : Lexer) : Token × Lexer :=
  let state := l.topState
  -- leading terminator check
  if l.ch = state.terminator ∧
     (state.nestingLevel = 1 ∨ state.openDelimiter = charNul) then
    let l := l.readChar.popStringState
    (newToken .STRING_END (String.mk [state.terminator]), l)
  else
    let l :=
      if l.ch = state.terminator then
        l.setTop (fun s => { s with nestingLevel := s.nestingLevel - 1 })
      else l
    -- whitespace handling (possibly returning WORDS_SEP or STRING_END)
    let sepResult : Option (Token × Lexer) :=
      if l.ch = ' ' ∨ l.ch = '\t' ∨ l.ch = '\n' ∨ l.ch = '\r' then
        let l := wordSkipWs l.topState.terminator (l.input.length + 2) l
        if l.ch = l.topState.terminator ∧
           (l.topState.nestingLevel = 1 ∨ l.topState.openDelimiter = charNul) then
          some (newToken .STRING_END (String.mk [l.topState.terminator]),
                l.readChar.popStringState)
        else if l.ch ≠ charNul ∧ l.ch ≠ l.topState.terminator then
          some (newToken .WORDS_SEP " ", l)
        else none
      else none
    match sepResult with
    | some r => r
    | none =>
      let l :=
        if l.topState.openDelimiter ≠ charNul ∧ l.ch = l.topState.openDelimiter then
          l.setTop (fun s => { s with nestingLevel := s.nestingLevel + 1 })
        else l
      let (early, l, content) := wordLoop (l.input.length + 2) l []
      match early with
      | some tok => (tok, l)
      | none =>
        if content.length > 0 then
          (newToken .STRING_CONTENT (String.mk content), l)
        else if l.ch = l.topState.terminator then
          let term := l.topState.terminator
          (newToken .STRING_END (String.mk [term]), l.readChar.popStringState)
        else
          (newToken .EOF "", l.popStringState)

/-- `lexEmbdocContent`. -/
def Lexer.lexEmbdocContent (l : Lexer) : Token × Lexer :=
  let startPos := l.position
  let startLine := l.line
  if l.ch = '=' ∧ l.readPosition + 2 < l.input.length ∧
     subList l.input l.readPosition (l.readPosition + 3) = ['e', 'n', 'd'] then
    let l := l.readChar.readChar.readChar.readChar
    let l := l.runConsume (fun c => c ≠ '\n' ∧ c ≠ charNul)
    let l := l.popStringState
    ({ newToken .EMBDOC_END "=end" with line := startLine }, l)
  else
    let l := l.runConsume (fun c => c ≠ '\n' ∧ c ≠ charNul)
    let line := subList l.input startPos l.position
    let (line, l) := if l.ch = '\n' then (line ++ ['\n'], l.readChar) else (line, l)
    (newToken .EMBDOC_LINE (String.mk line), l)

/-- The regexp-flags loop in `lexStringContent` (reads `[imxoesun]*`). -/
def regexpFlagsPred (c : Char) : Bool :=
  c = 'i' ∨ c = 'm' ∨ c = 'x' ∨ c = 'o' ∨ c = 'e' ∨ c = 's' ∨ c = 'u' ∨ c = 'n'

/-- The scalar string-content `for` loop of `lexStringContent`, fueled.  The
`startLine/startColumn/startOffset` are the position captured before the
loop; the Go `state` pointer writes go to the top stack entry. -/
def stringContentLoop (startLine startColumn startOffset : Nat) :
    Nat → Lexer → List Char → Token × Lexer
  | 0, l, _ => (newToken .EOF "", l)
  | fuel + 1, l, content =>
    let state := l.topState
    let mode := state.mode
    if l.ch = charNul then
      -- loop exit: EOF inside the string
      if content.length > 0 then
        (setTokenPosition (newToken .STRING_CONTENT (String.mk content))
           startLine startColumn startOffset, l)
      else
        (newToken .EOF "", l.popStringState)
    else if l.ch = state.terminator then
      if state.nestingLevel = 1 ∨ state.openDelimiter = charNul then
        if content.length > 0 then
          (setTokenPosition (newToken .STRING_CONTENT (String.mk content))
             startLine startColumn startOffset, l)
        else if mode = .modeRegexp ∨ mode = .modePercentR then
          let l := l.readChar
          let flagStart := l.position
          let l := l.runConsume regexpFlagsPred
          let flags := subStr l.input flagStart l.position
          let endTok :=
            if mode = .modePercentR then
              newToken .REGEXP_END (String.mk [state.terminator] ++ flags)
            else
              newToken .REGEXP_END ("/" ++ flags)
          (endTok, l.popStringState)
        else
          let endTok := newToken .STRING_END (String.mk [state.terminator])
          (endTok, l.readChar.popStringState)
      else
        let l := l.setTop (fun s => { s with nestingLevel := s.nestingLevel - 1 })
        stringContentLoop startLine startColumn startOffset fuel
          l.readChar (content ++ [state.terminator])
    else if state.openDelimiter ≠ charNul ∧ l.ch = state.openDelimiter then
      let l := l.setTop (fun s => { s with nestingLevel := s.nestingLevel + 1 })
      stringContentLoop startLine startColumn startOffset fuel
        l.readChar (content ++ [state.openDelimiter])
    else if l.ch = '\\' then
      let content := content ++ ['\\']
      let l := l.readChar
      let (content, l) :=
        if l.ch ≠ charNul then (content ++ [l.ch], l.readChar) else (content, l)
      stringContentLoop startLine startColumn startOffset fuel l content
    else if state.interpolating ∧ l.ch = '#' ∧ l.peekChar = '\x7b' then
      if content.length > 0 then
        (setTokenPosition (newToken .STRING_CONTENT (String.mk content))
           startLine startColumn startOffset, l)
      else
        let l := l.readChar.readChar
        let l := { l with braceDepth := 1, hasCurrent := false }
        (newToken .EMBEXPR_BEGIN "#\x7b", l)
    else if state.interpolating ∧ l.ch = '#' ∧ (l.peekChar = '@' ∨ l.peekChar = '$') then
      if content.length > 0 then
        (setTokenPosition (newToken .STRING_CONTENT (String.mk content))
           startLine startColumn startOffset, l)
      else
        let l := l.readChar
        let l := { l with hasCurrent := false }
        (newToken .EMBVAR "#", l)
    else
      stringContentLoop startLine startColumn startOffset fuel
        l.readChar (content ++ [l.ch])

/-- `lexLessThan`. -/
def Lexer.lexLessThan (l : Lexer) : Token × Lexer :=
  if l.peekChar = '=' then
    let l := l.readChar
    if l.peekChar = '>' then
      let l := l.readChar
      (newToken .LESS_EQUAL_GREATER "<=>", ({ l with afterOperator := true }).readChar)
    else
      (newToken .LESS_EQUAL "<=", ({ l with afterOperator := true }).readChar)
  else if l.peekChar = '<' then
    let l := l.readChar
    if l.isHeredocStart then l.lexHeredocBegin
    else if l.peekChar = '=' then
      let l := l.readChar
      (newToken .LESS_LESS_EQUAL "<<=", ({ l with afterOperator := true }).readChar)
    else
      (newToken .LESS_LESS "<<", ({ l with afterOperator := true }).readChar)
  else
    (newToken .LESS "<", ({ l with afterOperator := true }).readChar)

/-- The shared tail of `NextToken`: reset `startOfLine` for all tokens except
newline/EOF, then stamp the token position. -/
def finishTok (tok : Token) (l : Lexer) (sl sc so : Nat) : Token × Lexer :=
  let l := if tok.type ≠ .NEWLINE ∧ tok.type ≠ .EOF then { l with startOfLine := false } else l
  (setTokenPosition tok sl sc so, l)

/-! The three arms of `NextToken` take the re-entry into `NextToken` (one
fuel level down) as the argument `recur`, so that `nextToken` itself is plain
structural recursion on the fuel and stays kernel-computable.  The fuel only
bounds the `\<backslash>\n` line-continuation self-recursion (each level
consumes two bytes) and the two dead-code re-entries in
`lexStringContent`/`lexHeredocBody`; the standard fuel `input.length + 2`
never runs out on reachable states. -/

/-- `lexStringContent` (dispatch part; the scalar loop is
`stringContentLoop`). -/
def lexStringContent (recur : Lexer → Token × Lexer) (l : Lexer) : Token × Lexer :=
  if ¬l.hasCurrent then recur l
  else if l.topState.mode = .modeHeredoc then l.lexHeredocContent
  else if l.topState.mode = .modeNone then l.lexEmbdocContent
  else if l.topState.mode = .modePercentW ∨ l.topState.mode = .modePercentWUpper ∨
          l.topState.mode = .modePercentI ∨ l.topState.mode = .modePercentIUpper then
    l.lexWordArrayContent
  else
    stringContentLoop l.line l.column l.position (l.input.length + 2) l []

/-- `lexHeredocBody` (the queue-driven reader; `heredocQueue` is in fact never
appended to anywhere in `lexer.go`, so this is dead code kept for fidelity). -/
def lexHeredocBody (recur : Lexer → Token × Lexer) (l : Lexer) : Token × Lexer :=
  match l.heredocQueue with
  | [] => recur l
  | state :: rest =>
    let l := { l with heredocQueue := rest, sawNewline := false }
    let ident := state.heredocIdent
    let (found, content, l) :=
      heredocLines state.heredocIndented ident (l.input.length + 2) l []
    if found then
      let contentTok := newToken .STRING_CONTENT (String.mk content)
      let l := l.pushStringState .modeHeredoc charNul charNul false
      let l := l.setTop (fun s => { s with heredocIdent := ident })
      (contentTok, l)
    else
      (newToken .STRING_CONTENT (String.mk content), l)

/-- The whitespace skip plus the main `switch l.ch` dispatch of `NextToken`. -/
def mainScan (recur : Lexer → Token × Lexer) (l : Lexer) : Token × Lexer :=
  let l := l.skipWhitespace
  let sl := l.line
  let sc := l.column
  let so := l.position
  if l.ch = '\n' then
    let tok := newToken .NEWLINE "\n"
    let l := l.readChar
    let l := { l with sawNewline := true, startOfLine := true,
                      afterOperator := false, afterKeyword := false,
                      afterIdent := false, afterRightParen := false,
                      afterRightBracket := false, afterDot := false }
    (setTokenPosition tok sl sc so, l)
  else if l.ch = charNul then
    finishTok (newToken .EOF "") l sl sc so
  else if l.ch = '+' then
    if l.peekChar = '=' then
      let l := l.readChar
      finishTok (newToken .PLUS_EQUAL "+=")
        ({ l with afterOperator := true, afterIdent := false }).readChar sl sc so
    else
      finishTok (newToken .PLUS "+")
        ({ l with afterOperator := false, afterIdent := false }).readChar sl sc so
  else if l.ch = '-' then
    if l.peekChar = '=' then
      let l := l.readChar
      finishTok (newToken .MINUS_EQUAL "-=")
        ({ l with afterOperator := true, afterIdent := false }).readChar sl sc so
    else if l.peekChar = '>' then
      let l := l.readChar
      finishTok (newToken .MINUS_GREATER "->")
        ({ l with afterOperator := true, afterIdent := false }).readChar sl sc so
    else
      finishTok (newToken .MINUS "-")
        ({ l with afterOperator := false, afterIdent := false }).readChar sl sc so
  else if l.ch = '*' then
    if l.peekChar = '*' then
      let l := l.readChar
      if l.peekChar = '=' then
        let l := l.readChar
        finishTok (newToken .STAR_STAR_EQUAL "**=")
          ({ l with afterOperator := true, afterIdent := false }).readChar sl sc so
      else
        finishTok (newToken .STAR_STAR "**")
          ({ l with afterOperator := false, afterIdent := false }).readChar sl sc so
    else if l.peekChar = '=' then
      let l := l.readChar
      finishTok (newToken .STAR_EQUAL "*=")
        ({ l with afterOperator := true, afterIdent := false }).readChar sl sc so
    else
      finishTok (newToken .STAR "*")
        ({ l with afterOperator := false, afterIdent := false }).readChar sl sc so
  else if l.ch = '/' then
    if l.peekChar = '=' then
      let l := l.readChar
      finishTok (newToken .SLASH_EQUAL "/=")
        ({ l with afterOperator := true }).readChar sl sc so
    else if l.shouldLexRegexp then
      let (tok, l) := l.lexRegexp
      finishTok tok l sl sc so
    else
      finishTok (newToken .SLASH "/")
        ({ l with afterOperator := false }).readChar sl sc so
  else if l.ch = '%' then
    if l.peekChar = '=' then
      let l := l.readChar
      finishTok (newToken .PERCENT_EQUAL "%=")
        ({ l with afterOperator := true }).readChar sl sc so
    else if l.isPercentLiteral then
      let (tok, l) := l.lexPercentLiteral
      finishTok tok { l with afterOperator := false, afterIdent := true } sl sc so
    else
      finishTok (newToken .PERCENT "%")
        ({ l with afterOperator := false, afterIdent := true }).readChar sl sc so
  else if l.ch = '&' then
    let (tok, l) :=
      if l.peekChar = '&' then
        let l := l.readChar
        if l.peekChar = '=' then (newToken .AMPERSAND_AMPERSAND_EQUAL "&&=", l.readChar)
        else (newToken .AMPERSAND_AMPERSAND "&&", l)
      else if l.peekChar = '=' then (newToken .AMPERSAND_EQUAL "&=", l.readChar)
      else if l.peekChar = '.' then (newToken .AMPERSAND_DOT "&.", l.readChar)
      else (newToken .AMPERSAND "&", l)
    finishTok tok ({ l with afterOperator := true }).readChar sl sc so
  else if l.ch = '|' then
    let (tok, l) :=
      if l.peekChar = '|' then
        let l := l.readChar
        if l.peekChar = '=' then (newToken .PIPE_PIPE_EQUAL "||=", l.readChar)
        else (newToken .PIPE_PIPE "||", l)
      else if l.peekChar = '=' then (newToken .PIPE_EQUAL "|=", l.readChar)
      else (newToken .PIPE "|", l)
    finishTok tok ({ l with afterOperator := true }).readChar sl sc so
  else if l.ch = '^' then
    let (tok, l) :=
      if l.peekChar = '=' then (newToken .CARET_EQUAL "^=", l.readChar)
      else (newToken .CARET "^", l)
    finishTok tok ({ l with afterOperator := true }).readChar sl sc so
  else if l.ch = '~' then
    finishTok (newToken .TILDE "~") ({ l with afterOperator := true }).readChar sl sc so
  else if l.ch = '<' then
    let (tok, l) := l.lexLessThan
    finishTok tok l sl sc so
  else if l.ch = '>' then
    let (tok, l) :=
      if l.peekChar = '=' then (newToken .GREATER_EQUAL ">=", l.readChar)
      else if l.peekChar = '>' then
        let l := l.readChar
        if l.peekChar = '=' then (newToken .GREATER_GREATER_EQUAL ">>=", l.readChar)
        else (newToken .GREATER_GREATER ">>", l)
      else (newToken .GREATER ">", l)
    finishTok tok ({ l with afterOperator := true }).readChar sl sc so
  else if l.ch = '=' then
    if l.peekChar = '=' then
      let l := l.readChar
      let (tok, l) :=
        if l.peekChar = '=' then (newToken .EQUAL_EQUAL_EQUAL "===", l.readChar)
        else (newToken .EQUAL_EQUAL "==", l)
      finishTok tok ({ l with afterOperator := true, afterIdent := false }).readChar sl sc so
    else if l.peekChar = '~' then
      let l := l.readChar
      finishTok (newToken .EQUAL_TILDE "=~")
        ({ l with afterOperator := true, afterIdent := false }).readChar sl sc so
    else if l.peekChar = '>' then
      let l := l.readChar
      finishTok (newToken .EQUAL_GREATER "=>")
        ({ l with afterOperator := true, afterIdent := false }).readChar sl sc so
    else if l.startOfLine ∧ l.peekChar = 'b' then
      -- the Go bound check is `readPosition+4 <= len`; the 5-byte slice is
      -- modelled totally (Go would panic when readPosition+4 = len)
      if l.readPosition + 4 ≤ l.input.length ∧
         subList l.input l.readPosition (l.readPosition + 5) =
           ['b', 'e', 'g', 'i', 'n'] then
        l.lexEmbeddedDoc
      else
        finishTok (newToken .EQUAL "=")
          ({ l with afterOperator := true, afterIdent := false }).readChar sl sc so
    else
      finishTok (newToken .EQUAL "=")
        ({ l with afterOperator := true, afterIdent := false }).readChar sl sc so
  else if l.ch = '!' then
    let (tok, l) :=
      if l.peekChar = '=' then (newToken .BANG_EQUAL "!=", l.readChar)
      else if l.peekChar = '~' then (newToken .BANG_TILDE "!~", l.readChar)
      else (newToken .BANG "!", l)
    finishTok tok ({ l with afterOperator := true, afterIdent := false }).readChar sl sc so
  else if l.ch = '.' then
    if l.peekChar = '.' then
      let l := l.readChar
      let (tok, l) :=
        if l.peekChar = '.' then (newToken .DOT_DOT_DOT "...", l.readChar)
        else (newToken .DOT_DOT "..", l)
      finishTok tok ({ l with afterOperator := true }).readChar sl sc so
    else
      finishTok (newToken .DOT ".") ({ l with afterDot := true }).readChar sl sc so
  else if l.ch = ':' then
    if l.peekChar = ':' then
      let l := l.readChar
      finishTok (newToken .COLON_COLON "::")
        ({ l with afterOperator := true }).readChar sl sc so
    else if l.peekChar = '"' then
      let l := l.readChar
      let l := l.pushStringState .modeSymbolDoubleQuote '"' charNul true
      finishTok (newToken .SYMBOL_BEGIN ":\"") l.readChar sl sc so
    else if l.peekChar = '\'' then
      let l := l.readChar
      let l := l.pushStringState .modeSymbolSingleQuote '\'' charNul false
      finishTok (newToken .SYMBOL_BEGIN ":'") l.readChar sl sc so
    else if isLetter l.peekChar ∨ l.peekChar = '_' then
      finishTok (newToken .SYMBOL_BEGIN ":") l.readChar sl sc so
    else
      finishTok (newToken .COLON ":") l.readChar sl sc so
  else if l.ch = ',' then
    finishTok (newToken .COMMA ",")
      ({ l with afterOperator := true, afterIdent := false }).readChar sl sc so
  else if l.ch = ';' then
    finishTok (newToken .SEMICOLON ";")
      ({ l with afterOperator := true, startOfLine := true }).readChar sl sc so
  else if l.ch = '(' then
    finishTok (newToken .LPAREN "(")
      ({ l with afterOperator := true, afterIdent := false }).readChar sl sc so
  else if l.ch = ')' then
    finishTok (newToken .RPAREN ")")
      ({ l with afterRightParen := true, afterOperator := false }).readChar sl sc so
  else if l.ch = '[' then
    finishTok (newToken .LBRACKET "[")
      ({ l with afterOperator := true, afterIdent := false }).readChar sl sc so
  else if l.ch = ']' then
    finishTok (newToken .RBRACKET "]")
      ({ l with afterRightBracket := true, afterOperator := false }).readChar sl sc so
  else if l.ch = '\x7b' then
    let l := if l.braceDepth > 0 then { l with braceDepth := l.braceDepth + 1 } else l
    finishTok (newToken .LBRACE "\x7b")
      ({ l with inLabelContext := true, afterOperator := true }).readChar sl sc so
  else if l.ch = '\x7d' then
    if l.braceDepth > 0 then
      let l := { l with braceDepth := l.braceDepth - 1 }
      if l.braceDepth = 0 ∧ l.stringStack ≠ [] then
        let tok := newToken .EMBEXPR_END "\x7d"
        let l := l.readChar
        let l := { l with hasCurrent := true }
        (setTokenPosition tok sl sc so, l)
      else
        finishTok (newToken .RBRACE "\x7d")
          ({ l with afterOperator := false, inLabelContext := false }).readChar sl sc so
    else
      finishTok (newToken .RBRACE "\x7d")
        ({ l with afterOperator := false, inLabelContext := false }).readChar sl sc so
  else if l.ch = '\'' then
    let l := l.pushStringStateWithBraceDepth .modeSingleQuote '\'' charNul false
    finishTok (newToken .STRING_BEGIN "'") l.readChar sl sc so
  else if l.ch = '"' then
    let l := l.pushStringStateWithBraceDepth .modeDoubleQuote '"' charNul true
    finishTok (newToken .STRING_BEGIN "\"") l.readChar sl sc so
  else if l.ch = '`' then
    let l := l.pushStringStateWithBraceDepth .modeBacktick '`' charNul true
    finishTok (newToken .XSTRING_BEGIN "`") l.readChar sl sc so
  else if l.ch = '#' then
    let (tok, l) := l.lexComment
    finishTok tok l sl sc so
  else if l.ch = '?' then
    if l.shouldLexCharLiteral then
      let (tok, l) := l.lexCharLiteral
      finishTok tok l sl sc so
    else
      finishTok (newToken .QUESTION "?") ({ l with afterOperator := true }).readChar sl sc so
  else if l.ch = '\\' then
    if l.peekChar = '\n' then
      recur l.readChar.readChar
    else
      finishTok (newToken .BACKSLASH "\\") l.readChar sl sc so
  else if l.ch = '@' then
    let (tok, l) := l.lexInstanceOrClassVariable
    let l := if l.stringStack ≠ [] ∧ ¬l.hasCurrent then { l with hasCurrent := true } else l
    finishTok tok l sl sc so
  else if l.ch = '$' then
    let (tok, l) := l.lexGlobalVariable
    let l := if l.stringStack ≠ [] ∧ ¬l.hasCurrent then { l with hasCurrent := true } else l
    finishTok tok l sl sc so
  else if isLetter l.ch ∨ l.ch = '_' then
    let (tok, l) := l.lexIdentifier
    (setTokenPosition tok sl sc so, l)
  else if isDigit l.ch then
    let (tok, l) := l.lexNumber
    (setTokenPosition tok sl sc so, l)
  else
    finishTok (newToken .ILLEGAL (String.mk [l.ch])) l.readChar sl sc so

/-- `NextToken`, fueled. -/
def nextToken : Nat → Lexer → Token × Lexer
  | 0, l => (newToken .EOF "", l)
  | f + 1, l =>
    if l.hasCurrent then lexStringContent (nextToken f) l
    else if l.heredocQueue.length > 0 ∧ l.sawNewline then lexHeredocBody (nextToken f) l
    else mainScan (nextToken f) l


/-- The standard fuel for one `NextToken` call. -/
def Lexer.lexFuel (l : Lexer) : Nat := l.input.length + 2

/-- One `NextToken` call with the standard (always sufficient) fuel. -/
def nextTokenTop (l : Lexer) : Token × Lexer := nextToken l.lexFuel l

/-- The lexer state after `n` calls of `NextToken`. -/
def lexIter : Nat → Lexer → Lexer
  | 0, l => l
  | n + 1, l => lexIter n (nextTokenTop l).2

/-- The token produced by call number `n + 1` of `NextToken` (0-indexed). -/
def lexNthToken (s : String) (n : Nat) : Token :=
  (nextTokenTop (lexIter n (Lexer.new s))).1

/-- The first `n` tokens of an input. -/
def lexTokens (s : String) (n : Nat) : List Token :=
  (List.range n).map (lexNthToken s)

/-! ## AST (`ast` package)

Fields that hold a Go interface/pointer that the parser can leave nil are
`Option`s.  `ast.MultipleAssignment`, `ast.BlockArgExpression` and
`ast.MagicComment` are declared in the ast package but never constructed by
the parser, so they are omitted.  Go renders every node via its `String()`
method; calling `String()` through a nil interface value would panic — the
total model renders such a hole as `"<nil>"` (no claim below ever prints
one). -/

set_option maxHeartbeats 1600000 in
mutual

inductive Expr where
  | integerLit (tok : Token) (value : Int)
  | floatLit (tok : Token) (value : String)
  | stringLit (tok : Token) (value : String)
  | interpString (tok : Token) (parts : List Expr)
  | symbolLit (tok : Token) (value : String)
  | regexpLit (tok : Token) (value : String) (flags : String)
  | nilLit (tok : Token)
  | boolLit (tok : Token) (value : Bool)
  | selfE (tok : Token)
  | ident (tok : Token) (value : String)
  | constant (tok : Token) (value : String)
  | ivar (tok : Token) (name : String)
  | cvar (tok : Token) (name : String)
  | gvar (tok : Token) (name : String)
  | arrayLit (tok : Token) (elements : List (Option Expr))
  | hashLit (tok : Token) (pairs : List (Expr × Option Expr)) (isKeywordArgs : Bool)
  | rangeLit (tok : Token) (start : Option Expr) (stop : Option Expr) (exclusive : Bool)
  | prefixE (tok : Token) (op : String) (right : Option Expr)
  | infixE (tok : Token) (left : Option Expr) (op : String) (right : Option Expr)
  | assignE (tok : Token) (left : Option Expr) (value : Option Expr)
  | opAssignE (tok : Token) (left : Option Expr) (op : String) (value : Option Expr)
  | methodCall (tok : Token) (receiver : Option Expr) (method : String)
      (args : List (Option Expr)) (blk : Option Blk) (safeNav : Bool)
  | indexE (tok : Token) (left : Option Expr) (index : Option Expr)
  | lambdaE (tok : Token) (params : List BlockParam) (body : Option BlockBody)
  | ifE (i : IfExpr)
  | ternary (tok : Token) (cond : Option Expr) (conseq : Option Expr) (alt : Option Expr)
  | modifierE (tok : Token) (body : Option Expr) (cond : Option Expr) (modifier : String)
  | caseE (tok : Token) (subject : Option Expr) (whens : List WhenClause)
      (elseBody : Option BlockBody)
  | whileE (tok : Token) (cond : Option Expr) (body : BlockBody) (untilF : Bool)
  | forE (tok : Token) (varE : Option Expr) (iterable : Option Expr) (body : BlockBody)
  | beginE (tok : Token) (body : BlockBody) (rescues : List RescueClause)
      (elseBody : Option BlockBody) (ensureBody : Option BlockBody)
  | yieldE (tok : Token) (args : List (Option Expr))
  | superE (tok : Token) (args : List (Option Expr)) (hasParens : Bool)
  | notE (tok : Token) (expr : Option Expr)
  | andE (tok : Token) (left : Option Expr) (right : Option Expr)
  | orE (tok : Token) (left : Option Expr) (right : Option Expr)
  | rescueModE (tok : Token) (body : Option Expr) (rescueE : Option Expr)
  | splatE (tok : Token) (expr : Option Expr)
  | doubleSplatE (tok : Token) (expr : Option Expr)
  | scopedConstant (tok : Token) (left : Option Expr) (name : String)
  | definedE (tok : Token) (expr : Option Expr)

/-- `ast.IfExpression` (its `Alternative` is itself an `*IfExpression`). -/
inductive IfExpr where
  | mk (tok : Token) (cond : Option Expr) (conseq : BlockBody)
      (alt : Option IfExpr) (elseBody : Option BlockBody) (unlessF : Bool)

/-- `ast.Block`. -/
inductive Blk where
  | mk (tok : Token) (params : List BlockParam) (body : BlockBody)

/-- `ast.BlockBody`. -/
inductive BlockBody where
  | mk (stmts : List Stmt)

/-- `ast.BlockParameter`. -/
inductive BlockParam where
  | mk (tok : Token) (name : String) (splatF dsplatF blockF : Bool) (dflt : Option Expr)

/-- `ast.MethodParameter`. -/
inductive MethodParam where
  | mk (tok : Token) (name : String) (splatF dsplatF blockF : Bool)
      (dflt : Option Expr) (keywordOnly : Bool)

/-- `ast.WhenClause`. -/
inductive WhenClause where
  | mk (tok : Token) (conds : List (Option Expr)) (body : BlockBody)

/-- `ast.RescueClause` (`Exceptions` only ever holds `*ast.Constant`s;
`Variable` is an `*ast.Identifier`). -/
inductive RescueClause where
  | mk (tok : Token) (exceptions : List Expr) (varBind : Option Expr) (body : BlockBody)

inductive Stmt where
  | exprStmt (tok : Token) (expr : Option Expr)
  | methodDef (tok : Token) (name : String) (receiver : Option Expr)
      (params : List MethodParam) (body : BlockBody)
  | classDef (tok : Token) (nameTok : Token) (nameVal : String)
      (superclass : Option Expr) (body : BlockBody)
  | singletonClassDef (tok : Token) (obj : Option Expr) (body : BlockBody)
  | moduleDef (tok : Token) (nameTok : Token) (nameVal : String) (body : BlockBody)
  | returnStmt (tok : Token) (value : Option Expr)
  | breakStmt (tok : Token) (value : Option Expr)
  | nextStmt (tok : Token) (value : Option Expr)
  | redoStmt (tok : Token)
  | retryStmt (tok : Token)
  | aliasStmt (tok : Token) (neu : Option Expr) (old : Option Expr)
  | undefStmt (tok : Token) (methods : List (Option Expr))

end

/-- `ast.Program`. -/
structure Program where
  statements : List Stmt

/-! The `String()` methods of the ast package, as one mutual family.  List
helpers replace Go's inline `for` loops building string slices. -/

/-- The `String()` methods of the ast package as one bundle, so that the
mutual recursion can be driven by a fuel (`printAt`) and stays
kernel-computable. -/
structure PrintFns where
  exprString : Expr → String
  optExprString : Option Expr → String
  optExprStrings : List (Option Expr) → List String
  interpPartStrings : List Expr → List String
  hashPairStrings : List (Expr × Option Expr) → List String
  ifExprString : IfExpr → String
  blkString : Blk → String
  blockParamString : BlockParam → String
  blockParamStrings : List BlockParam → List String
  methodParamString : MethodParam → String
  methodParamStrings : List MethodParam → List String
  blockBodyString : BlockBody → String
  stmtStrings : List Stmt → List String
  whenString : WhenClause → String
  whenStrings : List WhenClause → List String
  rescueString : RescueClause → String
  rescueStrings : List RescueClause → List String
  exprStrings : List Expr → List String
  stmtString : Stmt → String

namespace PrStep


/-- `String()` on an expression node. -/
def exprString (prev : PrintFns) : Expr → String
  | .integerLit tok _ => tok.literal
  | .floatLit tok _ => tok.literal
  | .stringLit _ v => "\"" ++ v ++ "\""
  | .interpString _ parts => "\"" ++ String.join (prev.interpPartStrings parts) ++ "\""
  | .symbolLit _ v => ":" ++ v
  | .regexpLit _ v flags => "/" ++ v ++ "/" ++ flags
  | .nilLit _ => "nil"
  | .boolLit _ v => if v then "true" else "false"
  | .selfE _ => "self"
  | .ident _ v => v
  | .constant _ v => v
  | .ivar _ n => n
  | .cvar _ n => n
  | .gvar _ n => n
  | .arrayLit _ elems => "[" ++ String.intercalate ", " (prev.optExprStrings elems) ++ "]"
  | .hashLit _ pairs _ =>
      "\x7b" ++ String.intercalate ", " (prev.hashPairStrings pairs) ++ "\x7d"
  | .rangeLit _ start stop exclusive =>
      (match start with | some s => prev.exprString s | none => "") ++
      (if exclusive then "..." else "..") ++
      (match stop with | some s => prev.exprString s | none => "")
  | .prefixE _ op right => "(" ++ op ++ prev.optExprString right ++ ")"
  | .infixE _ left op right =>
      "(" ++ prev.optExprString left ++ " " ++ op ++ " " ++ prev.optExprString right ++ ")"
  | .assignE _ left value => prev.optExprString left ++ " = " ++ prev.optExprString value
  | .opAssignE _ left op value =>
      prev.optExprString left ++ " " ++ op ++ " " ++ prev.optExprString value
  | .methodCall _ receiver method args blk safeNav =>
      (match receiver with
       | some r => prev.exprString r ++ (if safeNav then "&." else ".")
       | none => "") ++
      method ++
      (if args.length > 0 ∨ blk.isNone then
        "(" ++ String.intercalate ", " (prev.optExprStrings args) ++ ")"
       else "") ++
      (match blk with
       | some b => " " ++ prev.blkString b
       | none => "")
  | .indexE _ left index =>
      prev.optExprString left ++ "[" ++ prev.optExprString index ++ "]"
  | .lambdaE _ params body =>
      "->" ++
      (if params.length > 0 then
        "(" ++ String.intercalate ", " (prev.blockParamStrings params) ++ ")"
       else "") ++
      " \x7b " ++
      (match body with | some b => prev.blockBodyString b | none => "<nil>") ++
      " \x7d"
  | .ifE i => prev.ifExprString i
  | .ternary _ cond conseq alt =>
      prev.optExprString cond ++ " ? " ++ prev.optExprString conseq ++ " : " ++ prev.optExprString alt
  | .modifierE _ body cond modifier =>
      prev.optExprString body ++ " " ++ modifier ++ " " ++ prev.optExprString cond
  | .caseE _ subject whens elseBody =>
      "case" ++
      (match subject with | some s => " " ++ prev.exprString s | none => "") ++
      "\n" ++
      String.join ((prev.whenStrings whens).map (· ++ "\n")) ++
      (match elseBody with
       | some e => "else\n" ++ prev.blockBodyString e ++ "\n"
       | none => "") ++
      "end"
  | .whileE _ cond body untilF =>
      (if untilF then "until " else "while ") ++ prev.optExprString cond ++ "\n" ++
      prev.blockBodyString body ++ "\nend"
  | .forE _ varE iterable body =>
      "for " ++ prev.optExprString varE ++ " in " ++ prev.optExprString iterable ++ "\n" ++
      prev.blockBodyString body ++ "\nend"
  | .beginE _ body rescues elseBody ensureBody =>
      "begin\n" ++ prev.blockBodyString body ++
      String.join ((prev.rescueStrings rescues).map ("\n" ++ ·)) ++
      (match elseBody with
       | some e => "\nelse\n" ++ prev.blockBodyString e
       | none => "") ++
      (match ensureBody with
       | some e => "\nensure\n" ++ prev.blockBodyString e
       | none => "") ++
      "\nend"
  | .yieldE _ args =>
      "yield" ++
      (if args.length > 0 then
        "(" ++ String.intercalate ", " (prev.optExprStrings args) ++ ")"
       else "")
  | .superE _ args hasParens =>
      "super" ++
      (if hasParens ∨ args.length > 0 then
        "(" ++ String.intercalate ", " (prev.optExprStrings args) ++ ")"
       else "")
  | .notE _ e => "not " ++ prev.optExprString e
  | .andE _ l r => "(" ++ prev.optExprString l ++ " and " ++ prev.optExprString r ++ ")"
  | .orE _ l r => "(" ++ prev.optExprString l ++ " or " ++ prev.optExprString r ++ ")"
  | .rescueModE _ body rescueE =>
      prev.optExprString body ++ " rescue " ++ prev.optExprString rescueE
  | .splatE _ e => "*" ++ prev.optExprString e
  | .doubleSplatE _ e => "**" ++ prev.optExprString e
  | .scopedConstant _ left name =>
      (match left with | some l => prev.exprString l | none => "") ++ "::" ++ name
  | .definedE _ e => "defined?(" ++ prev.optExprString e ++ ")"

/-- `String()` through a possibly-nil `ast.Expression` (Go would panic on
nil; see the section comment). -/
def optExprString (prev : PrintFns) : Option Expr → String
  | some e => prev.exprString e
  | none => "<nil>"

def optExprStrings (prev : PrintFns) : List (Option Expr) → List String
  | [] => []
  | e :: es => prev.optExprString e :: prev.optExprStrings es

/-- The parts loop of `InterpolatedString.String()`. -/
def interpPartStrings (prev : PrintFns) : List Expr → List String
  | [] => []
  | .stringLit _ v :: es => v :: prev.interpPartStrings es
  | e :: es => ("#\x7b" ++ prev.exprString e ++ "\x7d") :: prev.interpPartStrings es

/-- The pairs loop of `HashLiteral.String()` (iterates `Order`, looking each
key up in `Pairs`; modelled as the insertion-ordered association list). -/
def hashPairStrings (prev : PrintFns) : List (Expr × Option Expr) → List String
  | [] => []
  | (k, v) :: ps => (prev.exprString k ++ " => " ++ prev.optExprString v) :: prev.hashPairStrings ps

/-- `IfExpression.String()`. -/
def ifExprString (prev : PrintFns) : IfExpr → String
  | .mk _ cond conseq alt elseBody unlessF =>
      (if unlessF then "unless " else "if ") ++
      prev.optExprString cond ++ "\n" ++ prev.blockBodyString conseq ++
      (match alt with
       | some a => "\nelsif " ++ prev.ifExprString a
       | none => "") ++
      (match elseBody with
       | some e => "\nelse\n" ++ prev.blockBodyString e
       | none => "") ++
      "\nend"

/-- `Block.String()`. -/
def blkString (prev : PrintFns) : Blk → String
  | .mk _ params body =>
      "\x7b " ++
      (if params.length > 0 then
        "|" ++ String.intercalate ", " (prev.blockParamStrings params) ++ "| "
       else "") ++
      prev.blockBodyString body ++ " \x7d"

/-- `BlockParameter.String()`. -/
def blockParamString (prev : PrintFns) : BlockParam → String
  | .mk _ name splatF dsplatF blockF dflt =>
      (if splatF then "*" else "") ++
      (if dsplatF then "**" else "") ++
      (if blockF then "&" else "") ++
      name ++
      (match dflt with
       | some d => " = " ++ prev.exprString d
       | none => "")

def blockParamStrings (prev : PrintFns) : List BlockParam → List String
  | [] => []
  | p :: ps => prev.blockParamString p :: prev.blockParamStrings ps

/-- `MethodParameter.String()`. -/
def methodParamString (prev : PrintFns) : MethodParam → String
  | .mk _ name splatF dsplatF blockF dflt keywordOnly =>
      (if splatF then "*" else "") ++
      (if dsplatF then "**" else "") ++
      (if blockF then "&" else "") ++
      name ++
      (if keywordOnly then
        ":" ++ (match dflt with | some d => " " ++ prev.exprString d | none => "")
       else
        match dflt with | some d => " = " ++ prev.exprString d | none => "")

def methodParamStrings (prev : PrintFns) : List MethodParam → List String
  | [] => []
  | p :: ps => prev.methodParamString p :: prev.methodParamStrings ps

/-- `BlockBody.String()` (statements joined by `"; "`). -/
def blockBodyString (prev : PrintFns) : BlockBody → String
  | .mk stmts => String.intercalate "; " (prev.stmtStrings stmts)

def stmtStrings (prev : PrintFns) : List Stmt → List String
  | [] => []
  | s :: ss => prev.stmtString s :: prev.stmtStrings ss

/-- `WhenClause.String()`. -/
def whenString (prev : PrintFns) : WhenClause → String
  | .mk _ conds body =>
      "when " ++ String.intercalate ", " (prev.optExprStrings conds) ++ "\n" ++
      prev.blockBodyString body

def whenStrings (prev : PrintFns) : List WhenClause → List String
  | [] => []
  | w :: ws => prev.whenString w :: prev.whenStrings ws

/-- `RescueClause.String()`. -/
def rescueString (prev : PrintFns) : RescueClause → String
  | .mk _ exceptions varBind body =>
      "rescue" ++
      (if exceptions.length > 0 then
        " " ++ String.intercalate ", " (prev.exprStrings exceptions)
       else "") ++
      (match varBind with
       | some v => " => " ++ prev.exprString v
       | none => "") ++
      "\n" ++ prev.blockBodyString body

def rescueStrings (prev : PrintFns) : List RescueClause → List String
  | [] => []
  | r :: rs => prev.rescueString r :: prev.rescueStrings rs

def exprStrings (prev : PrintFns) : List Expr → List String
  | [] => []
  | e :: es => prev.exprString e :: prev.exprStrings es

/-- `String()` on a statement node. -/
def stmtString (prev : PrintFns) : Stmt → String
  | .exprStmt _ expr =>
      match expr with
      | some e => prev.exprString e
      | none => ""
  | .methodDef _ name receiver params body =>
      "def " ++
      (match receiver with | some r => prev.exprString r ++ "." | none => "") ++
      name ++
      (if params.length > 0 then
        "(" ++ String.intercalate ", " (prev.methodParamStrings params) ++ ")"
       else "") ++
      "\n" ++ prev.blockBodyString body ++ "\nend"
  | .classDef _ _ nameVal superclass body =>
      "class " ++ nameVal ++
      (match superclass with
       | some s => " < " ++ prev.exprString s
       | none => "") ++
      "\n" ++ prev.blockBodyString body ++ "\nend"
  | .singletonClassDef _ obj body =>
      "class << " ++ prev.optExprString obj ++ "\n" ++ prev.blockBodyString body ++ "\nend"
  | .moduleDef _ _ nameVal body =>
      "module " ++ nameVal ++ "\n" ++ prev.blockBodyString body ++ "\nend"
  | .returnStmt _ value =>
      "return" ++ (match value with | some v => " " ++ prev.exprString v | none => "")
  | .breakStmt _ value =>
      "break" ++ (match value with | some v => " " ++ prev.exprString v | none => "")
  | .nextStmt _ value =>
      "next" ++ (match value with | some v => " " ++ prev.exprString v | none => "")
  | .redoStmt _ => "redo"
  | .retryStmt _ => "retry"
  | .aliasStmt _ neu old =>
      "alias " ++ prev.optExprString neu ++ " " ++ prev.optExprString old
  | .undefStmt _ methods =>
      "undef " ++ String.intercalate ", " (prev.optExprStrings methods)


end PrStep

/-- Fuel 0: every printer yields the neutral value (never reached with the
standard fuel). -/
def printZero : PrintFns where
    exprString := fun _ => ""
    optExprString := fun _ => ""
    optExprStrings := fun _ => []
    interpPartStrings := fun _ => []
    hashPairStrings := fun _ => []
    ifExprString := fun _ => ""
    blkString := fun _ => ""
    blockParamString := fun _ => ""
    blockParamStrings := fun _ => []
    methodParamString := fun _ => ""
    methodParamStrings := fun _ => []
    blockBodyString := fun _ => ""
    stmtStrings := fun _ => []
    whenString := fun _ => ""
    whenStrings := fun _ => []
    rescueString := fun _ => ""
    rescueStrings := fun _ => []
    exprStrings := fun _ => []
    stmtString := fun _ => ""

/-- One unfolding level of the mutual `String()` family. -/
def printStep (prev : PrintFns) : PrintFns where
    exprString := PrStep.exprString prev
    optExprString := PrStep.optExprString prev
    optExprStrings := PrStep.optExprStrings prev
    interpPartStrings := PrStep.interpPartStrings prev
    hashPairStrings := PrStep.hashPairStrings prev
    ifExprString := PrStep.ifExprString prev
    blkString := PrStep.blkString prev
    blockParamString := PrStep.blockParamString prev
    blockParamStrings := PrStep.blockParamStrings prev
    methodParamString := PrStep.methodParamString prev
    methodParamStrings := PrStep.methodParamStrings prev
    blockBodyString := PrStep.blockBodyString prev
    stmtStrings := PrStep.stmtStrings prev
    whenString := PrStep.whenString prev
    whenStrings := PrStep.whenStrings prev
    rescueString := PrStep.rescueString prev
    rescueStrings := PrStep.rescueStrings prev
    exprStrings := PrStep.exprStrings prev
    stmtString := PrStep.stmtString prev

/-- The `String()` family with recursion depth at most `fuel`. -/
def printAt : Nat → PrintFns
  | 0 => printZero
  | f + 1 => printStep (printAt f)


/-- `Program.String()`, printing with recursion depth at most `fuel`. -/
def programString (fuel : Nat) (p : Program) : String :=
  String.join ((printAt fuel).stmtStrings p.statements)

/-! ## Parser (`parser/parser.go`) -/

/-- The precedence constants (iota from 1). -/
def LOWEST : Nat := 1
def MODIFIER : Nat := 2
def RESCUE_MOD : Nat := 3
def ASSIGNMENT : Nat := 4
def TERNARY : Nat := 5
def RANGE : Nat := 6
def OR : Nat := 7
def AND : Nat := 8
def NOT : Nat := 9
def EQUALS : Nat := 10
def COMPARE : Nat := 11
def BITOR : Nat := 12
def BITAND : Nat := 13
def SHIFT : Nat := 14
def SUM : Nat := 15
def PRODUCT : Nat := 16
def UNARY : Nat := 17
def POWER : Nat := 18
def INDEX : Nat := 19
def CALL : Nat := 20

/-- The `precedences` map (Go map lookup by token type). -/
def precedences : TokenType → Option Nat
  | .KEYWORD_IF => some MODIFIER
  | .KEYWORD_IF_MODIFIER => some MODIFIER
  | .KEYWORD_UNLESS => some MODIFIER
  | .KEYWORD_UNLESS_MODIFIER => some MODIFIER
  | .KEYWORD_WHILE => some MODIFIER
  | .KEYWORD_WHILE_MODIFIER => some MODIFIER
  | .KEYWORD_UNTIL => some MODIFIER
  | .KEYWORD_UNTIL_MODIFIER => some MODIFIER
  | .KEYWORD_RESCUE => some RESCUE_MOD
  | .KEYWORD_RESCUE_MODIFIER => some RESCUE_MOD
  | .EQUAL => some ASSIGNMENT
  | .PLUS_EQUAL => some ASSIGNMENT
  | .MINUS_EQUAL => some ASSIGNMENT
  | .STAR_EQUAL => some ASSIGNMENT
  | .SLASH_EQUAL => some ASSIGNMENT
  | .PERCENT_EQUAL => some ASSIGNMENT
  | .STAR_STAR_EQUAL => some ASSIGNMENT
  | .AMPERSAND_EQUAL => some ASSIGNMENT
  | .PIPE_EQUAL => some ASSIGNMENT
  | .CARET_EQUAL => some ASSIGNMENT
  | .LESS_LESS_EQUAL => some ASSIGNMENT
  | .GREATER_GREATER_EQUAL => some ASSIGNMENT
  | .PIPE_PIPE_EQUAL => some ASSIGNMENT
  | .AMPERSAND_AMPERSAND_EQUAL => some ASSIGNMENT
  | .QUESTION => some TERNARY
  | .DOT_DOT => some RANGE
  | .DOT_DOT_DOT => some RANGE
  | .KEYWORD_OR => some OR
  | .KEYWORD_AND => some AND
  | .PIPE_PIPE => some (OR + 5)
  | .AMPERSAND_AMPERSAND => some (AND + 5)
  | .EQUAL_EQUAL => some EQUALS
  | .BANG_EQUAL => some EQUALS
  | .EQUAL_EQUAL_EQUAL => some EQUALS
  | .LESS_EQUAL_GREATER => some EQUALS
  | .EQUAL_TILDE => some EQUALS
  | .BANG_TILDE => some EQUALS
  | .LESS => some COMPARE
  | .GREATER => some COMPARE
  | .LESS_EQUAL => some COMPARE
  | .GREATER_EQUAL => some COMPARE
  | .PIPE => some BITOR
  | .CARET => some BITOR
  | .AMPERSAND => some BITAND
  | .LESS_LESS => some SHIFT
  | .GREATER_GREATER => some SHIFT
  | .PLUS => some SUM
  | .MINUS => some SUM
  | .STAR => some PRODUCT
  | .SLASH => some PRODUCT
  | .PERCENT => some PRODUCT
  | .STAR_STAR => some POWER
  | .LBRACKET => some INDEX
  | .DOT => some CALL
  | .AMPERSAND_DOT => some CALL
  | .COLON_COLON => some CALL
  | _ => none

/-- `Parser` (the two handler maps are global dispatch functions below; they
are populated once in `New` by key and only read by key, so they carry no
per-parser state). -/
structure Parser where
  lx : Lexer
  errors : List String
  curToken : Token
  peekToken : Token
  sawNewline : Bool
  deriving DecidableEq, Repr

/-- The skip loop in the parser's `nextToken` (skips `NEWLINE`,
`IGNORED_NEWLINE`, `COMMENT`, recording whether a `NEWLINE` was skipped). -/
def parserSkipLoop : Nat → Lexer → Token → Bool → (Lexer × Token × Bool)
  | 0, lx, pk, saw => (lx, pk, saw)
  | fuel + 1, lx, pk, saw =>
    if pk.type = .NEWLINE ∨ pk.type = .IGNORED_NEWLINE ∨ pk.type = .COMMENT then
      let saw := if pk.type = .NEWLINE then true else saw
      let (pk', lx') := nextTokenTop lx
      parserSkipLoop fuel lx' pk' saw
    else (lx, pk, saw)

/-- The parser's `nextToken`. -/
def Parser.nextToken (p : Parser) : Parser :=
  let cur := p.peekToken
  let (pk, lx) := nextTokenTop p.lx
  let (lx, pk, saw) := parserSkipLoop (lx.input.length + 2) lx pk false
  { p with curToken := cur, peekToken := pk, lx := lx, sawNewline := saw }

/-- `New` (handler registration is the global dispatch below; the Go
constructor ends by reading two tokens). -/
def Parser.new (l : Lexer) : Parser :=
  (({ lx := l, errors := [], curToken := zeroToken, peekToken := zeroToken,
      sawNewline := false } : Parser).nextToken).nextToken

def Parser.curTokenIs (p : Parser) (t : TokenType) : Bool := p.curToken.type = t

def Parser.peekTokenIs (p : Parser) (t : TokenType) : Bool := p.peekToken.type = t

/-- `peekPrecedence`. -/
def Parser.peekPrecedence (p : Parser) : Nat :=
  match precedences p.peekToken.type with
  | some prec => prec
  | none => LOWEST

/-- `curPrecedence`. -/
def Parser.curPrecedence (p : Parser) : Nat :=
  match precedences p.curToken.type with
  | some prec => prec
  | none => LOWEST

/-- Two lowercase hex digits of a byte (for `%q` escapes). -/
def hexByte (n : Nat) : String :=
  let digit := fun (d : Nat) =>
    if d < 10 then Char.ofNat ('0'.toNat + d) else Char.ofNat ('a'.toNat + d - 10)
  String.mk [digit (n / 16 % 16), digit (n % 16)]

/-- One character under Go's `%q` string verb (ASCII range; the inputs in
this development are ASCII). -/
def goQuoteChar (c : Char) : String :=
  if c = '"' then "\\\""
  else if c = '\\' then "\\\\"
  else if c = '\n' then "\\n"
  else if c = '\t' then "\\t"
  else if c = '\r' then "\\r"
  else if c = Char.ofNat 7 then "\\a"
  else if c = Char.ofNat 8 then "\\b"
  else if c = Char.ofNat 12 then "\\f"
  else if c = Char.ofNat 11 then "\\v"
  else if c.toNat < 32 ∨ c.toNat = 127 then "\\x" ++ hexByte c.toNat
  else String.mk [c]

/-- Go's `%q` verb on a string. -/
def goQuote (s : String) : String :=
  "\"" ++ String.join (s.data.map goQuoteChar) ++ "\""

/-- `peekError`: the diagnostic "expected next token to be <kind>, got <kind>
instead (literal: <literal>)". -/
def Parser.peekError (p : Parser) (t : TokenType) : Parser :=
  let msg := "expected next token to be " ++ t.goString ++ ", got " ++
             p.peekToken.type.goString ++ " instead (literal: " ++
             goQuote p.peekToken.literal ++ ")"
  { p with errors := p.errors ++ [msg] }

/-- `noPrefixParseFnError`: the diagnostic "no prefix parse function for
<kind> found (literal: <literal>)". -/
def Parser.noPrefixParseFnError (p : Parser) (t : TokenType) : Parser :=
  let msg := "no prefix parse function for " ++ t.goString ++
             " found (literal: " ++ goQuote p.curToken.literal ++ ")"
  { p with errors := p.errors ++ [msg] }

/-- `expectPeek`. -/
def Parser.expectPeek (p : Parser) (t : TokenType) : Bool × Parser :=
  if p.peekTokenIs t then (true, p.nextToken)
  else (false, p.peekError t)

/-- `peekIsStatementEnd`. -/
def Parser.peekIsStatementEnd (p : Parser) : Bool :=
  if p.sawNewline then true
  else
    p.peekTokenIs .EOF ∨ p.peekTokenIs .NEWLINE ∨ p.peekTokenIs .SEMICOLON ∨
    p.peekTokenIs .KEYWORD_END ∨ p.peekTokenIs .KEYWORD_ELSE ∨
    p.peekTokenIs .KEYWORD_ELSIF ∨ p.peekTokenIs .KEYWORD_WHEN ∨
    p.peekTokenIs .KEYWORD_RESCUE ∨ p.peekTokenIs .KEYWORD_ENSURE ∨
    p.peekTokenIs .RBRACE ∨ p.peekTokenIs .RPAREN ∨ p.peekTokenIs .RBRACKET

/-- `peekIsBlockKeyword`. -/
def Parser.peekIsBlockKeyword (p : Parser) : Bool :=
  p.peekTokenIs .KEYWORD_RESCUE ∨ p.peekTokenIs .KEYWORD_ELSE ∨
  p.peekTokenIs .KEYWORD_ENSURE ∨ p.peekTokenIs .KEYWORD_END ∨
  p.peekTokenIs .KEYWORD_ELSIF ∨ p.peekTokenIs .KEYWORD_WHEN

/-- Digit value in a base, for `strconv.ParseInt`. -/
def digitVal (base : Nat) (c : Char) : Option Nat :=
  let v : Option Nat :=
    if '0' ≤ c ∧ c ≤ '9' then some (c.toNat - '0'.toNat)
    else if 'a' ≤ c ∧ c ≤ 'z' then some (c.toNat - 'a'.toNat + 10)
    else if 'A' ≤ c ∧ c ≤ 'Z' then some (c.toNat - 'A'.toNat + 10)
    else none
  match v with
  | some d => if d < base then some d else none
  | none => none

/-- `strconv.ParseInt(s, base, 64)` for the (sign-free, underscore-free)
digit strings the parser feeds it: `none` models a non-nil error (invalid
syntax, empty string, or out of the int64 range). -/
def goParseInt (base : Nat) (s : List Char) : Option Int :=
  if s = [] then none
  else
    let step := fun (acc : Option Nat) (c : Char) =>
      match acc, digitVal base c with
      | some a, some d => some (a * base + d)
      | _, _ => none
    match s.foldl step (some 0) with
    | some v => if v ≤ 9223372036854775807 then some (Int.ofNat v) else none
    | none => none

/-- Syntactic validity under `strconv.ParseFloat(s, 64)` for the decimal
forms the lexer can produce (digits, one optional dot, optional exponent;
Go also accepts a leading sign, which the lexer never emits inside a FLOAT
literal).  Only validity is modelled: `ast.FloatLiteral.Value` is never
observed (its `String()` prints the token literal). -/
def goParseFloatOk (s : List Char) : Bool :=
  let s := match s with
           | '+' :: rest => rest
           | '-' :: rest => rest
           | _ => s
  let intPart := s.takeWhile fun c => isDigit c
  let s1 := s.dropWhile fun c => isDigit c
  let (fracPart, s2) :=
    match s1 with
    | '.' :: rest => (rest.takeWhile fun c => isDigit c, rest.dropWhile fun c => isDigit c)
    | _ => ([], s1)
  if intPart.length = 0 ∧ fracPart.length = 0 then false
  else
    match s2 with
    | [] => true
    | e :: rest =>
      if e = 'e' ∨ e = 'E' then
        let rest := match rest with
                    | '+' :: r => r
                    | '-' :: r => r
                    | _ => rest
        rest.length > 0 ∧ rest.all fun c => isDigit c
      else false

/-- `strings.TrimSuffix(s, ":")`. -/
def trimSuffixColon (s : String) : String :=
  match s.data.reverse with
  | ':' :: rest => String.mk rest.reverse
  | _ => s

/-- `strings.TrimPrefix(s, "/")`. -/
def trimSlashLeft (s : String) : String :=
  match s.data with
  | '/' :: rest => String.mk rest
  | _ => s

/-- Which prefix handler `New` registers for a token type (`registerPrefix`
calls in source order; lookup is by key). -/
inductive PrefixKind where
  | pIntegerLiteral | pFloatLiteral | pStringLiteral | pSimpleStringLiteral
  | pSymbolLiteral | pBooleanLiteral | pNilLiteral | pSelfExpression
  | pIdentifierFn | pConstant | pInstanceVariable | pClassVariable
  | pGlobalVariable | pPrefixExpression | pGroupedExpression | pArrayLiteral
  | pHashLiteral | pIfExpression | pUnlessExpression | pCaseExpression
  | pWhileExpression | pUntilExpression | pForExpression | pBeginExpression
  | pYieldExpression | pSuperExpression | pNotExpression | pDefinedExpression
  | pLambda | pRegexpLiteral | pTopLevelConstant | pLabelAsSymbol
  | pSplatExpression | pDoubleSplatExpression
  deriving DecidableEq, Repr

/-- `p.prefixParseFns` after `New`. -/
def prefixParseFnFor : TokenType → Option PrefixKind
  | .INTEGER => some .pIntegerLiteral
  | .FLOAT => some .pFloatLiteral
  | .STRING_BEGIN => some .pStringLiteral
  | .STRING_CONTENT => some .pSimpleStringLiteral
  | .SYMBOL_BEGIN => some .pSymbolLiteral
  | .COLON => some .pSymbolLiteral
  | .KEYWORD_TRUE => some .pBooleanLiteral
  | .KEYWORD_FALSE => some .pBooleanLiteral
  | .KEYWORD_NIL => some .pNilLiteral
  | .KEYWORD_SELF => some .pSelfExpression
  | .IDENT => some .pIdentifierFn
  | .CONSTANT => some .pConstant
  | .IVAR => some .pInstanceVariable
  | .CVAR => some .pClassVariable
  | .GVAR => some .pGlobalVariable
  | .BANG => some .pPrefixExpression
  | .MINUS => some .pPrefixExpression
  | .PLUS => some .pPrefixExpression
  | .TILDE => some .pPrefixExpression
  | .LPAREN => some .pGroupedExpression
  | .LPAREN_BEG => some .pGroupedExpression
  | .LBRACKET => some .pArrayLiteral
  | .LBRACKET_ARRAY => some .pArrayLiteral
  | .LBRACE => some .pHashLiteral
  | .KEYWORD_IF => some .pIfExpression
  | .KEYWORD_UNLESS => some .pUnlessExpression
  | .KEYWORD_CASE => some .pCaseExpression
  | .KEYWORD_WHILE => some .pWhileExpression
  | .KEYWORD_UNTIL => some .pUntilExpression
  | .KEYWORD_FOR => some .pForExpression
  | .KEYWORD_BEGIN => some .pBeginExpression
  | .KEYWORD_YIELD => some .pYieldExpression
  | .KEYWORD_SUPER => some .pSuperExpression
  | .KEYWORD_NOT => some .pNotExpression
  | .KEYWORD_DEFINED => some .pDefinedExpression
  | .MINUS_GREATER => some .pLambda
  | .REGEXP_BEGIN => some .pRegexpLiteral
  | .UCOLON_COLON => some .pTopLevelConstant
  | .LABEL => some .pLabelAsSymbol
  | .STAR => some .pSplatExpression
  | .STAR_STAR => some .pDoubleSplatExpression
  | _ => none

/-- Which infix handler `New` registers for a token type. -/
inductive InfixKind where
  | iInfixExpression | iRangeExpression | iAssignment | iOpAssignment
  | iIndexExpression | iMethodCall | iSafeNavigation | iScopedConstant
  | iTernaryExpression | iAndExpression | iOrExpression
  | iModifierIf | iModifierUnless | iModifierWhile | iModifierUntil
  | iRescueModifier
  deriving DecidableEq, Repr

/-- `p.infixParseFns` after `New`. -/
def infixParseFnFor : TokenType → Option InfixKind
  | .PLUS | .MINUS | .STAR | .SLASH | .PERCENT | .STAR_STAR
  | .EQUAL_EQUAL | .BANG_EQUAL | .EQUAL_EQUAL_EQUAL | .LESS_EQUAL_GREATER
  | .LESS | .GREATER | .LESS_EQUAL | .GREATER_EQUAL
  | .AMPERSAND_AMPERSAND | .PIPE_PIPE | .AMPERSAND | .PIPE | .CARET
  | .LESS_LESS | .GREATER_GREATER | .EQUAL_TILDE | .BANG_TILDE =>
      some .iInfixExpression
  | .DOT_DOT | .DOT_DOT_DOT => some .iRangeExpression
  | .EQUAL => some .iAssignment
  | .PLUS_EQUAL | .MINUS_EQUAL | .STAR_EQUAL | .SLASH_EQUAL | .PERCENT_EQUAL
  | .STAR_STAR_EQUAL | .PIPE_PIPE_EQUAL | .AMPERSAND_AMPERSAND_EQUAL
  | .AMPERSAND_EQUAL | .PIPE_EQUAL | .CARET_EQUAL | .LESS_LESS_EQUAL
  | .GREATER_GREATER_EQUAL => some .iOpAssignment
  | .LBRACKET => some .iIndexExpression
  | .DOT => some .iMethodCall
  | .AMPERSAND_DOT => some .iSafeNavigation
  | .COLON_COLON => some .iScopedConstant
  | .QUESTION => some .iTernaryExpression
  | .KEYWORD_AND => some .iAndExpression
  | .KEYWORD_OR => some .iOrExpression
  | .KEYWORD_IF | .KEYWORD_IF_MODIFIER => some .iModifierIf
  | .KEYWORD_UNLESS | .KEYWORD_UNLESS_MODIFIER => some .iModifierUnless
  | .KEYWORD_WHILE | .KEYWORD_WHILE_MODIFIER => some .iModifierWhile
  | .KEYWORD_UNTIL | .KEYWORD_UNTIL_MODIFIER => some .iModifierUntil
  | .KEYWORD_RESCUE | .KEYWORD_RESCUE_MODIFIER => some .iRescueModifier
  | _ => none

/-! Handlers that neither pull expressions nor loop (defined outside the
fueled mutual block). -/

/-- `parseIntegerLiteral`. -/
def parseIntegerLiteral (p : Parser) : Option Expr × Parser :=
  let tok := p.curToken
  let literal := p.curToken.literal.data.filter (· ≠ '_')
  let value :=
    if literal.take 2 = ['0', 'x'] ∨ literal.take 2 = ['0', 'X'] then
      goParseInt 16 (literal.drop 2)
    else if literal.take 2 = ['0', 'o'] ∨ literal.take 2 = ['0', 'O'] then
      goParseInt 8 (literal.drop 2)
    else if literal.take 2 = ['0', 'b'] ∨ literal.take 2 = ['0', 'B'] then
      goParseInt 2 (literal.drop 2)
    else
      goParseInt 10 literal
  match value with
  | none =>
      let msg := "could not parse " ++ goQuote p.curToken.literal ++ " as integer"
      (none, { p with errors := p.errors ++ [msg] })
  | some v => (some (.integerLit tok v), p)

/-- `parseFloatLiteral`. -/
def parseFloatLiteral (p : Parser) : Option Expr × Parser :=
  let tok := p.curToken
  let literal := p.curToken.literal.data.filter (· ≠ '_')
  if goParseFloatOk literal then
    (some (.floatLit tok (String.mk literal)), p)
  else
    let msg := "could not parse " ++ goQuote p.curToken.literal ++ " as float"
    (none, { p with errors := p.errors ++ [msg] })

/-- `parseSimpleStringLiteral`. -/
def parseSimpleStringLiteral (p : Parser) : Option Expr × Parser :=
  (some (.stringLit p.curToken p.curToken.literal), p)

/-- `parseLabelAsSymbol`. -/
def parseLabelAsSymbol (p : Parser) : Option Expr × Parser :=
  (some (.symbolLit p.curToken (trimSuffixColon p.curToken.literal)), p)

/-- `parseBooleanLiteral`. -/
def parseBooleanLiteral (p : Parser) : Option Expr × Parser :=
  (some (.boolLit p.curToken (p.curTokenIs .KEYWORD_TRUE)), p)

/-- `parseNilLiteral`. -/
def parseNilLiteral (p : Parser) : Option Expr × Parser :=
  (some (.nilLit p.curToken), p)

/-- `parseSelfExpression`. -/
def parseSelfExpression (p : Parser) : Option Expr × Parser :=
  (some (.selfE p.curToken), p)

/-- `parseConstant`. -/
def parseConstant (p : Parser) : Option Expr × Parser :=
  (some (.constant p.curToken p.curToken.literal), p)

/-- `parseInstanceVariable`. -/
def parseInstanceVariable (p : Parser) : Option Expr × Parser :=
  (some (.ivar p.curToken p.curToken.literal), p)

/-- `parseClassVariable`. -/
def parseClassVariable (p : Parser) : Option Expr × Parser :=
  (some (.cvar p.curToken p.curToken.literal), p)

/-- `parseGlobalVariable`. -/
def parseGlobalVariable (p : Parser) : Option Expr × Parser :=
  (some (.gvar p.curToken p.curToken.literal), p)

/-- The token-collecting loop of `parseRegexpLiteral`, fueled. -/
def regexpContentLoop : Nat → Parser → List Char → (List Char × Parser)
  | 0, p, content => (content, p)
  | fuel + 1, p, content =>
    if ¬p.curTokenIs .REGEXP_END ∧ ¬p.curTokenIs .EOF then
      regexpContentLoop fuel p.nextToken (content ++ p.curToken.literal.data)
    else (content, p)

/-- `parseRegexpLiteral`. -/
def parseRegexpLiteral (p : Parser) : Option Expr × Parser :=
  let tok := p.curToken
  let p := p.nextToken
  let (content, p) := regexpContentLoop (2 * p.lx.input.length + 8) p []
  let flags :=
    if p.curTokenIs .REGEXP_END then trimSlashLeft p.curToken.literal else ""
  (some (.regexpLit tok (String.mk content) flags), p)

/-- `parseScopedConstant` (infix `::`). -/
def parseScopedConstant (left : Option Expr) (p : Parser) : Option Expr × Parser :=
  let tok := p.curToken
  let p := p.nextToken
  (some (.scopedConstant tok left p.curToken.literal), p)

/-- `parseTopLevelConstant` (the `::` prefix handler; note the Go function
builds the node from the token *after* `::`). -/
def parseTopLevelConstant (p : Parser) : Option Expr × Parser :=
  let p := p.nextToken
  (some (.scopedConstant p.curToken none p.curToken.literal), p)

/-- `parseRedoStatement`. -/
def parseRedoStatement (p : Parser) : Stmt × Parser :=
  (.redoStmt p.curToken, p)

/-- `parseRetryStatement`. -/
def parseRetryStatement (p : Parser) : Stmt × Parser :=
  (.retryStmt p.curToken, p)

/-- The elsif-chain attachment of `parseIfExpression` (walk `Alternative` to
the end of the chain and attach there). -/
def appendAlt : IfExpr → IfExpr → IfExpr
  | .mk t c q none e u, n => .mk t c q (some n) e u
  | .mk t c q (some a) e u, n => .mk t c q (some (appendAlt a n)) e u

/-- The comma loop over exception types in `parseRescueClause` (builds
`*ast.Constant`s straight from tokens). -/
def rescueExcLoop : Nat → Parser → List Expr → (List Expr × Parser)
  | 0, p, acc => (acc, p)
  | fuel + 1, p, acc =>
    if p.peekTokenIs .COMMA then
      let p := p.nextToken.nextToken
      rescueExcLoop fuel p (acc ++ [Expr.constant p.curToken p.curToken.literal])
    else (acc, p)

/-- The "rescue in method body: skip to end" loop of `parseMethodBody`. -/
def skipToEnd : Nat → Parser → Parser
  | 0, p => p
  | fuel + 1, p =>
    if ¬p.curTokenIs .KEYWORD_END ∧ ¬p.curTokenIs .EOF then skipToEnd fuel p.nextToken
    else p

/-! The remaining parser functions are mutually recursive through
`parseExpression` and the registered handlers; all take a fuel first.  Fuel 0
returns a neutral value (`none` for a nullable expression, the empty
list/body otherwise); the top-level entry points pick a fuel large enough
for the inputs considered, and no proof below depends on a fuel-0 branch. -/

/-! The parser functions below are mutually recursive through
`parseExpression` and the registered handlers.  As with the lexer, the
recursion is driven by a fuel: `ParseFns` bundles one recursion level of every
function, `parseStep` is the (non-recursive) body of each Go function with all
recursive calls taken from the previous level, and `parseAt fuel` iterates it,
which keeps every definition kernel-computable.  At fuel 0 every function
returns a neutral value (`none` for a nullable expression, the empty
list/body otherwise); the top-level entry points pick a fuel large enough for
the inputs considered, and no proof below depends on a fuel-0 value. -/
structure ParseFns where
  parseProgram : Parser → Program × Parser
  parseProgramLoop : Parser → List Stmt → List Stmt × Parser
  parseStatement : Parser → Stmt × Parser
  parseExpressionStatement : Parser → Stmt × Parser
  parseExpression : Nat → Parser → Option Expr × Parser
  parseExprLoop : Nat → Option Expr → Parser → Option Expr × Parser
  parseBlockContextExpressionStatement : Parser → Stmt × Parser
  parseBlockContextExpression : Nat → Parser → Option Expr × Parser
  blockCtxExprLoop : Nat → Option Expr → Parser → Option Expr × Parser
  parseBlockContextStatement : Parser → Stmt × Parser
  runPrefixFn : PrefixKind → Parser → Option Expr × Parser
  runInfixFn : InfixKind → Option Expr → Parser → Option Expr × Parser
  parseStringLiteral : Parser → Option Expr × Parser
  stringLitLoop : Token → Parser → List Expr → List Char → Bool → Option Expr × Parser
  parseSymbolLiteral : Parser → Option Expr × Parser
  parseIdentifierFn : Parser → Option Expr × Parser
  parseMethodCallWithoutParens : Token → String → Parser → Option Expr × Parser
  parseMethodCallWithParens : Token → String → Parser → Option Expr × Parser
  parseMethodCallWithBlock : Token → String → List (Option Expr) → Parser → Option Expr × Parser
  parseArgumentsWithoutParens : Parser → List (Option Expr) × Parser
  argsNoParensLoop : Parser → List (Option Expr) → List (Option Expr) × Parser
  parseExpressionList : TokenType → Parser → List (Option Expr) × Parser
  exprListCommaLoop : TokenType → Parser → List (Option Expr) → List (Option Expr) × Bool × Parser
  parseImplicitHash : TokenType → Parser → Option Expr × Parser
  implicitHashLoop : TokenType → Token → Parser → List (Expr × Option Expr) → Option Expr × Parser
  implicitHashPair : TokenType → Token → String → Parser → List (Expr × Option Expr) → Option Expr × Parser
  parseHashLiteral : Parser → Option Expr × Parser
  hashLitLoop : Token → Parser → List (Expr × Option Expr) → Option Expr × Parser
  parsePrefixExpression : Parser → Option Expr × Parser
  parseGroupedExpression : Parser → Option Expr × Parser
  parseArrayLiteral : Parser → Option Expr × Parser
  parseInfixExpression : Option Expr → Parser → Option Expr × Parser
  parseRangeExpression : Option Expr → Parser → Option Expr × Parser
  parseAssignment : Option Expr → Parser → Option Expr × Parser
  parseOpAssignment : Option Expr → Parser → Option Expr × Parser
  parseIndexExpression : Option Expr → Parser → Option Expr × Parser
  parseMethodCall : Option Expr → Parser → Option Expr × Parser
  parseSafeNavigation : Option Expr → Parser → Option Expr × Parser
  parseTernaryExpression : Option Expr → Parser → Option Expr × Parser
  parseAndExpression : Option Expr → Parser → Option Expr × Parser
  parseOrExpression : Option Expr → Parser → Option Expr × Parser
  parseModifierIf : Option Expr → Parser → Option Expr × Parser
  parseModifierUnless : Option Expr → Parser → Option Expr × Parser
  parseModifierWhile : Option Expr → Parser → Option Expr × Parser
  parseModifierUntil : Option Expr → Parser → Option Expr × Parser
  parseRescueModifier : Option Expr → Parser → Option Expr × Parser
  parseBlock : Parser → Blk × Parser
  parseBlockParameters : Parser → List BlockParam × Parser
  blockParamsLoop : Parser → List BlockParam → List BlockParam × Parser
  parseBlockBody : Bool → Parser → BlockBody × Parser
  stmtsUntil : (Parser → Bool) → Bool → Parser → List Stmt → List Stmt × Parser
  parseIfExpression : Parser → Option Expr × Parser
  elsifLoop : Parser → Option IfExpr → Option IfExpr × Parser
  parseUnlessExpression : Parser → Option Expr × Parser
  parseConsequence : Parser → BlockBody × Parser
  parseBlockBodyUntilEnd : Parser → BlockBody × Parser
  parseCaseExpression : Parser → Option Expr × Parser
  caseWhensLoop : Parser → List WhenClause → List WhenClause × Parser
  parseWhenClause : Parser → WhenClause × Parser
  whenCondLoop : Parser → List (Option Expr) → List (Option Expr) × Parser
  parseWhileExpression : Parser → Option Expr × Parser
  parseUntilExpression : Parser → Option Expr × Parser
  parseForExpression : Parser → Option Expr × Parser
  parseLoopBody : Parser → BlockBody × Parser
  parseBeginExpression : Parser → Option Expr × Parser
  rescueClausesLoop : Parser → List RescueClause → List RescueClause × Parser
  parseRescueClause : Parser → RescueClause × Parser
  parseYieldExpression : Parser → Option Expr × Parser
  parseSuperExpression : Parser → Option Expr × Parser
  parseNotExpression : Parser → Option Expr × Parser
  parseDefinedExpression : Parser → Option Expr × Parser
  parseLambda : Parser → Option Expr × Parser
  parseLambdaParameters : Parser → List BlockParam × Parser
  lambdaParamsLoop : Parser → List BlockParam → List BlockParam × Parser
  parseSplatExpression : Parser → Option Expr × Parser
  parseDoubleSplatExpression : Parser → Option Expr × Parser
  parseMethodDefinition : Parser → Stmt × Parser
  parseMethodParameters : Parser → List MethodParam × Parser
  methodParamsLoop : Parser → List MethodParam → List MethodParam × Parser
  parseMethodParametersWithoutParens : Parser → List MethodParam × Parser
  methodParamsNPLoop : Parser → List MethodParam → List MethodParam × Parser
  parseMethodBody : Parser → BlockBody × Parser
  parseClassDefinition : Parser → Stmt × Parser
  parseSingletonClassDefinition : Parser → Stmt × Parser
  parseClassBody : Parser → BlockBody × Parser
  parseModuleDefinition : Parser → Stmt × Parser
  parseReturnStatement : Parser → Stmt × Parser
  parseBreakStatement : Parser → Stmt × Parser
  parseNextStatement : Parser → Stmt × Parser
  parseAliasStatement : Parser → Stmt × Parser
  parseUndefStatement : Parser → Stmt × Parser
  undefCommaLoop : Parser → List (Option Expr) → List (Option Expr) × Parser

namespace PStep

/-- `ParseProgram`. -/
def parseProgram (prev : ParseFns) (p : Parser) :
    Program × Parser :=
  let (stmts, p) := prev.parseProgramLoop p []
  ({ statements := stmts }, p)

/-- The statement loop of `ParseProgram` (`parseStatement` never returns a
nil interface in Go — every branch returns a freshly allocated node — so the
`stmt != nil` filter always appends). -/
def parseProgramLoop (prev : ParseFns) (p : Parser) (acc : List Stmt) :
    List Stmt × Parser :=
  if ¬p.curTokenIs .EOF then
    let (stmt, p) := prev.parseStatement p
    prev.parseProgramLoop p.nextToken (acc ++ [stmt])
  else (acc, p)

/-- `parseStatement`. -/
def parseStatement (prev : ParseFns) (p : Parser) :
    Stmt × Parser :=
  match p.curToken.type with
  | .KEYWORD_DEF => prev.parseMethodDefinition p
  | .KEYWORD_CLASS => prev.parseClassDefinition p
  | .KEYWORD_MODULE => prev.parseModuleDefinition p
  | .KEYWORD_RETURN => prev.parseReturnStatement p
  | .KEYWORD_BREAK => prev.parseBreakStatement p
  | .KEYWORD_NEXT => prev.parseNextStatement p
  | .KEYWORD_REDO => parseRedoStatement p
  | .KEYWORD_RETRY => parseRetryStatement p
  | .KEYWORD_ALIAS => prev.parseAliasStatement p
  | .KEYWORD_UNDEF => prev.parseUndefStatement p
  | _ => prev.parseExpressionStatement p

/-- `parseExpressionStatement`. -/
def parseExpressionStatement (prev : ParseFns) (p : Parser) :
    Stmt × Parser :=
  let tok := p.curToken
  let (e, p) := prev.parseExpression LOWEST p
  (.exprStmt tok e, p)

/-- `parseExpression`. -/
def parseExpression (prev : ParseFns) (precedence : Nat) (p : Parser) :
    Option Expr × Parser :=
  match prefixParseFnFor p.curToken.type with
  | none => (none, p.noPrefixParseFnError p.curToken.type)
  | some k =>
    let (leftExp, p) := prev.runPrefixFn k p
    prev.parseExprLoop precedence leftExp p

/-- The infix loop of `parseExpression`. -/
def parseExprLoop (prev : ParseFns) (precedence : Nat) (leftExp : Option Expr) (p : Parser) :
    Option Expr × Parser :=
  if ¬p.peekTokenIs .EOF ∧ precedence < p.peekPrecedence then
    match infixParseFnFor p.peekToken.type with
    | none => (leftExp, p)
    | some k =>
      let p := p.nextToken
      let (leftExp, p) := prev.runInfixFn k leftExp p
      prev.parseExprLoop precedence leftExp p
  else (leftExp, p)

/-- `parseBlockContextExpressionStatement`. -/
def parseBlockContextExpressionStatement (prev : ParseFns) (p : Parser) :
    Stmt × Parser :=
  let tok := p.curToken
  let (e, p) := prev.parseBlockContextExpression LOWEST p
  (.exprStmt tok e, p)

/-- `parseBlockContextExpression`. -/
def parseBlockContextExpression (prev : ParseFns) (precedence : Nat) (p : Parser) :
    Option Expr × Parser :=
  match prefixParseFnFor p.curToken.type with
  | none => (none, p.noPrefixParseFnError p.curToken.type)
  | some k =>
    let (leftExp, p) := prev.runPrefixFn k p
    prev.blockCtxExprLoop precedence leftExp p

/-- The infix loop of `parseBlockContextExpression`. -/
def blockCtxExprLoop (prev : ParseFns) (precedence : Nat) (leftExp : Option Expr) (p : Parser) :
    Option Expr × Parser :=
  if ¬p.peekTokenIs .EOF ∧ ¬p.peekIsBlockKeyword ∧ precedence < p.peekPrecedence then
    match infixParseFnFor p.peekToken.type with
    | none => (leftExp, p)
    | some k =>
      let p := p.nextToken
      let (leftExp, p) := prev.runInfixFn k leftExp p
      prev.blockCtxExprLoop precedence leftExp p
  else (leftExp, p)

/-- `parseBlockContextStatement`. -/
def parseBlockContextStatement (prev : ParseFns) (p : Parser) :
    Stmt × Parser :=
  match p.curToken.type with
  | .KEYWORD_DEF => prev.parseMethodDefinition p
  | .KEYWORD_CLASS => prev.parseClassDefinition p
  | .KEYWORD_MODULE => prev.parseModuleDefinition p
  | .KEYWORD_RETURN => prev.parseReturnStatement p
  | .KEYWORD_BREAK => prev.parseBreakStatement p
  | .KEYWORD_NEXT => prev.parseNextStatement p
  | .KEYWORD_REDO => parseRedoStatement p
  | .KEYWORD_RETRY => parseRetryStatement p
  | .KEYWORD_ALIAS => prev.parseAliasStatement p
  | .KEYWORD_UNDEF => prev.parseUndefStatement p
  | _ => prev.parseBlockContextExpressionStatement p

/-- Dispatch through the prefix-handler map. -/
def runPrefixFn (prev : ParseFns) (k : PrefixKind) (p : Parser) :
    Option Expr × Parser :=
  match k with
  | .pIntegerLiteral => parseIntegerLiteral p
  | .pFloatLiteral => parseFloatLiteral p
  | .pStringLiteral => prev.parseStringLiteral p
  | .pSimpleStringLiteral => parseSimpleStringLiteral p
  | .pSymbolLiteral => prev.parseSymbolLiteral p
  | .pBooleanLiteral => parseBooleanLiteral p
  | .pNilLiteral => parseNilLiteral p
  | .pSelfExpression => parseSelfExpression p
  | .pIdentifierFn => prev.parseIdentifierFn p
  | .pConstant => parseConstant p
  | .pInstanceVariable => parseInstanceVariable p
  | .pClassVariable => parseClassVariable p
  | .pGlobalVariable => parseGlobalVariable p
  | .pPrefixExpression => prev.parsePrefixExpression p
  | .pGroupedExpression => prev.parseGroupedExpression p
  | .pArrayLiteral => prev.parseArrayLiteral p
  | .pHashLiteral => prev.parseHashLiteral p
  | .pIfExpression => prev.parseIfExpression p
  | .pUnlessExpression => prev.parseUnlessExpression p
  | .pCaseExpression => prev.parseCaseExpression p
  | .pWhileExpression => prev.parseWhileExpression p
  | .pUntilExpression => prev.parseUntilExpression p
  | .pForExpression => prev.parseForExpression p
  | .pBeginExpression => prev.parseBeginExpression p
  | .pYieldExpression => prev.parseYieldExpression p
  | .pSuperExpression => prev.parseSuperExpression p
  | .pNotExpression => prev.parseNotExpression p
  | .pDefinedExpression => prev.parseDefinedExpression p
  | .pLambda => prev.parseLambda p
  | .pRegexpLiteral => parseRegexpLiteral p
  | .pTopLevelConstant => parseTopLevelConstant p
  | .pLabelAsSymbol => parseLabelAsSymbol p
  | .pSplatExpression => prev.parseSplatExpression p
  | .pDoubleSplatExpression => prev.parseDoubleSplatExpression p

/-- Dispatch through the infix-handler map. -/
def runInfixFn (prev : ParseFns) (k : InfixKind) (left : Option Expr) (p : Parser) :
    Option Expr × Parser :=
  match k with
  | .iInfixExpression => prev.parseInfixExpression left p
  | .iRangeExpression => prev.parseRangeExpression left p
  | .iAssignment => prev.parseAssignment left p
  | .iOpAssignment => prev.parseOpAssignment left p
  | .iIndexExpression => prev.parseIndexExpression left p
  | .iMethodCall => prev.parseMethodCall left p
  | .iSafeNavigation => prev.parseSafeNavigation left p
  | .iScopedConstant => parseScopedConstant left p
  | .iTernaryExpression => prev.parseTernaryExpression left p
  | .iAndExpression => prev.parseAndExpression left p
  | .iOrExpression => prev.parseOrExpression left p
  | .iModifierIf => prev.parseModifierIf left p
  | .iModifierUnless => prev.parseModifierUnless left p
  | .iModifierWhile => prev.parseModifierWhile left p
  | .iModifierUntil => prev.parseModifierUntil left p
  | .iRescueModifier => prev.parseRescueModifier left p

/-- `parseStringLiteral` (entry: capture the begin token, advance, loop). -/
def parseStringLiteral (prev : ParseFns) (p : Parser) :
    Option Expr × Parser :=
  let startToken := p.curToken
  prev.stringLitLoop startToken p.nextToken [] [] false

/-- The token loop of `parseStringLiteral`. -/
def stringLitLoop (prev : ParseFns) (startToken : Token) (p : Parser) (parts : List Expr) (content : List Char) (hasInterpolation : Bool) :
    Option Expr × Parser :=
  if ¬p.curTokenIs .STRING_END ∧ ¬p.curTokenIs .EOF then
    if p.curToken.type = .STRING_CONTENT then
      prev.stringLitLoop startToken p.nextToken parts
        (content ++ p.curToken.literal.data) hasInterpolation
    else if p.curToken.type = .EMBEXPR_BEGIN then
      let (parts, content) :=
        if content.length > 0 then
          (parts ++ [Expr.stringLit p.curToken (String.mk content)], ([] : List Char))
        else (parts, content)
      let p := p.nextToken
      let (expr, p) := prev.parseExpression LOWEST p
      let parts := match expr with | some e => parts ++ [e] | none => parts
      let (_, p) := p.expectPeek .EMBEXPR_END
      prev.stringLitLoop startToken p.nextToken parts content true
    else if p.curToken.type = .EMBVAR then
      let (parts, content) :=
        if content.length > 0 then
          (parts ++ [Expr.stringLit p.curToken (String.mk content)], ([] : List Char))
        else (parts, content)
      let p := p.nextToken
      let (expr, p) := prev.parseExpression LOWEST p
      let parts := match expr with | some e => parts ++ [e] | none => parts
      -- `continue`: parseExpression already advanced, skip the common nextToken
      prev.stringLitLoop startToken p parts content true
    else
      prev.stringLitLoop startToken p.nextToken parts
        (content ++ p.curToken.literal.data) hasInterpolation
  else
    let parts :=
      if content.length > 0 ∨ parts.length = 0 then
        parts ++ [Expr.stringLit startToken (String.mk content)]
      else parts
    if hasInterpolation then (some (.interpString startToken parts), p)
    else (some (.stringLit startToken (String.mk content)), p)

/-- `parseSymbolLiteral`. -/
def parseSymbolLiteral (prev : ParseFns) (p : Parser) :
    Option Expr × Parser :=
  let tok := p.curToken
  let p := if p.curTokenIs .COLON ∨ p.curTokenIs .SYMBOL_BEGIN then p.nextToken else p
  let (value, p) :=
    if p.curToken.type = .IDENT ∨ p.curToken.type = .CONSTANT ∨
       p.curToken.type = .METHOD_NAME then
      (p.curToken.literal, p)
    else if p.curToken.type = .STRING_BEGIN then
      let (str, p) := prev.parseStringLiteral p
      (match str with | some (.stringLit _ v) => v | _ => "", p)
    else
      (p.curToken.literal, p)
  let p := if p.peekTokenIs .STRING_END then p.nextToken else p
  (some (.symbolLit tok value), p)

/-- `parseIdentifier` (the IDENT prefix handler). -/
def parseIdentifierFn (prev : ParseFns) (p : Parser) :
    Option Expr × Parser :=
  let identTok := p.curToken
  let identVal := p.curToken.literal
  if ¬p.sawNewline ∧
     (p.peekTokenIs .IDENT ∨ p.peekTokenIs .INTEGER ∨ p.peekTokenIs .FLOAT ∨
      p.peekTokenIs .STRING_BEGIN ∨ p.peekTokenIs .COLON ∨
      p.peekTokenIs .SYMBOL_BEGIN ∨ p.peekTokenIs .KEYWORD_TRUE ∨
      p.peekTokenIs .KEYWORD_FALSE ∨ p.peekTokenIs .KEYWORD_NIL ∨
      p.peekTokenIs .LBRACE ∨ p.peekTokenIs .IVAR ∨ p.peekTokenIs .CVAR ∨
      p.peekTokenIs .GVAR ∨ p.peekTokenIs .CONSTANT ∨
      p.peekTokenIs .AMPERSAND) then
    prev.parseMethodCallWithoutParens identTok identVal p
  else if p.peekTokenIs .LPAREN ∨ p.peekTokenIs .LPAREN_ARG then
    prev.parseMethodCallWithParens identTok identVal p
  else if p.peekTokenIs .LBRACE ∨ p.peekTokenIs .LBRACE_BLOCK ∨
          p.peekTokenIs .KEYWORD_DO ∨ p.peekTokenIs .KEYWORD_DO_BLOCK then
    prev.parseMethodCallWithBlock identTok identVal [] p
  else
    (some (.ident identTok identVal), p)

/-- `parseMethodCallWithoutParens` (the Go receiver type-assertion
`receiver.(*ast.Identifier)` is passed here as the identifier's parts). -/
def parseMethodCallWithoutParens (prev : ParseFns) (identTok : Token) (identVal : String) (p : Parser) :
    Option Expr × Parser :=
  let (args, p) := prev.parseArgumentsWithoutParens p
  let (blk, p) :=
    if p.peekTokenIs .LBRACE ∨ p.peekTokenIs .LBRACE_BLOCK ∨
       p.peekTokenIs .KEYWORD_DO ∨ p.peekTokenIs .KEYWORD_DO_BLOCK then
      let p := p.nextToken
      let (b, p) := prev.parseBlock p
      (some b, p)
    else (none, p)
  (some (.methodCall identTok none identVal args blk false), p)

/-- `parseMethodCallWithParens`. -/
def parseMethodCallWithParens (prev : ParseFns) (identTok : Token) (identVal : String) (p : Parser) :
    Option Expr × Parser :=
  let p := p.nextToken
  let (args, p) := prev.parseExpressionList .RPAREN p
  let (blk, p) :=
    if p.peekTokenIs .LBRACE ∨ p.peekTokenIs .LBRACE_BLOCK ∨
       p.peekTokenIs .KEYWORD_DO ∨ p.peekTokenIs .KEYWORD_DO_BLOCK then
      let p := p.nextToken
      let (b, p) := prev.parseBlock p
      (some b, p)
    else (none, p)
  (some (.methodCall identTok none identVal args blk false), p)

/-- `parseMethodCallWithBlock` (args is nil at the only call site). -/
def parseMethodCallWithBlock (prev : ParseFns) (identTok : Token) (identVal : String) (args : List (Option Expr)) (p : Parser) :
    Option Expr × Parser :=
  let p := p.nextToken
  let (b, p) := prev.parseBlock p
  (some (.methodCall identTok none identVal args (some b) false), p)

/-- `parseArgumentsWithoutParens`. -/
def parseArgumentsWithoutParens (prev : ParseFns) (p : Parser) :
    List (Option Expr) × Parser :=
  let p := p.nextToken
  let (e, p) := prev.parseExpression MODIFIER p
  prev.argsNoParensLoop p [e]

/-- The comma loop of `parseArgumentsWithoutParens`. -/
def argsNoParensLoop (prev : ParseFns) (p : Parser) (acc : List (Option Expr)) :
    List (Option Expr) × Parser :=
  if p.peekTokenIs .COMMA then
    let p := p.nextToken.nextToken
    let (e, p) := prev.parseExpression MODIFIER p
    prev.argsNoParensLoop p (acc ++ [e])
  else (acc, p)

/-- `parseExpressionList` (a Go `nil` result is collapsed to the empty list:
no caller distinguishes them — only lengths are ever observed). -/
def parseExpressionList (prev : ParseFns) (endT : TokenType) (p : Parser) :
    List (Option Expr) × Parser :=
  if p.peekTokenIs endT then ([], p.nextToken)
  else
    let p := p.nextToken
    if p.curTokenIs .LABEL then
      let (hash, p) := prev.parseImplicitHash endT p
      ([hash], p)
    else if p.curTokenIs .IDENT ∧ p.peekTokenIs .COLON then
      let (hash, p) := prev.parseImplicitHash endT p
      ([hash], p)
    else
      let (e, p) := prev.parseExpression LOWEST p
      let (list, kwFinished, p) := prev.exprListCommaLoop endT p [e]
      if kwFinished then (list, p)
      else
        let (ok, p) := p.expectPeek endT
        if ok then (list, p) else ([], p)

/-- The comma loop of `parseExpressionList`; the middle component is `true`
when a keyword-argument hash consumed the rest of the list (the Go
`return list` inside the loop). -/
def exprListCommaLoop (prev : ParseFns) (endT : TokenType) (p : Parser) (acc : List (Option Expr)) :
    List (Option Expr) × Bool × Parser :=
  if p.peekTokenIs .COMMA then
    let p := p.nextToken.nextToken
    if p.curTokenIs .LABEL ∨ (p.curTokenIs .IDENT ∧ p.peekTokenIs .COLON) then
      let (hash, p) := prev.parseImplicitHash endT p
      (acc ++ [hash], true, p)
    else
      let (e, p) := prev.parseExpression LOWEST p
      prev.exprListCommaLoop endT p (acc ++ [e])
  else (acc, false, p)

/-- `parseImplicitHash`. -/
def parseImplicitHash (prev : ParseFns) (endT : TokenType) (p : Parser) :
    Option Expr × Parser :=
  let hashTok := p.curToken
  prev.implicitHashLoop endT hashTok p []

/-- The key/value loop of `parseImplicitHash`; early `return hash` paths
yield the partial hash, the failing final `expectPeek` yields `none`
(Go `nil`). -/
def implicitHashLoop (prev : ParseFns) (endT : TokenType) (hashTok : Token) (p : Parser) (pairs : List (Expr × Option Expr)) :
    Option Expr × Parser :=
  if ¬p.curTokenIs endT ∧ ¬p.curTokenIs .EOF then
    if p.curTokenIs .LABEL then
      let keyName := trimSuffixColon p.curToken.literal
      let p := p.nextToken
      prev.implicitHashPair endT hashTok keyName p pairs
    else if p.curTokenIs .IDENT then
      let keyName := p.curToken.literal
      let (ok, p) := p.expectPeek .COLON
      if ¬ok then (some (.hashLit hashTok pairs true), p)
      else
        let p := p.nextToken
        prev.implicitHashPair endT hashTok keyName p pairs
    else
      let msg := "expected keyword argument, got " ++ p.curToken.type.goString
      (some (.hashLit hashTok pairs true), { p with errors := p.errors ++ [msg] })
  else
    let (ok, p) := p.expectPeek endT
    if ok then (some (.hashLit hashTok pairs true), p) else (none, p)

/-- The value/comma tail of each `parseImplicitHash` iteration. -/
def implicitHashPair (prev : ParseFns) (endT : TokenType) (hashTok : Token) (keyName : String) (p : Parser) (pairs : List (Expr × Option Expr)) :
    Option Expr × Parser :=
  let key := Expr.symbolLit { zeroToken with type := .SYMBOL_BEGIN, literal := keyName } keyName
  let (value, p) := prev.parseExpression LOWEST p
  let pairs := pairs ++ [(key, value)]
  if p.peekTokenIs .COMMA then
    prev.implicitHashLoop endT hashTok p.nextToken.nextToken pairs
  else
    let (ok, p) := p.expectPeek endT
    if ok then (some (.hashLit hashTok pairs true), p) else (none, p)

/-- `parseHashLiteral`. -/
def parseHashLiteral (prev : ParseFns) (p : Parser) :
    Option Expr × Parser :=
  let hashTok := p.curToken
  if p.peekTokenIs .RBRACE then (some (.hashLit hashTok [] false), p.nextToken)
  else prev.hashLitLoop hashTok p.nextToken []

/-- The key/value loop of `parseHashLiteral`. -/
def hashLitLoop (prev : ParseFns) (hashTok : Token) (p : Parser) (pairs : List (Expr × Option Expr)) :
    Option Expr × Parser :=
  let (key, p) := prev.parseExpression LOWEST p
  match key with
  | none => (none, p)
  | some key =>
    let p :=
      if p.curTokenIs .LABEL then p.nextToken
      else if p.peekTokenIs .EQUAL_GREATER then p.nextToken.nextToken
      else if p.peekTokenIs .COLON then p.nextToken.nextToken
      else p.nextToken
    let (value, p) := prev.parseExpression LOWEST p
    match value with
    | none => (none, p)
    | some value =>
      let pairs := pairs ++ [(key, some value)]
      if p.peekTokenIs .RBRACE then
        let (ok, p) := p.expectPeek .RBRACE
        if ok then (some (.hashLit hashTok pairs false), p) else (none, p)
      else
        let (ok, p) := p.expectPeek .COMMA
        if ¬ok then
          if p.peekTokenIs .RBRACE then
            let (ok2, p) := p.expectPeek .RBRACE
            if ok2 then (some (.hashLit hashTok pairs false), p) else (none, p)
          else (none, p)
        else prev.hashLitLoop hashTok p.nextToken pairs

/-- `parsePrefixExpression`. -/
def parsePrefixExpression (prev : ParseFns) (p : Parser) :
    Option Expr × Parser :=
  let tok := p.curToken
  let op := p.curToken.literal
  let p := p.nextToken
  let (right, p) := prev.parseExpression UNARY p
  (some (.prefixE tok op right), p)

/-- `parseGroupedExpression`. -/
def parseGroupedExpression (prev : ParseFns) (p : Parser) :
    Option Expr × Parser :=
  let p := p.nextToken
  let (e, p) := prev.parseExpression LOWEST p
  let (ok, p) := p.expectPeek .RPAREN
  if ¬ok then (none, p) else (e, p)

/-- `parseArrayLiteral`. -/
def parseArrayLiteral (prev : ParseFns) (p : Parser) :
    Option Expr × Parser :=
  let tok := p.curToken
  let (elems, p) := prev.parseExpressionList .RBRACKET p
  (some (.arrayLit tok elems), p)

/-- `parseInfixExpression` (with the `**` right-associativity adjustment). -/
def parseInfixExpression (prev : ParseFns) (left : Option Expr) (p : Parser) :
    Option Expr × Parser :=
  let tok := p.curToken
  let op := p.curToken.literal
  let precedence := p.curPrecedence
  let precedence := if p.curTokenIs .STAR_STAR then precedence - 1 else precedence
  let p := p.nextToken
  let (right, p) := prev.parseExpression precedence p
  (some (.infixE tok left op right), p)

/-- `parseRangeExpression`. -/
def parseRangeExpression (prev : ParseFns) (left : Option Expr) (p : Parser) :
    Option Expr × Parser :=
  let tok := p.curToken
  let exclusive := p.curTokenIs .DOT_DOT_DOT
  let precedence := p.curPrecedence
  let p := p.nextToken
  let (stop, p) := prev.parseExpression precedence p
  (some (.rangeLit tok left stop exclusive), p)

/-- `parseAssignment`. -/
def parseAssignment (prev : ParseFns) (left : Option Expr) (p : Parser) :
    Option Expr × Parser :=
  let tok := p.curToken
  let p := p.nextToken
  let (value, p) := prev.parseExpression (ASSIGNMENT - 1) p
  (some (.assignE tok left value), p)

/-- `parseOpAssignment`. -/
def parseOpAssignment (prev : ParseFns) (left : Option Expr) (p : Parser) :
    Option Expr × Parser :=
  let tok := p.curToken
  let op := p.curToken.literal
  let p := p.nextToken
  let (value, p) := prev.parseExpression (ASSIGNMENT - 1) p
  (some (.opAssignE tok left op value), p)

/-- `parseIndexExpression`. -/
def parseIndexExpression (prev : ParseFns) (left : Option Expr) (p : Parser) :
    Option Expr × Parser :=
  let tok := p.curToken
  let p := p.nextToken
  let (index, p) := prev.parseExpression LOWEST p
  let (ok, p) := p.expectPeek .RBRACKET
  if ¬ok then (none, p) else (some (.indexE tok left index), p)

/-- `parseMethodCall` (the infix `.` handler). -/
def parseMethodCall (prev : ParseFns) (left : Option Expr) (p : Parser) :
    Option Expr × Parser :=
  let tok := p.curToken
  let p := p.nextToken
  let methodName := p.curToken.literal
  let (args, p) :=
    if p.peekTokenIs .LPAREN ∨ p.peekTokenIs .LPAREN_ARG then
      let p := p.nextToken
      prev.parseExpressionList .RPAREN p
    else ([], p)
  let (blk, p) :=
    if p.peekTokenIs .LBRACE ∨ p.peekTokenIs .LBRACE_BLOCK ∨
       p.peekTokenIs .KEYWORD_DO ∨ p.peekTokenIs .KEYWORD_DO_BLOCK then
      let p := p.nextToken
      let (b, p) := prev.parseBlock p
      (some b, p)
    else (none, p)
  (some (.methodCall tok left methodName args blk false), p)

/-- `parseSafeNavigation`. -/
def parseSafeNavigation (prev : ParseFns) (left : Option Expr) (p : Parser) :
    Option Expr × Parser :=
  let tok := p.curToken
  let p := p.nextToken
  let methodName := p.curToken.literal
  let (args, p) :=
    if p.peekTokenIs .LPAREN ∨ p.peekTokenIs .LPAREN_ARG then
      let p := p.nextToken
      prev.parseExpressionList .RPAREN p
    else ([], p)
  (some (.methodCall tok left methodName args none true), p)

/-- `parseTernaryExpression`. -/
def parseTernaryExpression (prev : ParseFns) (condition : Option Expr) (p : Parser) :
    Option Expr × Parser :=
  let tok := p.curToken
  let p := p.nextToken
  let (conseq, p) := prev.parseExpression LOWEST p
  let (ok, p) := p.expectPeek .COLON
  if ¬ok then (none, p)
  else
    let p := p.nextToken
    let (alt, p) := prev.parseExpression LOWEST p
    (some (.ternary tok condition conseq alt), p)

/-- `parseAndExpression`. -/
def parseAndExpression (prev : ParseFns) (left : Option Expr) (p : Parser) :
    Option Expr × Parser :=
  let tok := p.curToken
  let precedence := p.curPrecedence
  let p := p.nextToken
  let (right, p) := prev.parseExpression precedence p
  (some (.andE tok left right), p)

/-- `parseOrExpression`. -/
def parseOrExpression (prev : ParseFns) (left : Option Expr) (p : Parser) :
    Option Expr × Parser :=
  let tok := p.curToken
  let precedence := p.curPrecedence
  let p := p.nextToken
  let (right, p) := prev.parseExpression precedence p
  (some (.orE tok left right), p)

/-- `parseModifierIf`. -/
def parseModifierIf (prev : ParseFns) (left : Option Expr) (p : Parser) :
    Option Expr × Parser :=
  let tok := p.curToken
  let p := p.nextToken
  let (cond, p) := prev.parseExpression LOWEST p
  (some (.modifierE tok left cond "if"), p)

/-- `parseModifierUnless`. -/
def parseModifierUnless (prev : ParseFns) (left : Option Expr) (p : Parser) :
    Option Expr × Parser :=
  let tok := p.curToken
  let p := p.nextToken
  let (cond, p) := prev.parseExpression LOWEST p
  (some (.modifierE tok left cond "unless"), p)

/-- `parseModifierWhile`. -/
def parseModifierWhile (prev : ParseFns) (left : Option Expr) (p : Parser) :
    Option Expr × Parser :=
  let tok := p.curToken
  let p := p.nextToken
  let (cond, p) := prev.parseExpression LOWEST p
  (some (.modifierE tok left cond "while"), p)

/-- `parseModifierUntil`. -/
def parseModifierUntil (prev : ParseFns) (left : Option Expr) (p : Parser) :
    Option Expr × Parser :=
  let tok := p.curToken
  let p := p.nextToken
  let (cond, p) := prev.parseExpression LOWEST p
  (some (.modifierE tok left cond "until"), p)

/-- `parseRescueModifier`. -/
def parseRescueModifier (prev : ParseFns) (left : Option Expr) (p : Parser) :
    Option Expr × Parser :=
  let tok := p.curToken
  let p := p.nextToken
  let (rescueE, p) := prev.parseExpression RESCUE_MOD p
  (some (.rescueModE tok left rescueE), p)

/-- `parseBlock`. -/
def parseBlock (prev : ParseFns) (p : Parser) :
    Blk × Parser :=
  let blockTok := p.curToken
  let isBrace := p.curTokenIs .LBRACE ∨ p.curTokenIs .LBRACE_BLOCK
  let (params, p) :=
    if p.peekTokenIs .PIPE then
      let p := p.nextToken
      prev.parseBlockParameters p
    else ([], p)
  let (body, p) := prev.parseBlockBody isBrace p
  (.mk blockTok params body, p)

/-- `parseBlockParameters`. -/
def parseBlockParameters (prev : ParseFns) (p : Parser) :
    List BlockParam × Parser :=
prev.blockParamsLoop p.nextToken []

/-- The parameter loop of `parseBlockParameters`. -/
def blockParamsLoop (prev : ParseFns) (p : Parser) (acc : List BlockParam) :
    List BlockParam × Parser :=
  if ¬p.curTokenIs .PIPE ∧ ¬p.curTokenIs .EOF then
    let paramTok := p.curToken
    let (splatF, dsplatF, blockF, p) :=
      if p.curTokenIs .STAR then (true, false, false, p.nextToken)
      else if p.curTokenIs .STAR_STAR then (false, true, false, p.nextToken)
      else if p.curTokenIs .AMPERSAND then (false, false, true, p.nextToken)
      else (false, false, false, p)
    let name := p.curToken.literal
    let (dflt, p) :=
      if p.peekTokenIs .EQUAL then
        let p := p.nextToken.nextToken
        prev.parseExpression LOWEST p
      else (none, p)
    let acc := acc ++ [BlockParam.mk paramTok name splatF dsplatF blockF dflt]
    if p.peekTokenIs .COMMA then prev.blockParamsLoop p.nextToken.nextToken acc
    else prev.blockParamsLoop p.nextToken acc
  else (acc, p)

/-- `parseBlockBody`. -/
def parseBlockBody (prev : ParseFns) (isBrace : Bool) (p : Parser) :
    BlockBody × Parser :=
  let p := p.nextToken
  let endToken := if isBrace then TokenType.RBRACE else TokenType.KEYWORD_END
  let (stmts, p) :=
    prev.stmtsUntil (fun p => p.curTokenIs endToken ∨ p.curTokenIs .EOF) false p []
  (.mk stmts, p)

/-- The shared `for { parseStatement; nextToken }` shape of the body loops
(`parseBlockBody`, `parseConsequence`, `parseBlockBodyUntilEnd`,
`parseWhenClause`, `parseLoopBody`, `parseClassBody`, `parseMethodBody`, and
with `blockCtx` the `begin`/`rescue`/`else`/`ensure` body loops). -/
def stmtsUntil (prev : ParseFns) (stop : Parser → Bool) (blockCtx : Bool) (p : Parser) (acc : List Stmt) :
    List Stmt × Parser :=
  if ¬stop p then
    let (stmt, p) :=
      if blockCtx then prev.parseBlockContextStatement p else prev.parseStatement p
    prev.stmtsUntil stop blockCtx p.nextToken (acc ++ [stmt])
  else (acc, p)

/-- `parseIfExpression`. -/
def parseIfExpression (prev : ParseFns) (p : Parser) :
    Option Expr × Parser :=
  let tok := p.curToken
  let p := p.nextToken
  let (cond, p) := prev.parseExpression LOWEST p
  let p := if p.peekTokenIs .KEYWORD_THEN then p.nextToken else p
  let (conseq, p) := prev.parseConsequence p
  let (alt, p) := prev.elsifLoop p none
  let (elseB, p) :=
    if p.curTokenIs .KEYWORD_ELSE then
      let p := p.nextToken
      let (b, p) := prev.parseBlockBodyUntilEnd p
      (some b, p)
    else (none, p)
  (some (.ifE (.mk tok cond conseq alt elseB false)), p)

/-- The elsif-chain loop of `parseIfExpression`. -/
def elsifLoop (prev : ParseFns) (p : Parser) (alt : Option IfExpr) :
    Option IfExpr × Parser :=
  if p.curTokenIs .KEYWORD_ELSIF then
    let p := p.nextToken
    let elsifTok := p.curToken
    let (cond, p) := prev.parseExpression LOWEST p
    let p := if p.peekTokenIs .KEYWORD_THEN then p.nextToken else p
    let (conseq, p) := prev.parseConsequence p
    let elsifNode := IfExpr.mk elsifTok cond conseq none none false
    let alt :=
      match alt with
      | none => some elsifNode
      | some a => some (appendAlt a elsifNode)
    prev.elsifLoop p alt
  else (alt, p)

/-- `parseUnlessExpression`. -/
def parseUnlessExpression (prev : ParseFns) (p : Parser) :
    Option Expr × Parser :=
  let tok := p.curToken
  let p := p.nextToken
  let (cond, p) := prev.parseExpression LOWEST p
  let p := if p.peekTokenIs .KEYWORD_THEN then p.nextToken else p
  let (conseq, p) := prev.parseConsequence p
  let (elseB, p) :=
    if p.curTokenIs .KEYWORD_ELSE then
      let p := p.nextToken
      let (b, p) := prev.parseBlockBodyUntilEnd p
      (some b, p)
    else (none, p)
  (some (.ifE (.mk tok cond conseq none elseB true)), p)

/-- `parseConsequence`. -/
def parseConsequence (prev : ParseFns) (p : Parser) :
    BlockBody × Parser :=
  let p := p.nextToken
  let (stmts, p) :=
    prev.stmtsUntil
      (fun p => p.curTokenIs .KEYWORD_ELSIF ∨ p.curTokenIs .KEYWORD_ELSE ∨
                p.curTokenIs .KEYWORD_END ∨ p.curTokenIs .EOF)
      false p []
  (.mk stmts, p)

/-- `parseBlockBodyUntilEnd` (no leading advance). -/
def parseBlockBodyUntilEnd (prev : ParseFns) (p : Parser) :
    BlockBody × Parser :=
  let (stmts, p) :=
    prev.stmtsUntil (fun p => p.curTokenIs .KEYWORD_END ∨ p.curTokenIs .EOF) false p []
  (.mk stmts, p)

/-- `parseCaseExpression`. -/
def parseCaseExpression (prev : ParseFns) (p : Parser) :
    Option Expr × Parser :=
  let tok := p.curToken
  let (subject, p) :=
    if ¬p.peekTokenIs .KEYWORD_WHEN then
      let p := p.nextToken
      if ¬p.curTokenIs .KEYWORD_WHEN then
        let (s, p) := prev.parseExpression LOWEST p
        (s, p.nextToken)
      else (none, p)
    else (none, p.nextToken)
  let (whens, p) := prev.caseWhensLoop p []
  let (elseB, p) :=
    if p.curTokenIs .KEYWORD_ELSE then
      let p := p.nextToken
      let (b, p) := prev.parseBlockBodyUntilEnd p
      (some b, p)
    else (none, p)
  (some (.caseE tok subject whens elseB), p)

/-- The when-clause loop of `parseCaseExpression`. -/
def caseWhensLoop (prev : ParseFns) (p : Parser) (acc : List WhenClause) :
    List WhenClause × Parser :=
  if p.curTokenIs .KEYWORD_WHEN then
    let (w, p) := prev.parseWhenClause p
    prev.caseWhensLoop p (acc ++ [w])
  else (acc, p)

/-- `parseWhenClause`. -/
def parseWhenClause (prev : ParseFns) (p : Parser) :
    WhenClause × Parser :=
  let tok := p.curToken
  let p := p.nextToken
  let (c1, p) := prev.parseExpression LOWEST p
  let (conds, p) := prev.whenCondLoop p [c1]
  let p := if p.peekTokenIs .KEYWORD_THEN then p.nextToken else p
  let p := p.nextToken
  let (stmts, p) :=
    prev.stmtsUntil
      (fun p => p.curTokenIs .KEYWORD_WHEN ∨ p.curTokenIs .KEYWORD_ELSE ∨
                p.curTokenIs .KEYWORD_END ∨ p.curTokenIs .EOF)
      false p []
  (.mk tok conds (.mk stmts), p)

/-- The condition comma loop of `parseWhenClause`. -/
def whenCondLoop (prev : ParseFns) (p : Parser) (acc : List (Option Expr)) :
    List (Option Expr) × Parser :=
  if p.peekTokenIs .COMMA then
    let p := p.nextToken.nextToken
    let (c, p) := prev.parseExpression LOWEST p
    prev.whenCondLoop p (acc ++ [c])
  else (acc, p)

/-- `parseWhileExpression`. -/
def parseWhileExpression (prev : ParseFns) (p : Parser) :
    Option Expr × Parser :=
  let tok := p.curToken
  let p := p.nextToken
  let (cond, p) := prev.parseExpression LOWEST p
  let p :=
    if p.peekTokenIs .KEYWORD_DO ∨ p.peekTokenIs .KEYWORD_DO_COND then p.nextToken else p
  let (body, p) := prev.parseLoopBody p
  (some (.whileE tok cond body false), p)

/-- `parseUntilExpression`. -/
def parseUntilExpression (prev : ParseFns) (p : Parser) :
    Option Expr × Parser :=
  let tok := p.curToken
  let p := p.nextToken
  let (cond, p) := prev.parseExpression LOWEST p
  let p :=
    if p.peekTokenIs .KEYWORD_DO ∨ p.peekTokenIs .KEYWORD_DO_COND then p.nextToken else p
  let (body, p) := prev.parseLoopBody p
  (some (.whileE tok cond body true), p)

/-- `parseForExpression`. -/
def parseForExpression (prev : ParseFns) (p : Parser) :
    Option Expr × Parser :=
  let tok := p.curToken
  let p := p.nextToken
  let (varE, p) := prev.parseExpression LOWEST p
  let (ok, p) := p.expectPeek .KEYWORD_IN
  if ¬ok then (none, p)
  else
    let p := p.nextToken
    let (iterable, p) := prev.parseExpression LOWEST p
    let p :=
      if p.peekTokenIs .KEYWORD_DO ∨ p.peekTokenIs .KEYWORD_DO_COND then p.nextToken else p
    let (body, p) := prev.parseLoopBody p
    (some (.forE tok varE iterable body), p)

/-- `parseLoopBody`. -/
def parseLoopBody (prev : ParseFns) (p : Parser) :
    BlockBody × Parser :=
  let p := p.nextToken
  let (stmts, p) :=
    prev.stmtsUntil (fun p => p.curTokenIs .KEYWORD_END ∨ p.curTokenIs .EOF) false p []
  (.mk stmts, p)

/-- `parseBeginExpression`. -/
def parseBeginExpression (prev : ParseFns) (p : Parser) :
    Option Expr × Parser :=
  let tok := p.curToken
  let p := p.nextToken
  let (bodyStmts, p) :=
    prev.stmtsUntil
      (fun p => p.curTokenIs .KEYWORD_RESCUE ∨ p.curTokenIs .KEYWORD_ELSE ∨
                p.curTokenIs .KEYWORD_ENSURE ∨ p.curTokenIs .KEYWORD_END ∨
                p.curTokenIs .EOF)
      true p []
  let (rescues, p) := prev.rescueClausesLoop p []
  let (elseB, p) :=
    if p.curTokenIs .KEYWORD_ELSE then
      let p := p.nextToken
      let (stmts, p) :=
        prev.stmtsUntil
          (fun p => p.curTokenIs .KEYWORD_ENSURE ∨ p.curTokenIs .KEYWORD_END ∨
                    p.curTokenIs .EOF)
          true p []
      (some (BlockBody.mk stmts), p)
    else (none, p)
  let (ensureB, p) :=
    if p.curTokenIs .KEYWORD_ENSURE then
      let p := p.nextToken
      let (stmts, p) :=
        prev.stmtsUntil (fun p => p.curTokenIs .KEYWORD_END ∨ p.curTokenIs .EOF) true p []
      (some (BlockBody.mk stmts), p)
    else (none, p)
  (some (.beginE tok (.mk bodyStmts) rescues elseB ensureB), p)

/-- The rescue-clause loop of `parseBeginExpression`. -/
def rescueClausesLoop (prev : ParseFns) (p : Parser) (acc : List RescueClause) :
    List RescueClause × Parser :=
  if p.curTokenIs .KEYWORD_RESCUE then
    let (r, p) := prev.parseRescueClause p
    prev.rescueClausesLoop p (acc ++ [r])
  else (acc, p)

/-- `parseRescueClause`. -/
def parseRescueClause (prev : ParseFns) (p : Parser) :
    RescueClause × Parser :=
  let tok := p.curToken
  let p := p.nextToken
  let (exceptions, p) :=
    if ¬p.curTokenIs .EQUAL_GREATER ∧ ¬p.curTokenIs .KEYWORD_THEN ∧
       ¬p.curTokenIs .KEYWORD_RESCUE ∧ ¬p.curTokenIs .KEYWORD_ELSE ∧
       ¬p.curTokenIs .KEYWORD_ENSURE ∧ ¬p.curTokenIs .KEYWORD_END ∧
       ¬p.curTokenIs .EOF ∧
       (p.curTokenIs .CONSTANT ∨ p.curTokenIs .IDENT) then
      let first := Expr.constant p.curToken p.curToken.literal
      let (excs, p) := rescueExcLoop (2 * p.lx.input.length + 8) p [first]
      (excs, p.nextToken)
    else ([], p)
  let (varB, p) :=
    if p.curTokenIs .EQUAL_GREATER then
      let p := p.nextToken
      let v := Expr.ident p.curToken p.curToken.literal
      (some v, p.nextToken)
    else (none, p)
  let p := if p.curTokenIs .KEYWORD_THEN then p.nextToken else p
  let (stmts, p) :=
    prev.stmtsUntil
      (fun p => p.curTokenIs .KEYWORD_RESCUE ∨ p.curTokenIs .KEYWORD_ELSE ∨
                p.curTokenIs .KEYWORD_ENSURE ∨ p.curTokenIs .KEYWORD_END ∨
                p.curTokenIs .EOF)
      true p []
  (.mk tok exceptions varB (.mk stmts), p)

/-- `parseYieldExpression`. -/
def parseYieldExpression (prev : ParseFns) (p : Parser) :
    Option Expr × Parser :=
  let tok := p.curToken
  if p.peekTokenIs .LPAREN then
    let p := p.nextToken
    let (args, p) := prev.parseExpressionList .RPAREN p
    (some (.yieldE tok args), p)
  else if ¬p.peekIsStatementEnd then
    let (args, p) := prev.parseArgumentsWithoutParens p
    (some (.yieldE tok args), p)
  else (some (.yieldE tok []), p)

/-- `parseSuperExpression`. -/
def parseSuperExpression (prev : ParseFns) (p : Parser) :
    Option Expr × Parser :=
  let tok := p.curToken
  if p.peekTokenIs .LPAREN then
    let p := p.nextToken
    let (args, p) := prev.parseExpressionList .RPAREN p
    (some (.superE tok args true), p)
  else if ¬p.peekIsStatementEnd ∧ ¬p.peekTokenIs .KEYWORD_DO ∧ ¬p.peekTokenIs .LBRACE then
    if p.peekTokenIs .IDENT ∨ p.peekTokenIs .INTEGER ∨
       p.peekTokenIs .STRING_BEGIN ∨ p.peekTokenIs .SYMBOL_BEGIN then
      let (args, p) := prev.parseArgumentsWithoutParens p
      (some (.superE tok args false), p)
    else (some (.superE tok [] false), p)
  else (some (.superE tok [] false), p)

/-- `parseNotExpression`. -/
def parseNotExpression (prev : ParseFns) (p : Parser) :
    Option Expr × Parser :=
  let tok := p.curToken
  let p := p.nextToken
  let (e, p) := prev.parseExpression NOT p
  (some (.notE tok e), p)

/-- `parseDefinedExpression`. -/
def parseDefinedExpression (prev : ParseFns) (p : Parser) :
    Option Expr × Parser :=
  let tok := p.curToken
  if p.peekTokenIs .LPAREN then
    let p := p.nextToken.nextToken
    let (e, p) := prev.parseExpression LOWEST p
    let (ok, p) := p.expectPeek .RPAREN
    if ¬ok then (none, p) else (some (.definedE tok e), p)
  else
    let p := p.nextToken
    let (e, p) := prev.parseExpression LOWEST p
    (some (.definedE tok e), p)

/-- `parseLambda`. -/
def parseLambda (prev : ParseFns) (p : Parser) :
    Option Expr × Parser :=
  let tok := p.curToken
  let (params, p) :=
    if p.peekTokenIs .LPAREN then
      let p := p.nextToken
      prev.parseLambdaParameters p
    else ([], p)
  let (body, p) :=
    if p.peekTokenIs .LBRACE ∨ p.peekTokenIs .LBRACE_BLOCK ∨
       p.peekTokenIs .LAMBDA_LBRACE then
      let p := p.nextToken
      let (b, p) := prev.parseBlockBody true p
      (some b, p)
    else if p.peekTokenIs .KEYWORD_DO ∨ p.peekTokenIs .KEYWORD_DO_LAMBDA then
      let p := p.nextToken
      let (b, p) := prev.parseBlockBody false p
      (some b, p)
    else (none, p)
  (some (.lambdaE tok params body), p)

/-- `parseLambdaParameters`. -/
def parseLambdaParameters (prev : ParseFns) (p : Parser) :
    List BlockParam × Parser :=
  if p.peekTokenIs .RPAREN then ([], p.nextToken)
  else prev.lambdaParamsLoop p.nextToken []

/-- The parameter loop of `parseLambdaParameters`. -/
def lambdaParamsLoop (prev : ParseFns) (p : Parser) (acc : List BlockParam) :
    List BlockParam × Parser :=
  if ¬p.curTokenIs .RPAREN ∧ ¬p.curTokenIs .EOF then
    let paramTok := p.curToken
    let (splatF, dsplatF, blockF, p) :=
      if p.curTokenIs .STAR then (true, false, false, p.nextToken)
      else if p.curTokenIs .STAR_STAR then (false, true, false, p.nextToken)
      else if p.curTokenIs .AMPERSAND then (false, false, true, p.nextToken)
      else (false, false, false, p)
    let name := p.curToken.literal
    let (dflt, p) :=
      if p.peekTokenIs .EQUAL then
        let p := p.nextToken.nextToken
        prev.parseExpression LOWEST p
      else (none, p)
    let acc := acc ++ [BlockParam.mk paramTok name splatF dsplatF blockF dflt]
    if p.peekTokenIs .COMMA then prev.lambdaParamsLoop p.nextToken.nextToken acc
    else prev.lambdaParamsLoop p.nextToken acc
  else (acc, p)

/-- `parseSplatExpression`. -/
def parseSplatExpression (prev : ParseFns) (p : Parser) :
    Option Expr × Parser :=
  let tok := p.curToken
  let p := p.nextToken
  let (e, p) := prev.parseExpression UNARY p
  (some (.splatE tok e), p)

/-- `parseDoubleSplatExpression`. -/
def parseDoubleSplatExpression (prev : ParseFns) (p : Parser) :
    Option Expr × Parser :=
  let tok := p.curToken
  let p := p.nextToken
  let (e, p) := prev.parseExpression UNARY p
  (some (.doubleSplatE tok e), p)

/-- `parseMethodDefinition`. -/
def parseMethodDefinition (prev : ParseFns) (p : Parser) :
    Stmt × Parser :=
  let tok := p.curToken
  let p := p.nextToken
  let (receiver, p) :=
    if p.peekTokenIs .DOT then
      let (r, p) := prev.parseExpression LOWEST p
      (r, p.nextToken.nextToken)
    else (none, p)
  let name := p.curToken.literal
  let (params, p) :=
    if p.peekTokenIs .LPAREN then
      let p := p.nextToken
      prev.parseMethodParameters p
    else if p.peekTokenIs .IDENT then
      prev.parseMethodParametersWithoutParens p
    else ([], p)
  let (body, p) := prev.parseMethodBody p
  (.methodDef tok name receiver params body, p)

/-- `parseMethodParameters`. -/
def parseMethodParameters (prev : ParseFns) (p : Parser) :
    List MethodParam × Parser :=
  if p.peekTokenIs .RPAREN then ([], p.nextToken)
  else prev.methodParamsLoop p.nextToken []

/-- The parameter loop of `parseMethodParameters`. -/
def methodParamsLoop (prev : ParseFns) (p : Parser) (acc : List MethodParam) :
    List MethodParam × Parser :=
  if ¬p.curTokenIs .RPAREN ∧ ¬p.curTokenIs .EOF then
    let paramTok := p.curToken
    let (splatF, dsplatF, blockF, p) :=
      if p.curTokenIs .STAR then (true, false, false, p.nextToken)
      else if p.curTokenIs .STAR_STAR then (false, true, false, p.nextToken)
      else if p.curTokenIs .AMPERSAND then (false, false, true, p.nextToken)
      else (false, false, false, p)
    let (name, keywordOnly, dflt, p) :=
      if p.curTokenIs .LABEL then
        let name := trimSuffixColon p.curToken.literal
        if ¬p.peekTokenIs .COMMA ∧ ¬p.peekTokenIs .RPAREN then
          let p := p.nextToken
          let (d, p) := prev.parseExpression LOWEST p
          (name, true, d, p)
        else (name, true, none, p)
      else
        let name := p.curToken.literal
        if p.peekTokenIs .COLON then
          let p := p.nextToken
          if ¬p.peekTokenIs .COMMA ∧ ¬p.peekTokenIs .RPAREN then
            let p := p.nextToken
            let (d, p) := prev.parseExpression LOWEST p
            (name, true, d, p)
          else (name, true, none, p)
        else if p.peekTokenIs .EQUAL then
          let p := p.nextToken.nextToken
          let (d, p) := prev.parseExpression LOWEST p
          (name, false, d, p)
        else (name, false, none, p)
    let acc := acc ++ [MethodParam.mk paramTok name splatF dsplatF blockF dflt keywordOnly]
    if p.peekTokenIs .COMMA then prev.methodParamsLoop p.nextToken.nextToken acc
    else prev.methodParamsLoop p.nextToken acc
  else (acc, p)

/-- `parseMethodParametersWithoutParens`. -/
def parseMethodParametersWithoutParens (prev : ParseFns) (p : Parser) :
    List MethodParam × Parser :=
prev.methodParamsNPLoop p.nextToken []

/-- The parameter loop of `parseMethodParametersWithoutParens`. -/
def methodParamsNPLoop (prev : ParseFns) (p : Parser) (acc : List MethodParam) :
    List MethodParam × Parser :=
  if ¬p.curTokenIs .KEYWORD_END ∧ ¬p.curTokenIs .EOF ∧ ¬p.peekIsStatementEnd then
    let paramTok := p.curToken
    let (splatF, dsplatF, blockF, p) :=
      if p.curTokenIs .STAR then (true, false, false, p.nextToken)
      else if p.curTokenIs .STAR_STAR then (false, true, false, p.nextToken)
      else if p.curTokenIs .AMPERSAND then (false, false, true, p.nextToken)
      else (false, false, false, p)
    let name := p.curToken.literal
    let (dflt, p) :=
      if p.peekTokenIs .EQUAL then
        let p := p.nextToken.nextToken
        prev.parseExpression LOWEST p
      else (none, p)
    let acc := acc ++ [MethodParam.mk paramTok name splatF dsplatF blockF dflt false]
    if p.peekTokenIs .COMMA then prev.methodParamsNPLoop p.nextToken.nextToken acc
    else (acc, p)
  else (acc, p)

/-- `parseMethodBody`. -/
def parseMethodBody (prev : ParseFns) (p : Parser) :
    BlockBody × Parser :=
  let p := p.nextToken
  let (stmts, p) :=
    prev.stmtsUntil
      (fun p => p.curTokenIs .KEYWORD_END ∨ p.curTokenIs .KEYWORD_RESCUE ∨
                p.curTokenIs .KEYWORD_ENSURE ∨ p.curTokenIs .EOF)
      false p []
  let p := if p.curTokenIs .KEYWORD_RESCUE then skipToEnd (2 * p.lx.input.length + 8) p else p
  (.mk stmts, p)

/-- `parseClassDefinition`. -/
def parseClassDefinition (prev : ParseFns) (p : Parser) :
    Stmt × Parser :=
  let tok := p.curToken
  let p := p.nextToken
  if p.curTokenIs .LESS_LESS then prev.parseSingletonClassDefinition p
  else
    let nameTok := p.curToken
    let nameVal := p.curToken.literal
    let (superclass, p) :=
      if p.peekTokenIs .LESS then
        let p := p.nextToken.nextToken
        prev.parseExpression LOWEST p
      else (none, p)
    let (body, p) := prev.parseClassBody p
    (.classDef tok nameTok nameVal superclass body, p)

/-- `parseSingletonClassDefinition`. -/
def parseSingletonClassDefinition (prev : ParseFns) (p : Parser) :
    Stmt × Parser :=
  let tok := p.curToken
  let p := p.nextToken
  let (obj, p) := prev.parseExpression LOWEST p
  let (body, p) := prev.parseClassBody p
  (.singletonClassDef tok obj body, p)

/-- `parseClassBody`. -/
def parseClassBody (prev : ParseFns) (p : Parser) :
    BlockBody × Parser :=
  let p := p.nextToken
  let (stmts, p) :=
    prev.stmtsUntil (fun p => p.curTokenIs .KEYWORD_END ∨ p.curTokenIs .EOF) false p []
  (.mk stmts, p)

/-- `parseModuleDefinition`. -/
def parseModuleDefinition (prev : ParseFns) (p : Parser) :
    Stmt × Parser :=
  let tok := p.curToken
  let p := p.nextToken
  let nameTok := p.curToken
  let nameVal := p.curToken.literal
  let (body, p) := prev.parseClassBody p
  (.moduleDef tok nameTok nameVal body, p)

/-- `parseReturnStatement`. -/
def parseReturnStatement (prev : ParseFns) (p : Parser) :
    Stmt × Parser :=
  let tok := p.curToken
  if ¬p.peekIsStatementEnd then
    let p := p.nextToken
    let (v, p) := prev.parseExpression LOWEST p
    (.returnStmt tok v, p)
  else (.returnStmt tok none, p)

/-- `parseBreakStatement`. -/
def parseBreakStatement (prev : ParseFns) (p : Parser) :
    Stmt × Parser :=
  let tok := p.curToken
  if ¬p.peekIsStatementEnd then
    let p := p.nextToken
    let (v, p) := prev.parseExpression LOWEST p
    (.breakStmt tok v, p)
  else (.breakStmt tok none, p)

/-- `parseNextStatement`. -/
def parseNextStatement (prev : ParseFns) (p : Parser) :
    Stmt × Parser :=
  let tok := p.curToken
  if ¬p.peekIsStatementEnd then
    let p := p.nextToken
    let (v, p) := prev.parseExpression LOWEST p
    (.nextStmt tok v, p)
  else (.nextStmt tok none, p)

/-- `parseAliasStatement`. -/
def parseAliasStatement (prev : ParseFns) (p : Parser) :
    Stmt × Parser :=
  let tok := p.curToken
  let p := p.nextToken
  let (neu, p) := prev.parseExpression LOWEST p
  let p := p.nextToken
  let (old, p) := prev.parseExpression LOWEST p
  (.aliasStmt tok neu old, p)

/-- `parseUndefStatement`. -/
def parseUndefStatement (prev : ParseFns) (p : Parser) :
    Stmt × Parser :=
  let tok := p.curToken
  let p := p.nextToken
  let (m, p) := prev.parseExpression LOWEST p
  let (methods, p) := prev.undefCommaLoop p [m]
  (.undefStmt tok methods, p)

/-- The comma loop of `parseUndefStatement`. -/
def undefCommaLoop (prev : ParseFns) (p : Parser) (acc : List (Option Expr)) :
    List (Option Expr) × Parser :=
  if p.peekTokenIs .COMMA then
    let p := p.nextToken.nextToken
    let (m, p) := prev.parseExpression LOWEST p
    prev.undefCommaLoop p (acc ++ [m])
  else (acc, p)

end PStep

set_option linter.unusedVariables false in
/-- Fuel 0 of the parser family: neutral values. -/
def parseZero : ParseFns where
  parseProgram := fun p => ({ statements := [] }, p)
  parseProgramLoop := fun p acc => (acc, p)
  parseStatement := fun p => (.exprStmt zeroToken none, p)
  parseExpressionStatement := fun p => (.exprStmt zeroToken none, p)
  parseExpression := fun precedence p => (none, p)
  parseExprLoop := fun precedence leftExp p => (leftExp, p)
  parseBlockContextExpressionStatement := fun p => (.exprStmt zeroToken none, p)
  parseBlockContextExpression := fun precedence p => (none, p)
  blockCtxExprLoop := fun precedence leftExp p => (leftExp, p)
  parseBlockContextStatement := fun p => (.exprStmt zeroToken none, p)
  runPrefixFn := fun k p => (none, p)
  runInfixFn := fun k left p => (none, p)
  parseStringLiteral := fun p => (none, p)
  stringLitLoop := fun startToken p parts content hasInterpolation => (none, p)
  parseSymbolLiteral := fun p => (none, p)
  parseIdentifierFn := fun p => (none, p)
  parseMethodCallWithoutParens := fun identTok identVal p => (none, p)
  parseMethodCallWithParens := fun identTok identVal p => (none, p)
  parseMethodCallWithBlock := fun identTok identVal args p => (none, p)
  parseArgumentsWithoutParens := fun p => ([], p)
  argsNoParensLoop := fun p acc => (acc, p)
  parseExpressionList := fun endT p => ([], p)
  exprListCommaLoop := fun endT p acc => (acc, false, p)
  parseImplicitHash := fun endT p => (none, p)
  implicitHashLoop := fun endT hashTok p pairs => (none, p)
  implicitHashPair := fun endT hashTok keyName p pairs => (none, p)
  parseHashLiteral := fun p => (none, p)
  hashLitLoop := fun hashTok p pairs => (none, p)
  parsePrefixExpression := fun p => (none, p)
  parseGroupedExpression := fun p => (none, p)
  parseArrayLiteral := fun p => (none, p)
  parseInfixExpression := fun left p => (none, p)
  parseRangeExpression := fun left p => (none, p)
  parseAssignment := fun left p => (none, p)
  parseOpAssignment := fun left p => (none, p)
  parseIndexExpression := fun left p => (none, p)
  parseMethodCall := fun left p => (none, p)
  parseSafeNavigation := fun left p => (none, p)
  parseTernaryExpression := fun condition p => (none, p)
  parseAndExpression := fun left p => (none, p)
  parseOrExpression := fun left p => (none, p)
  parseModifierIf := fun left p => (none, p)
  parseModifierUnless := fun left p => (none, p)
  parseModifierWhile := fun left p => (none, p)
  parseModifierUntil := fun left p => (none, p)
  parseRescueModifier := fun left p => (none, p)
  parseBlock := fun p => (.mk zeroToken [] (.mk []), p)
  parseBlockParameters := fun p => ([], p)
  blockParamsLoop := fun p acc => (acc, p)
  parseBlockBody := fun isBrace p => (.mk [], p)
  stmtsUntil := fun stop blockCtx p acc => (acc, p)
  parseIfExpression := fun p => (none, p)
  elsifLoop := fun p alt => (alt, p)
  parseUnlessExpression := fun p => (none, p)
  parseConsequence := fun p => (.mk [], p)
  parseBlockBodyUntilEnd := fun p => (.mk [], p)
  parseCaseExpression := fun p => (none, p)
  caseWhensLoop := fun p acc => (acc, p)
  parseWhenClause := fun p => (.mk zeroToken [] (.mk []), p)
  whenCondLoop := fun p acc => (acc, p)
  parseWhileExpression := fun p => (none, p)
  parseUntilExpression := fun p => (none, p)
  parseForExpression := fun p => (none, p)
  parseLoopBody := fun p => (.mk [], p)
  parseBeginExpression := fun p => (none, p)
  rescueClausesLoop := fun p acc => (acc, p)
  parseRescueClause := fun p => (.mk zeroToken [] none (.mk []), p)
  parseYieldExpression := fun p => (none, p)
  parseSuperExpression := fun p => (none, p)
  parseNotExpression := fun p => (none, p)
  parseDefinedExpression := fun p => (none, p)
  parseLambda := fun p => (none, p)
  parseLambdaParameters := fun p => ([], p)
  lambdaParamsLoop := fun p acc => (acc, p)
  parseSplatExpression := fun p => (none, p)
  parseDoubleSplatExpression := fun p => (none, p)
  parseMethodDefinition := fun p => (.exprStmt zeroToken none, p)
  parseMethodParameters := fun p => ([], p)
  methodParamsLoop := fun p acc => (acc, p)
  parseMethodParametersWithoutParens := fun p => ([], p)
  methodParamsNPLoop := fun p acc => (acc, p)
  parseMethodBody := fun p => (.mk [], p)
  parseClassDefinition := fun p => (.exprStmt zeroToken none, p)
  parseSingletonClassDefinition := fun p => (.exprStmt zeroToken none, p)
  parseClassBody := fun p => (.mk [], p)
  parseModuleDefinition := fun p => (.exprStmt zeroToken none, p)
  parseReturnStatement := fun p => (.exprStmt zeroToken none, p)
  parseBreakStatement := fun p => (.exprStmt zeroToken none, p)
  parseNextStatement := fun p => (.exprStmt zeroToken none, p)
  parseAliasStatement := fun p => (.exprStmt zeroToken none, p)
  parseUndefStatement := fun p => (.exprStmt zeroToken none, p)
  undefCommaLoop := fun p acc => (acc, p)

/-- One unfolding level of the mutual parser family. -/
def parseStep (prev : ParseFns) : ParseFns where
  parseProgram := PStep.parseProgram prev
  parseProgramLoop := PStep.parseProgramLoop prev
  parseStatement := PStep.parseStatement prev
  parseExpressionStatement := PStep.parseExpressionStatement prev
  parseExpression := PStep.parseExpression prev
  parseExprLoop := PStep.parseExprLoop prev
  parseBlockContextExpressionStatement := PStep.parseBlockContextExpressionStatement prev
  parseBlockContextExpression := PStep.parseBlockContextExpression prev
  blockCtxExprLoop := PStep.blockCtxExprLoop prev
  parseBlockContextStatement := PStep.parseBlockContextStatement prev
  runPrefixFn := PStep.runPrefixFn prev
  runInfixFn := PStep.runInfixFn prev
  parseStringLiteral := PStep.parseStringLiteral prev
  stringLitLoop := PStep.stringLitLoop prev
  parseSymbolLiteral := PStep.parseSymbolLiteral prev
  parseIdentifierFn := PStep.parseIdentifierFn prev
  parseMethodCallWithoutParens := PStep.parseMethodCallWithoutParens prev
  parseMethodCallWithParens := PStep.parseMethodCallWithParens prev
  parseMethodCallWithBlock := PStep.parseMethodCallWithBlock prev
  parseArgumentsWithoutParens := PStep.parseArgumentsWithoutParens prev
  argsNoParensLoop := PStep.argsNoParensLoop prev
  parseExpressionList := PStep.parseExpressionList prev
  exprListCommaLoop := PStep.exprListCommaLoop prev
  parseImplicitHash := PStep.parseImplicitHash prev
  implicitHashLoop := PStep.implicitHashLoop prev
  implicitHashPair := PStep.implicitHashPair prev
  parseHashLiteral := PStep.parseHashLiteral prev
  hashLitLoop := PStep.hashLitLoop prev
  parsePrefixExpression := PStep.parsePrefixExpression prev
  parseGroupedExpression := PStep.parseGroupedExpression prev
  parseArrayLiteral := PStep.parseArrayLiteral prev
  parseInfixExpression := PStep.parseInfixExpression prev
  parseRangeExpression := PStep.parseRangeExpression prev
  parseAssignment := PStep.parseAssignment prev
  parseOpAssignment := PStep.parseOpAssignment prev
  parseIndexExpression := PStep.parseIndexExpression prev
  parseMethodCall := PStep.parseMethodCall prev
  parseSafeNavigation := PStep.parseSafeNavigation prev
  parseTernaryExpression := PStep.parseTernaryExpression prev
  parseAndExpression := PStep.parseAndExpression prev
  parseOrExpression := PStep.parseOrExpression prev
  parseModifierIf := PStep.parseModifierIf prev
  parseModifierUnless := PStep.parseModifierUnless prev
  parseModifierWhile := PStep.parseModifierWhile prev
  parseModifierUntil := PStep.parseModifierUntil prev
  parseRescueModifier := PStep.parseRescueModifier prev
  parseBlock := PStep.parseBlock prev
  parseBlockParameters := PStep.parseBlockParameters prev
  blockParamsLoop := PStep.blockParamsLoop prev
  parseBlockBody := PStep.parseBlockBody prev
  stmtsUntil := PStep.stmtsUntil prev
  parseIfExpression := PStep.parseIfExpression prev
  elsifLoop := PStep.elsifLoop prev
  parseUnlessExpression := PStep.parseUnlessExpression prev
  parseConsequence := PStep.parseConsequence prev
  parseBlockBodyUntilEnd := PStep.parseBlockBodyUntilEnd prev
  parseCaseExpression := PStep.parseCaseExpression prev
  caseWhensLoop := PStep.caseWhensLoop prev
  parseWhenClause := PStep.parseWhenClause prev
  whenCondLoop := PStep.whenCondLoop prev
  parseWhileExpression := PStep.parseWhileExpression prev
  parseUntilExpression := PStep.parseUntilExpression prev
  parseForExpression := PStep.parseForExpression prev
  parseLoopBody := PStep.parseLoopBody prev
  parseBeginExpression := PStep.parseBeginExpression prev
  rescueClausesLoop := PStep.rescueClausesLoop prev
  parseRescueClause := PStep.parseRescueClause prev
  parseYieldExpression := PStep.parseYieldExpression prev
  parseSuperExpression := PStep.parseSuperExpression prev
  parseNotExpression := PStep.parseNotExpression prev
  parseDefinedExpression := PStep.parseDefinedExpression prev
  parseLambda := PStep.parseLambda prev
  parseLambdaParameters := PStep.parseLambdaParameters prev
  lambdaParamsLoop := PStep.lambdaParamsLoop prev
  parseSplatExpression := PStep.parseSplatExpression prev
  parseDoubleSplatExpression := PStep.parseDoubleSplatExpression prev
  parseMethodDefinition := PStep.parseMethodDefinition prev
  parseMethodParameters := PStep.parseMethodParameters prev
  methodParamsLoop := PStep.methodParamsLoop prev
  parseMethodParametersWithoutParens := PStep.parseMethodParametersWithoutParens prev
  methodParamsNPLoop := PStep.methodParamsNPLoop prev
  parseMethodBody := PStep.parseMethodBody prev
  parseClassDefinition := PStep.parseClassDefinition prev
  parseSingletonClassDefinition := PStep.parseSingletonClassDefinition prev
  parseClassBody := PStep.parseClassBody prev
  parseModuleDefinition := PStep.parseModuleDefinition prev
  parseReturnStatement := PStep.parseReturnStatement prev
  parseBreakStatement := PStep.parseBreakStatement prev
  parseNextStatement := PStep.parseNextStatement prev
  parseAliasStatement := PStep.parseAliasStatement prev
  parseUndefStatement := PStep.parseUndefStatement prev
  undefCommaLoop := PStep.undefCommaLoop prev

/-- The parser family with recursion depth at most `fuel`. -/
def parseAt : Nat → ParseFns
  | 0 => parseZero
  | f + 1 => parseStep (parseAt f)

/-- `parseProgram` at fuel `fuel` (body: `PStep.parseProgram`). -/
def parseProgram (fuel : Nat) (p : Parser) : Program × Parser :=
  (parseAt fuel).parseProgram p

/-- `parseProgramLoop` at fuel `fuel` (body: `PStep.parseProgramLoop`). -/
def parseProgramLoop (fuel : Nat) (p : Parser) (acc : List Stmt) : List Stmt × Parser :=
  (parseAt fuel).parseProgramLoop p acc

/-- `parseStatement` at fuel `fuel` (body: `PStep.parseStatement`). -/
def parseStatement (fuel : Nat) (p : Parser) : Stmt × Parser :=
  (parseAt fuel).parseStatement p

/-- `parseExpressionStatement` at fuel `fuel` (body: `PStep.parseExpressionStatement`). -/
def parseExpressionStatement (fuel : Nat) (p : Parser) : Stmt × Parser :=
  (parseAt fuel).parseExpressionStatement p

/-- `parseExpression` at fuel `fuel` (body: `PStep.parseExpression`). -/
def parseExpression (fuel : Nat) (precedence : Nat) (p : Parser) : Option Expr × Parser :=
  (parseAt fuel).parseExpression precedence p

/-- `parseExprLoop` at fuel `fuel` (body: `PStep.parseExprLoop`). -/
def parseExprLoop (fuel : Nat) (precedence : Nat) (leftExp : Option Expr) (p : Parser) : Option Expr × Parser :=
  (parseAt fuel).parseExprLoop precedence leftExp p

/-- `parseBlockContextExpressionStatement` at fuel `fuel` (body: `PStep.parseBlockContextExpressionStatement`). -/
def parseBlockContextExpressionStatement (fuel : Nat) (p : Parser) : Stmt × Parser :=
  (parseAt fuel).parseBlockContextExpressionStatement p

/-- `parseBlockContextExpression` at fuel `fuel` (body: `PStep.parseBlockContextExpression`). -/
def parseBlockContextExpression (fuel : Nat) (precedence : Nat) (p : Parser) : Option Expr × Parser :=
  (parseAt fuel).parseBlockContextExpression precedence p

/-- `blockCtxExprLoop` at fuel `fuel` (body: `PStep.blockCtxExprLoop`). -/
def blockCtxExprLoop (fuel : Nat) (precedence : Nat) (leftExp : Option Expr) (p : Parser) : Option Expr × Parser :=
  (parseAt fuel).blockCtxExprLoop precedence leftExp p

/-- `parseBlockContextStatement` at fuel `fuel` (body: `PStep.parseBlockContextStatement`). -/
def parseBlockContextStatement (fuel : Nat) (p : Parser) : Stmt × Parser :=
  (parseAt fuel).parseBlockContextStatement p

/-- `runPrefixFn` at fuel `fuel` (body: `PStep.runPrefixFn`). -/
def runPrefixFn (fuel : Nat) (k : PrefixKind) (p : Parser) : Option Expr × Parser :=
  (parseAt fuel).runPrefixFn k p

/-- `runInfixFn` at fuel `fuel` (body: `PStep.runInfixFn`). -/
def runInfixFn (fuel : Nat) (k : InfixKind) (left : Option Expr) (p : Parser) : Option Expr × Parser :=
  (parseAt fuel).runInfixFn k left p

/-- `parseStringLiteral` at fuel `fuel` (body: `PStep.parseStringLiteral`). -/
def parseStringLiteral (fuel : Nat) (p : Parser) : Option Expr × Parser :=
  (parseAt fuel).parseStringLiteral p

/-- `stringLitLoop` at fuel `fuel` (body: `PStep.stringLitLoop`). -/
def stringLitLoop (fuel : Nat) (startToken : Token) (p : Parser) (parts : List Expr) (content : List Char) (hasInterpolation : Bool) : Option Expr × Parser :=
  (parseAt fuel).stringLitLoop startToken p parts content hasInterpolation

/-- `parseSymbolLiteral` at fuel `fuel` (body: `PStep.parseSymbolLiteral`). -/
def parseSymbolLiteral (fuel : Nat) (p : Parser) : Option Expr × Parser :=
  (parseAt fuel).parseSymbolLiteral p

/-- `parseIdentifierFn` at fuel `fuel` (body: `PStep.parseIdentifierFn`). -/
def parseIdentifierFn (fuel : Nat) (p : Parser) : Option Expr × Parser :=
  (parseAt fuel).parseIdentifierFn p

/-- `parseMethodCallWithoutParens` at fuel `fuel` (body: `PStep.parseMethodCallWithoutParens`). -/
def parseMethodCallWithoutParens (fuel : Nat) (identTok : Token) (identVal : String) (p : Parser) : Option Expr × Parser :=
  (parseAt fuel).parseMethodCallWithoutParens identTok identVal p

/-- `parseMethodCallWithParens` at fuel `fuel` (body: `PStep.parseMethodCallWithParens`). -/
def parseMethodCallWithParens (fuel : Nat) (identTok : Token) (identVal : String) (p : Parser) : Option Expr × Parser :=
  (parseAt fuel).parseMethodCallWithParens identTok identVal p

/-- `parseMethodCallWithBlock` at fuel `fuel` (body: `PStep.parseMethodCallWithBlock`). -/
def parseMethodCallWithBlock (fuel : Nat) (identTok : Token) (identVal : String) (args : List (Option Expr)) (p : Parser) : Option Expr × Parser :=
  (parseAt fuel).parseMethodCallWithBlock identTok identVal args p

/-- `parseArgumentsWithoutParens` at fuel `fuel` (body: `PStep.parseArgumentsWithoutParens`). -/
def parseArgumentsWithoutParens (fuel : Nat) (p : Parser) : List (Option Expr) × Parser :=
  (parseAt fuel).parseArgumentsWithoutParens p

/-- `argsNoParensLoop` at fuel `fuel` (body: `PStep.argsNoParensLoop`). -/
def argsNoParensLoop (fuel : Nat) (p : Parser) (acc : List (Option Expr)) : List (Option Expr) × Parser :=
  (parseAt fuel).argsNoParensLoop p acc

/-- `parseExpressionList` at fuel `fuel` (body: `PStep.parseExpressionList`). -/
def parseExpressionList (fuel : Nat) (endT : TokenType) (p : Parser) : List (Option Expr) × Parser :=
  (parseAt fuel).parseExpressionList endT p

/-- `exprListCommaLoop` at fuel `fuel` (body: `PStep.exprListCommaLoop`). -/
def exprListCommaLoop (fuel : Nat) (endT : TokenType) (p : Parser) (acc : List (Option Expr)) : List (Option Expr) × Bool × Parser :=
  (parseAt fuel).exprListCommaLoop endT p acc

/-- `parseImplicitHash` at fuel `fuel` (body: `PStep.parseImplicitHash`). -/
def parseImplicitHash (fuel : Nat) (endT : TokenType) (p : Parser) : Option Expr × Parser :=
  (parseAt fuel).parseImplicitHash endT p

/-- `implicitHashLoop` at fuel `fuel` (body: `PStep.implicitHashLoop`). -/
def implicitHashLoop (fuel : Nat) (endT : TokenType) (hashTok : Token) (p : Parser) (pairs : List (Expr × Option Expr)) : Option Expr × Parser :=
  (parseAt fuel).implicitHashLoop endT hashTok p pairs

/-- `implicitHashPair` at fuel `fuel` (body: `PStep.implicitHashPair`). -/
def implicitHashPair (fuel : Nat) (endT : TokenType) (hashTok : Token) (keyName : String) (p : Parser) (pairs : List (Expr × Option Expr)) : Option Expr × Parser :=
  (parseAt fuel).implicitHashPair endT hashTok keyName p pairs

/-- `parseHashLiteral` at fuel `fuel` (body: `PStep.parseHashLiteral`). -/
def parseHashLiteral (fuel : Nat) (p : Parser) : Option Expr × Parser :=
  (parseAt fuel).parseHashLiteral p

/-- `hashLitLoop` at fuel `fuel` (body: `PStep.hashLitLoop`). -/
def hashLitLoop (fuel : Nat) (hashTok : Token) (p : Parser) (pairs : List (Expr × Option Expr)) : Option Expr × Parser :=
  (parseAt fuel).hashLitLoop hashTok p pairs

/-- `parsePrefixExpression` at fuel `fuel` (body: `PStep.parsePrefixExpression`). -/
def parsePrefixExpression (fuel : Nat) (p : Parser) : Option Expr × Parser :=
  (parseAt fuel).parsePrefixExpression p

/-- `parseGroupedExpression` at fuel `fuel` (body: `PStep.parseGroupedExpression`). -/
def parseGroupedExpression (fuel : Nat) (p : Parser) : Option Expr × Parser :=
  (parseAt fuel).parseGroupedExpression p

/-- `parseArrayLiteral` at fuel `fuel` (body: `PStep.parseArrayLiteral`). -/
def parseArrayLiteral (fuel : Nat) (p : Parser) : Option Expr × Parser :=
  (parseAt fuel).parseArrayLiteral p

/-- `parseInfixExpression` at fuel `fuel` (body: `PStep.parseInfixExpression`). -/
def parseInfixExpression (fuel : Nat) (left : Option Expr) (p : Parser) : Option Expr × Parser :=
  (parseAt fuel).parseInfixExpression left p

/-- `parseRangeExpression` at fuel `fuel` (body: `PStep.parseRangeExpression`). -/
def parseRangeExpression (fuel : Nat) (left : Option Expr) (p : Parser) : Option Expr × Parser :=
  (parseAt fuel).parseRangeExpression left p

/-- `parseAssignment` at fuel `fuel` (body: `PStep.parseAssignment`). -/
def parseAssignment (fuel : Nat) (left : Option Expr) (p : Parser) : Option Expr × Parser :=
  (parseAt fuel).parseAssignment left p

/-- `parseOpAssignment` at fuel `fuel` (body: `PStep.parseOpAssignment`). -/
def parseOpAssignment (fuel : Nat) (left : Option Expr) (p : Parser) : Option Expr × Parser :=
  (parseAt fuel).parseOpAssignment left p

/-- `parseIndexExpression` at fuel `fuel` (body: `PStep.parseIndexExpression`). -/
def parseIndexExpression (fuel : Nat) (left : Option Expr) (p : Parser) : Option Expr × Parser :=
  (parseAt fuel).parseIndexExpression left p

/-- `parseMethodCall` at fuel `fuel` (body: `PStep.parseMethodCall`). -/
def parseMethodCall (fuel : Nat) (left : Option Expr) (p : Parser) : Option Expr × Parser :=
  (parseAt fuel).parseMethodCall left p

/-- `parseSafeNavigation` at fuel `fuel` (body: `PStep.parseSafeNavigation`). -/
def parseSafeNavigation (fuel : Nat) (left : Option Expr) (p : Parser) : Option Expr × Parser :=
  (parseAt fuel).parseSafeNavigation left p

/-- `parseTernaryExpression` at fuel `fuel` (body: `PStep.parseTernaryExpression`). -/
def parseTernaryExpression (fuel : Nat) (condition : Option Expr) (p : Parser) : Option Expr × Parser :=
  (parseAt fuel).parseTernaryExpression condition p

/-- `parseAndExpression` at fuel `fuel` (body: `PStep.parseAndExpression`). -/
def parseAndExpression (fuel : Nat) (left : Option Expr) (p : Parser) : Option Expr × Parser :=
  (parseAt fuel).parseAndExpression left p

/-- `parseOrExpression` at fuel `fuel` (body: `PStep.parseOrExpression`). -/
def parseOrExpression (fuel : Nat) (left : Option Expr) (p : Parser) : Option Expr × Parser :=
  (parseAt fuel).parseOrExpression left p

/-- `parseModifierIf` at fuel `fuel` (body: `PStep.parseModifierIf`). -/
def parseModifierIf (fuel : Nat) (left : Option Expr) (p : Parser) : Option Expr × Parser :=
  (parseAt fuel).parseModifierIf left p

/-- `parseModifierUnless` at fuel `fuel` (body: `PStep.parseModifierUnless`). -/
def parseModifierUnless (fuel : Nat) (left : Option Expr) (p : Parser) : Option Expr × Parser :=
  (parseAt fuel).parseModifierUnless left p

/-- `parseModifierWhile` at fuel `fuel` (body: `PStep.parseModifierWhile`). -/
def parseModifierWhile (fuel : Nat) (left : Option Expr) (p : Parser) : Option Expr × Parser :=
  (parseAt fuel).parseModifierWhile left p

/-- `parseModifierUntil` at fuel `fuel` (body: `PStep.parseModifierUntil`). -/
def parseModifierUntil (fuel : Nat) (left : Option Expr) (p : Parser) : Option Expr × Parser :=
  (parseAt fuel).parseModifierUntil left p

/-- `parseRescueModifier` at fuel `fuel` (body: `PStep.parseRescueModifier`). -/
def parseRescueModifier (fuel : Nat) (left : Option Expr) (p : Parser) : Option Expr × Parser :=
  (parseAt fuel).parseRescueModifier left p

/-- `parseBlock` at fuel `fuel` (body: `PStep.parseBlock`). -/
def parseBlock (fuel : Nat) (p : Parser) : Blk × Parser :=
  (parseAt fuel).parseBlock p

/-- `parseBlockParameters` at fuel `fuel` (body: `PStep.parseBlockParameters`). -/
def parseBlockParameters (fuel : Nat) (p : Parser) : List BlockParam × Parser :=
  (parseAt fuel).parseBlockParameters p

/-- `blockParamsLoop` at fuel `fuel` (body: `PStep.blockParamsLoop`). -/
def blockParamsLoop (fuel : Nat) (p : Parser) (acc : List BlockParam) : List BlockParam × Parser :=
  (parseAt fuel).blockParamsLoop p acc

/-- `parseBlockBody` at fuel `fuel` (body: `PStep.parseBlockBody`). -/
def parseBlockBody (fuel : Nat) (isBrace : Bool) (p : Parser) : BlockBody × Parser :=
  (parseAt fuel).parseBlockBody isBrace p

/-- `stmtsUntil` at fuel `fuel` (body: `PStep.stmtsUntil`). -/
def stmtsUntil (fuel : Nat) (stop : Parser → Bool) (blockCtx : Bool) (p : Parser) (acc : List Stmt) : List Stmt × Parser :=
  (parseAt fuel).stmtsUntil stop blockCtx p acc

/-- `parseIfExpression` at fuel `fuel` (body: `PStep.parseIfExpression`). -/
def parseIfExpression (fuel : Nat) (p : Parser) : Option Expr × Parser :=
  (parseAt fuel).parseIfExpression p

/-- `elsifLoop` at fuel `fuel` (body: `PStep.elsifLoop`). -/
def elsifLoop (fuel : Nat) (p : Parser) (alt : Option IfExpr) : Option IfExpr × Parser :=
  (parseAt fuel).elsifLoop p alt

/-- `parseUnlessExpression` at fuel `fuel` (body: `PStep.parseUnlessExpression`). -/
def parseUnlessExpression (fuel : Nat) (p : Parser) : Option Expr × Parser :=
  (parseAt fuel).parseUnlessExpression p

/-- `parseConsequence` at fuel `fuel` (body: `PStep.parseConsequence`). -/
def parseConsequence (fuel : Nat) (p : Parser) : BlockBody × Parser :=
  (parseAt fuel).parseConsequence p

/-- `parseBlockBodyUntilEnd` at fuel `fuel` (body: `PStep.parseBlockBodyUntilEnd`). -/
def parseBlockBodyUntilEnd (fuel : Nat) (p : Parser) : BlockBody × Parser :=
  (parseAt fuel).parseBlockBodyUntilEnd p

/-- `parseCaseExpression` at fuel `fuel` (body: `PStep.parseCaseExpression`). -/
def parseCaseExpression (fuel : Nat) (p : Parser) : Option Expr × Parser :=
  (parseAt fuel).parseCaseExpression p

/-- `caseWhensLoop` at fuel `fuel` (body: `PStep.caseWhensLoop`). -/
def caseWhensLoop (fuel : Nat) (p : Parser) (acc : List WhenClause) : List WhenClause × Parser :=
  (parseAt fuel).caseWhensLoop p acc

/-- `parseWhenClause` at fuel `fuel` (body: `PStep.parseWhenClause`). -/
def parseWhenClause (fuel : Nat) (p : Parser) : WhenClause × Parser :=
  (parseAt fuel).parseWhenClause p

/-- `whenCondLoop` at fuel `fuel` (body: `PStep.whenCondLoop`). -/
def whenCondLoop (fuel : Nat) (p : Parser) (acc : List (Option Expr)) : List (Option Expr) × Parser :=
  (parseAt fuel).whenCondLoop p acc

/-- `parseWhileExpression` at fuel `fuel` (body: `PStep.parseWhileExpression`). -/
def parseWhileExpression (fuel : Nat) (p : Parser) : Option Expr × Parser :=
  (parseAt fuel).parseWhileExpression p

/-- `parseUntilExpression` at fuel `fuel` (body: `PStep.parseUntilExpression`). -/
def parseUntilExpression (fuel : Nat) (p : Parser) : Option Expr × Parser :=
  (parseAt fuel).parseUntilExpression p

/-- `parseForExpression` at fuel `fuel` (body: `PStep.parseForExpression`). -/
def parseForExpression (fuel : Nat) (p : Parser) : Option Expr × Parser :=
  (parseAt fuel).parseForExpression p

/-- `parseLoopBody` at fuel `fuel` (body: `PStep.parseLoopBody`). -/
def parseLoopBody (fuel : Nat) (p : Parser) : BlockBody × Parser :=
  (parseAt fuel).parseLoopBody p

/-- `parseBeginExpression` at fuel `fuel` (body: `PStep.parseBeginExpression`). -/
def parseBeginExpression (fuel : Nat) (p : Parser) : Option Expr × Parser :=
  (parseAt fuel).parseBeginExpression p

/-- `rescueClausesLoop` at fuel `fuel` (body: `PStep.rescueClausesLoop`). -/
def rescueClausesLoop (fuel : Nat) (p : Parser) (acc : List RescueClause) : List RescueClause × Parser :=
  (parseAt fuel).rescueClausesLoop p acc

/-- `parseRescueClause` at fuel `fuel` (body: `PStep.parseRescueClause`). -/
def parseRescueClause (fuel : Nat) (p : Parser) : RescueClause × Parser :=
  (parseAt fuel).parseRescueClause p

/-- `parseYieldExpression` at fuel `fuel` (body: `PStep.parseYieldExpression`). -/
def parseYieldExpression (fuel : Nat) (p : Parser) : Option Expr × Parser :=
  (parseAt fuel).parseYieldExpression p

/-- `parseSuperExpression` at fuel `fuel` (body: `PStep.parseSuperExpression`). -/
def parseSuperExpression (fuel : Nat) (p : Parser) : Option Expr × Parser :=
  (parseAt fuel).parseSuperExpression p

/-- `parseNotExpression` at fuel `fuel` (body: `PStep.parseNotExpression`). -/
def parseNotExpression (fuel : Nat) (p : Parser) : Option Expr × Parser :=
  (parseAt fuel).parseNotExpression p

/-- `parseDefinedExpression` at fuel `fuel` (body: `PStep.parseDefinedExpression`). -/
def parseDefinedExpression (fuel : Nat) (p : Parser) : Option Expr × Parser :=
  (parseAt fuel).parseDefinedExpression p

/-- `parseLambda` at fuel `fuel` (body: `PStep.parseLambda`). -/
def parseLambda (fuel : Nat) (p : Parser) : Option Expr × Parser :=
  (parseAt fuel).parseLambda p

/-- `parseLambdaParameters` at fuel `fuel` (body: `PStep.parseLambdaParameters`). -/
def parseLambdaParameters (fuel : Nat) (p : Parser) : List BlockParam × Parser :=
  (parseAt fuel).parseLambdaParameters p

/-- `lambdaParamsLoop` at fuel `fuel` (body: `PStep.lambdaParamsLoop`). -/
def lambdaParamsLoop (fuel : Nat) (p : Parser) (acc : List BlockParam) : List BlockParam × Parser :=
  (parseAt fuel).lambdaParamsLoop p acc

/-- `parseSplatExpression` at fuel `fuel` (body: `PStep.parseSplatExpression`). -/
def parseSplatExpression (fuel : Nat) (p : Parser) : Option Expr × Parser :=
  (parseAt fuel).parseSplatExpression p

/-- `parseDoubleSplatExpression` at fuel `fuel` (body: `PStep.parseDoubleSplatExpression`). -/
def parseDoubleSplatExpression (fuel : Nat) (p : Parser) : Option Expr × Parser :=
  (parseAt fuel).parseDoubleSplatExpression p

/-- `parseMethodDefinition` at fuel `fuel` (body: `PStep.parseMethodDefinition`). -/
def parseMethodDefinition (fuel : Nat) (p : Parser) : Stmt × Parser :=
  (parseAt fuel).parseMethodDefinition p

/-- `parseMethodParameters` at fuel `fuel` (body: `PStep.parseMethodParameters`). -/
def parseMethodParameters (fuel : Nat) (p : Parser) : List MethodParam × Parser :=
  (parseAt fuel).parseMethodParameters p

/-- `methodParamsLoop` at fuel `fuel` (body: `PStep.methodParamsLoop`). -/
def methodParamsLoop (fuel : Nat) (p : Parser) (acc : List MethodParam) : List MethodParam × Parser :=
  (parseAt fuel).methodParamsLoop p acc

/-- `parseMethodParametersWithoutParens` at fuel `fuel` (body: `PStep.parseMethodParametersWithoutParens`). -/
def parseMethodParametersWithoutParens (fuel : Nat) (p : Parser) : List MethodParam × Parser :=
  (parseAt fuel).parseMethodParametersWithoutParens p

/-- `methodParamsNPLoop` at fuel `fuel` (body: `PStep.methodParamsNPLoop`). -/
def methodParamsNPLoop (fuel : Nat) (p : Parser) (acc : List MethodParam) : List MethodParam × Parser :=
  (parseAt fuel).methodParamsNPLoop p acc

/-- `parseMethodBody` at fuel `fuel` (body: `PStep.parseMethodBody`). -/
def parseMethodBody (fuel : Nat) (p : Parser) : BlockBody × Parser :=
  (parseAt fuel).parseMethodBody p

/-- `parseClassDefinition` at fuel `fuel` (body: `PStep.parseClassDefinition`). -/
def parseClassDefinition (fuel : Nat) (p : Parser) : Stmt × Parser :=
  (parseAt fuel).parseClassDefinition p

/-- `parseSingletonClassDefinition` at fuel `fuel` (body: `PStep.parseSingletonClassDefinition`). -/
def parseSingletonClassDefinition (fuel : Nat) (p : Parser) : Stmt × Parser :=
  (parseAt fuel).parseSingletonClassDefinition p

/-- `parseClassBody` at fuel `fuel` (body: `PStep.parseClassBody`). -/
def parseClassBody (fuel : Nat) (p : Parser) : BlockBody × Parser :=
  (parseAt fuel).parseClassBody p

/-- `parseModuleDefinition` at fuel `fuel` (body: `PStep.parseModuleDefinition`). -/
def parseModuleDefinition (fuel : Nat) (p : Parser) : Stmt × Parser :=
  (parseAt fuel).parseModuleDefinition p

/-- `parseReturnStatement` at fuel `fuel` (body: `PStep.parseReturnStatement`). -/
def parseReturnStatement (fuel : Nat) (p : Parser) : Stmt × Parser :=
  (parseAt fuel).parseReturnStatement p

/-- `parseBreakStatement` at fuel `fuel` (body: `PStep.parseBreakStatement`). -/
def parseBreakStatement (fuel : Nat) (p : Parser) : Stmt × Parser :=
  (parseAt fuel).parseBreakStatement p

/-- `parseNextStatement` at fuel `fuel` (body: `PStep.parseNextStatement`). -/
def parseNextStatement (fuel : Nat) (p : Parser) : Stmt × Parser :=
  (parseAt fuel).parseNextStatement p

/-- `parseAliasStatement` at fuel `fuel` (body: `PStep.parseAliasStatement`). -/
def parseAliasStatement (fuel : Nat) (p : Parser) : Stmt × Parser :=
  (parseAt fuel).parseAliasStatement p

/-- `parseUndefStatement` at fuel `fuel` (body: `PStep.parseUndefStatement`). -/
def parseUndefStatement (fuel : Nat) (p : Parser) : Stmt × Parser :=
  (parseAt fuel).parseUndefStatement p

/-- `undefCommaLoop` at fuel `fuel` (body: `PStep.undefCommaLoop`). -/
def undefCommaLoop (fuel : Nat) (p : Parser) (acc : List (Option Expr)) : List (Option Expr) × Parser :=
  (parseAt fuel).undefCommaLoop p acc


/-- Standard parser fuel for an input (far more than any claim below
needs). -/
def parserFuelFor (s : String) : Nat := 4 * s.length + 64

/-- Lex-and-parse an input: `ParseProgram(New(lexer.New(s)))`. -/
def parseProgramStr (s : String) : Program × Parser :=
  parseProgram (parserFuelFor s) (Parser.new (Lexer.new s))

/-- The canonical rendering of the program parsed from `s`. -/
def parsePrint (s : String) : String :=
  programString (parserFuelFor s) (parseProgramStr s).1

/-- The diagnostics (`Errors()`) after parsing `s`. -/
def parseErrors (s : String) : List String := (parseProgramStr s).2.errors

/-! ## The claims -/

/-- Peeling one `NextToken` call off the back of `lexIter`. -/
theorem lexIter_succ_back (n : Nat) (l : Lexer) :
    lexIter (n + 1) l = (nextTokenTop (lexIter n l)).2 := by
  induction n generalizing l with
  | zero => rfl
  | succ k ih =>
    show lexIter (k + 1) (nextTokenTop l).2 = _
    rw [ih]
    rfl

/-- C2: the claim that repeated `NextToken` always reaches `EOF` in finitely
many calls is false: on the input `=begin` (an embedded document opener whose
`=end` line never comes), the lexer state reached after the `EMBDOC_BEGIN`
token is a fixed point of `NextToken` that keeps emitting `EMBDOC_LINE`
tokens, so no call ever returns `EOF`. -/
theorem spec_c2_embdoc_never_reaches_eof :
    ∀ n : Nat, (lexNthToken "=begin" n).type ≠ TokenType.EOF := by
  have hfix : (nextTokenTop (lexIter 1 (Lexer.new "=begin"))).2 =
      lexIter 1 (Lexer.new "=begin") := by decide
  have hstate : ∀ n : Nat,
      lexIter (n + 1) (Lexer.new "=begin") = lexIter 1 (Lexer.new "=begin") := by
    intro n
    induction n with
    | zero => rfl
    | succ k ih => rw [lexIter_succ_back (k + 1), ih, hfix]
  intro n
  match n with
  | 0 => decide
  | Nat.succ k =>
    show (nextTokenTop (lexIter (k + 1) (Lexer.new "=begin"))).1.type ≠ _
    rw [hstate k]
    decide

/-- C3: the claimed position monotonicity of successive non-`EOF` tokens
fails: on the input `""`, the `STRING_END` token is emitted without
`setTokenPosition`, so its `(line, column, offset)` stays `(0, 0, 0)` —
the line decreases from the preceding `STRING_BEGIN`'s line 1 and the offset
does not increase. -/
theorem spec_c3_string_end_position_regresses :
    (lexNthToken "\"\"" 0).type = TokenType.STRING_BEGIN ∧
    (lexNthToken "\"\"" 1).type = TokenType.STRING_END ∧
    (lexNthToken "\"\"" 0).type ≠ TokenType.EOF ∧
    (lexNthToken "\"\"" 1).type ≠ TokenType.EOF ∧
    (lexNthToken "\"\"" 1).line < (lexNthToken "\"\"" 0).line ∧
    ¬ (lexNthToken "\"\"" 0).offset < (lexNthToken "\"\"" 1).offset := by
  decide

/-- C4: lexing `<<EOF\nhello\nworld\nEOF\ndone` yields exactly
`HEREDOC_BEGIN "<<EOF"`, `STRING_CONTENT "hello\nworld\n"`,
`HEREDOC_END "EOF"`, `NEWLINE`, `IDENT "done"`, `EOF`. -/
theorem spec_c4_heredoc_token_sequence :
    (lexTokens "<<EOF\nhello\nworld\nEOF\ndone" 6).map (fun t => (t.type, t.literal)) =
      [(.HEREDOC_BEGIN, "<<EOF"), (.STRING_CONTENT, "hello\nworld\n"),
       (.HEREDOC_END, "EOF"), (.NEWLINE, "\n"), (.IDENT, "done"), (.EOF, "")] := by
  decide

/-- C6: `**` is right-associative — `2 ** 3 ** 2` parses (without
diagnostics) to a single expression statement rendering as
`(2 ** (3 ** 2))`. -/
theorem spec_c6_power_right_associative :
    parsePrint "2 ** 3 ** 2" = "(2 ** (3 ** 2))" ∧
    (parseProgramStr "2 ** 3 ** 2").1.statements.length = 1 ∧
    parseErrors "2 ** 3 ** 2" = [] := by
  refine ⟨by decide, by decide, by decide⟩

/-- C7: parse-then-print is not a fixed point: `:"a b"` parses cleanly and
prints as `:a b`, but re-parsing `:a b` prints as `:ab` (the symbol printer
drops the quotes, and the reprint re-lexes as a symbol followed by an
identifier). -/
theorem spec_c7_print_reparse_not_fixed_point :
    parseErrors ":\"a b\"" = [] ∧
    parsePrint ":\"a b\"" = ":a b" ∧
    parsePrint (parsePrint ":\"a b\"") = ":ab" ∧
    parsePrint (parsePrint ":\"a b\"") ≠ parsePrint ":\"a b\"" := by
  refine ⟨by decide, by decide, ?_, ?_⟩ <;> rw [show parsePrint ":\"a b\"" = ":a b" from by decide] <;> decide

/-- C8: after an identifier (no newline in between), a `do` token does take
the block path of `parseIdentifier`, but a `{` token does not: `LBRACE` is in
the argument-start peek set, so `foo {}` parses as a method call whose single
argument is an (empty) hash literal and whose block field is `nil`, while
`foo do x end` parses as a method call with no arguments and the parsed
block. -/
theorem spec_c8_brace_is_argument_do_is_block (f : Nat) (p : Parser)
    (_h1 : p.curToken.type = TokenType.IDENT) (h2 : p.sawNewline = false) :
    (p.peekToken.type = TokenType.KEYWORD_DO →
      parseIdentifierFn (f + 1) p =
        parseMethodCallWithBlock f p.curToken p.curToken.literal [] p) ∧
    (p.peekToken.type = TokenType.LBRACE →
      parseIdentifierFn (f + 1) p =
        parseMethodCallWithoutParens f p.curToken p.curToken.literal p) := by
  constructor
  · intro h3
    show (parseAt (f + 1)).parseIdentifierFn p = _
    simp +decide [parseAt, parseStep, PStep.parseIdentifierFn, Parser.peekTokenIs, h2, h3,
      parseMethodCallWithBlock]
  · intro h3
    show (parseAt (f + 1)).parseIdentifierFn p = _
    simp +decide [parseAt, parseStep, PStep.parseIdentifierFn, Parser.peekTokenIs, h2, h3,
      parseMethodCallWithoutParens]

/-- Counterexample to C8 as stated: `foo {}` (identifier immediately followed
by `{`, no newline) parses to a method call whose block field is `nil` and
whose single argument is the empty hash literal — the `{` opened an argument
expression, not a block — while `foo do x end` does produce the block. -/
theorem spec_c8_counterexample :
    (parseProgramStr "foo \x7b\x7d").1.statements =
      [Stmt.exprStmt { type := .IDENT, literal := "foo", line := 1, column := 1, offset := 0 }
        (some (.methodCall { type := .IDENT, literal := "foo", line := 1, column := 1, offset := 0 }
          none "foo"
          [some (.hashLit { type := .LBRACE, literal := "\x7b", line := 1, column := 5, offset := 4 } [] false)]
          none false))] ∧
    (parseProgramStr "foo do\nx\nend").1.statements =
      [Stmt.exprStmt { type := .IDENT, literal := "foo", line := 1, column := 1, offset := 0 }
        (some (.methodCall { type := .IDENT, literal := "foo", line := 1, column := 1, offset := 0 }
          none "foo" []
          (some (.mk { type := .KEYWORD_DO, literal := "do", line := 1, column := 5, offset := 4 } []
            (.mk [Stmt.exprStmt { type := .IDENT, literal := "x", line := 2, column := 1, offset := 7 }
              (some (.ident { type := .IDENT, literal := "x", line := 2, column := 1, offset := 7 } "x"))])))
          false))] :=
  ⟨rfl, rfl⟩

/-- Witness for `spec_c8_brace_is_argument_do_is_block`, instantiating it at
the parser state for `foo do x end` whose current token is the identifier. -/
theorem spec_c8_witness :
    parseIdentifierFn 7 (Parser.new (Lexer.new "foo do\nx\nend")) =
      parseMethodCallWithBlock 6 (Parser.new (Lexer.new "foo do\nx\nend")).curToken
        (Parser.new (Lexer.new "foo do\nx\nend")).curToken.literal []
        (Parser.new (Lexer.new "foo do\nx\nend")) :=
  ((spec_c8_brace_is_argument_do_is_block 6 (Parser.new (Lexer.new "foo do\nx\nend"))
    (by decide) (by decide)).1 (by decide))

/-- `consumeWhile` is the identity when the current character fails the
predicate. -/
theorem consumeWhile_stop (p : Char → Bool) (fuel : Nat) (l : Lexer) (h : p l.ch = false) :
    consumeWhile p fuel l = l := by
  cases fuel <;> simp [consumeWhile, h]

/-- `readChar` does not touch the string-state stack. -/
theorem readChar_stringStack (l : Lexer) : l.readChar.stringStack = l.stringStack := by
  simp only [Lexer.readChar]
  split <;> split <;> rfl

/-- `readChar` does not touch `currentState`. -/
theorem readChar_hasCurrent (l : Lexer) : l.readChar.hasCurrent = l.hasCurrent := by
  simp only [Lexer.readChar]
  split <;> split <;> rfl

set_option maxHeartbeats 3000000 in
/-- C1: in normal dispatch (no string state, no queued heredoc) a `/` is
lexed as follows: a `=` lookahead wins first and yields `SLASH_EQUAL`
regardless of the regex predicate; only otherwise does `shouldLexRegexp`
decide between `REGEXP_BEGIN` (pushing a regex string-mode) and `SLASH`.
The claimed "iff" fails exactly on the `/=` lookahead, witnessed by
`a = /=1/`: at its `/` the regex predicate holds (after an operator), yet
the emitted token is `SLASH_EQUAL`, not `REGEXP_BEGIN`.  (`lexIter 2` is the
state after `a` and `=`; `skipWhitespace` moves to the `/` exactly as the
dispatch itself would.) -/
theorem spec_c1_slash_dispatch (f : Nat) (l : Lexer)
    (h0 : l.hasCurrent = false) (h1 : l.heredocQueue = []) (hch : l.ch = '/') :
    (nextToken (f + 1) l).1.type =
      (if l.peekChar = '=' then TokenType.SLASH_EQUAL
       else if l.peekChar ≠ '=' ∧ l.shouldLexRegexp then TokenType.REGEXP_BEGIN
       else TokenType.SLASH) ∧
    (l.peekChar ≠ '=' → l.shouldLexRegexp = true →
      ((nextToken (f + 1) l).2.stringStack.headD zeroStringState).mode =
        StringMode.modeRegexp ∧
      (nextToken (f + 1) l).2.hasCurrent = true) := by
  have hskip : l.skipWhitespace = l := by
    apply consumeWhile_stop
    simp [hch]
  have hnext : nextToken (f + 1) l = mainScan (nextToken f) l := by
    simp [nextToken, h0, h1]
  rw [hnext]
  unfold mainScan
  rw [hskip]
  simp only [hch]
  simp only [show ('/' : Char) = '\n' ↔ False from by simp,
    show ('/' : Char) = charNul ↔ False from iff_false_intro (by decide),
    show ('/' : Char) = '+' ↔ False from by simp, show ('/' : Char) = '-' ↔ False from by simp,
    show ('/' : Char) = '*' ↔ False from by simp, show ('/' : Char) = '/' ↔ True from by simp,
    if_false, if_true, ite_false, ite_true]
  by_cases hpe : l.peekChar = '='
  · simp [hpe, finishTok, setTokenPosition, newToken]
  · by_cases hre : l.shouldLexRegexp
    · simp only [hpe, hre, if_false, if_true, ite_false, ite_true, not_false_iff,
        Lexer.lexRegexp, Lexer.pushStringState, finishTok, setTokenPosition, newToken]
      refine ⟨by simp [hpe, hre], fun _ _ => ⟨?_, ?_⟩⟩ <;>
        simp [readChar_stringStack, readChar_hasCurrent]
    · simp [hpe, hre, finishTok, setTokenPosition, newToken]

/-- Counterexample to C1 as stated: at the `/` of `a = /=1/` (the state after
`a`, `=` and the whitespace skip) the regex predicate `shouldLexRegexp` holds
and the lexer is in normal dispatch, yet the emitted token is `SLASH_EQUAL`,
not `REGEXP_BEGIN`. -/
theorem spec_c1_counterexample :
    (lexIter 2 (Lexer.new "a = /=1/")).skipWhitespace.hasCurrent = false ∧
    (lexIter 2 (Lexer.new "a = /=1/")).skipWhitespace.heredocQueue = [] ∧
    (lexIter 2 (Lexer.new "a = /=1/")).skipWhitespace.ch = '/' ∧
    (lexIter 2 (Lexer.new "a = /=1/")).skipWhitespace.shouldLexRegexp = true ∧
    (lexNthToken "a = /=1/" 2).type = TokenType.SLASH_EQUAL ∧
    (lexNthToken "a = /=1/" 2).type ≠ TokenType.REGEXP_BEGIN := by
  refine ⟨by decide, by decide, by decide, by decide, by decide, by decide⟩

/-- Witness for `spec_c1_slash_dispatch`: at the `/` of `x = /a/` the regex
predicate holds, the lookahead is not `=`, and a regex indeed begins. -/
theorem spec_c1_witness :
    (nextToken 10 (lexIter 2 (Lexer.new "x = /a/")).skipWhitespace).1.type =
      TokenType.REGEXP_BEGIN ∧
    ((nextToken 10 (lexIter 2 (Lexer.new "x = /a/")).skipWhitespace).2.stringStack.headD
      zeroStringState).mode = StringMode.modeRegexp := by
  have h := spec_c1_slash_dispatch 9 (lexIter 2 (Lexer.new "x = /a/")).skipWhitespace
    (by decide) (by decide) (by decide)
  exact ⟨h.1.trans (by decide), (h.2 (by decide) (by decide)).1⟩

/-- First-match lookup in an association list of handler registrations
(the contents a Go `map` ends up with, keyed lookup being order-blind). -/
def assocFind {κ : Type} (regs : List (TokenType × κ)) (t : TokenType) : Option κ :=
  (regs.find? (fun e => e.1 == t)).map (fun e => e.2)

/-- Unfolding `assocFind` over a cons. -/
theorem assocFind_cons {κ : Type} (x : TokenType × κ) (l : List (TokenType × κ)) (t : TokenType) :
    assocFind (x :: l) t = if x.1 = t then some x.2 else assocFind l t := by
  by_cases h : x.1 = t <;> simp [assocFind, List.find?_cons, h]

/-- With distinct keys, `assocFind` is invariant under permuting the
registration order. -/
theorem assocFind_perm {κ : Type} :
    ∀ {l₁ l₂ : List (TokenType × κ)}, l₁.Perm l₂ → (l₂.map Prod.fst).Nodup →
      ∀ t, assocFind l₁ t = assocFind l₂ t := by
  intro l₁ l₂ h
  induction h with
  | nil => intro _ _; rfl
  | cons x h ih =>
    intro hnd t
    rw [List.map_cons] at hnd
    rw [assocFind_cons, assocFind_cons]
    by_cases hx : x.1 = t
    · simp [hx]
    · simp [hx, ih (List.Nodup.of_cons hnd) t]
  | swap x y l =>
    intro hnd t
    rw [List.map_cons, List.map_cons] at hnd
    have hxy : x.1 ≠ y.1 := by
      have hm := (List.nodup_cons.mp hnd).1
      exact fun e => hm (by simp [e])
    rw [assocFind_cons, assocFind_cons, assocFind_cons, assocFind_cons]
    by_cases hx : x.1 = t <;> by_cases hy : y.1 = t <;> simp [hx, hy]
    exact absurd (hx.trans hy.symm) hxy
  | trans h₁ h₂ ih₁ ih₂ =>
    intro hnd t
    have hmid := ((h₂.map Prod.fst).nodup_iff).mpr hnd
    rw [ih₁ hmid t, ih₂ hnd t]

/-- The `registerPrefix` calls of `New`, in source order. -/
def prefixRegistrations : List (TokenType × PrefixKind) :=
  [(.INTEGER, .pIntegerLiteral), (.FLOAT, .pFloatLiteral),
   (.STRING_BEGIN, .pStringLiteral), (.STRING_CONTENT, .pSimpleStringLiteral),
   (.SYMBOL_BEGIN, .pSymbolLiteral), (.COLON, .pSymbolLiteral),
   (.KEYWORD_TRUE, .pBooleanLiteral), (.KEYWORD_FALSE, .pBooleanLiteral),
   (.KEYWORD_NIL, .pNilLiteral), (.KEYWORD_SELF, .pSelfExpression),
   (.IDENT, .pIdentifierFn), (.CONSTANT, .pConstant),
   (.IVAR, .pInstanceVariable), (.CVAR, .pClassVariable),
   (.GVAR, .pGlobalVariable), (.BANG, .pPrefixExpression),
   (.MINUS, .pPrefixExpression), (.PLUS, .pPrefixExpression),
   (.TILDE, .pPrefixExpression), (.LPAREN, .pGroupedExpression),
   (.LPAREN_BEG, .pGroupedExpression), (.LBRACKET, .pArrayLiteral),
   (.LBRACKET_ARRAY, .pArrayLiteral), (.LBRACE, .pHashLiteral),
   (.KEYWORD_IF, .pIfExpression), (.KEYWORD_UNLESS, .pUnlessExpression),
   (.KEYWORD_CASE, .pCaseExpression), (.KEYWORD_WHILE, .pWhileExpression),
   (.KEYWORD_UNTIL, .pUntilExpression), (.KEYWORD_FOR, .pForExpression),
   (.KEYWORD_BEGIN, .pBeginExpression), (.KEYWORD_YIELD, .pYieldExpression),
   (.KEYWORD_SUPER, .pSuperExpression), (.KEYWORD_NOT, .pNotExpression),
   (.KEYWORD_DEFINED, .pDefinedExpression), (.MINUS_GREATER, .pLambda),
   (.REGEXP_BEGIN, .pRegexpLiteral), (.UCOLON_COLON, .pTopLevelConstant),
   (.LABEL, .pLabelAsSymbol), (.STAR, .pSplatExpression),
   (.STAR_STAR, .pDoubleSplatExpression)]

/-- The `registerInfix` calls of `New`, in source order. -/
def infixRegistrations : List (TokenType × InfixKind) :=
  [(.PLUS, .iInfixExpression), (.MINUS, .iInfixExpression),
   (.STAR, .iInfixExpression), (.SLASH, .iInfixExpression),
   (.PERCENT, .iInfixExpression), (.STAR_STAR, .iInfixExpression),
   (.EQUAL_EQUAL, .iInfixExpression), (.BANG_EQUAL, .iInfixExpression),
   (.EQUAL_EQUAL_EQUAL, .iInfixExpression), (.LESS_EQUAL_GREATER, .iInfixExpression),
   (.LESS, .iInfixExpression), (.GREATER, .iInfixExpression),
   (.LESS_EQUAL, .iInfixExpression), (.GREATER_EQUAL, .iInfixExpression),
   (.AMPERSAND_AMPERSAND, .iInfixExpression), (.PIPE_PIPE, .iInfixExpression),
   (.AMPERSAND, .iInfixExpression), (.PIPE, .iInfixExpression),
   (.CARET, .iInfixExpression), (.LESS_LESS, .iInfixExpression),
   (.GREATER_GREATER, .iInfixExpression), (.EQUAL_TILDE, .iInfixExpression),
   (.BANG_TILDE, .iInfixExpression), (.DOT_DOT, .iRangeExpression),
   (.DOT_DOT_DOT, .iRangeExpression), (.EQUAL, .iAssignment),
   (.PLUS_EQUAL, .iOpAssignment), (.MINUS_EQUAL, .iOpAssignment),
   (.STAR_EQUAL, .iOpAssignment), (.SLASH_EQUAL, .iOpAssignment),
   (.PERCENT_EQUAL, .iOpAssignment), (.STAR_STAR_EQUAL, .iOpAssignment),
   (.PIPE_PIPE_EQUAL, .iOpAssignment), (.AMPERSAND_AMPERSAND_EQUAL, .iOpAssignment),
   (.AMPERSAND_EQUAL, .iOpAssignment), (.PIPE_EQUAL, .iOpAssignment),
   (.CARET_EQUAL, .iOpAssignment), (.LESS_LESS_EQUAL, .iOpAssignment),
   (.GREATER_GREATER_EQUAL, .iOpAssignment), (.LBRACKET, .iIndexExpression),
   (.DOT, .iMethodCall), (.AMPERSAND_DOT, .iSafeNavigation),
   (.COLON_COLON, .iScopedConstant), (.QUESTION, .iTernaryExpression),
   (.KEYWORD_AND, .iAndExpression), (.KEYWORD_OR, .iOrExpression),
   (.KEYWORD_IF, .iModifierIf), (.KEYWORD_IF_MODIFIER, .iModifierIf),
   (.KEYWORD_UNLESS, .iModifierUnless), (.KEYWORD_UNLESS_MODIFIER, .iModifierUnless),
   (.KEYWORD_WHILE, .iModifierWhile), (.KEYWORD_WHILE_MODIFIER, .iModifierWhile),
   (.KEYWORD_UNTIL, .iModifierUntil), (.KEYWORD_UNTIL_MODIFIER, .iModifierUntil),
   (.KEYWORD_RESCUE, .iRescueModifier), (.KEYWORD_RESCUE_MODIFIER, .iRescueModifier)]

set_option maxHeartbeats 2000000 in
/-- The registration list induces exactly the prefix-handler table the
parser model dispatches through. -/
theorem assocFind_base_prefix : ∀ t, assocFind prefixRegistrations t = prefixParseFnFor t := by
  intro t; cases t <;> rfl

set_option maxHeartbeats 2000000 in
/-- The registration list induces exactly the infix-handler table the
parser model dispatches through. -/
theorem assocFind_base_infix : ∀ t, assocFind infixRegistrations t = infixParseFnFor t := by
  intro t; cases t <;> rfl

/-- C10: the only nondeterminism in the Go pipeline is the iteration order of
the handler maps built by `New`; every key is registered exactly once (the
key lists are duplicate-free), and keyed lookup over the registrations in any
insertion order yields exactly the handler tables the parser dispatches
through, so lexing and parsing are pure functions of the input. -/
theorem spec_c10_handler_lookup_order_independent :
    (prefixRegistrations.map Prod.fst).Nodup ∧
    (infixRegistrations.map Prod.fst).Nodup ∧
    (∀ (regs : List (TokenType × PrefixKind)), regs.Perm prefixRegistrations →
      ∀ t, assocFind regs t = prefixParseFnFor t) ∧
    (∀ (regs : List (TokenType × InfixKind)), regs.Perm infixRegistrations →
      ∀ t, assocFind regs t = infixParseFnFor t) := by
  refine ⟨by decide, by decide, ?_, ?_⟩
  · intro regs hperm t
    rw [assocFind_perm hperm (by decide) t]
    exact assocFind_base_prefix t
  · intro regs hperm t
    rw [assocFind_perm hperm (by decide) t]
    exact assocFind_base_infix t

/-- Witness for `spec_c10_handler_lookup_order_independent`: registering in
reversed order still yields the same handlers. -/
theorem spec_c10_witness :
    assocFind prefixRegistrations.reverse TokenType.IDENT =
      prefixParseFnFor TokenType.IDENT ∧
    assocFind infixRegistrations.reverse TokenType.DOT =
      infixParseFnFor TokenType.DOT :=
  ⟨spec_c10_handler_lookup_order_independent.2.2.1 _ (List.reverse_perm _) _,
   spec_c10_handler_lookup_order_independent.2.2.2 _ (List.reverse_perm _) _⟩

/-- `readChar` leaves the input untouched. -/
theorem readChar_input (l : Lexer) : l.readChar.input = l.input := by
  simp only [Lexer.readChar]; split <;> split <;> rfl

/-- `readChar` moves `position` to the old `readPosition`. -/
theorem readChar_position (l : Lexer) : l.readChar.position = l.readPosition := by
  simp only [Lexer.readChar]; split <;> split <;> rfl

/-- `readChar` advances `readPosition` by one. -/
theorem readChar_readPosition (l : Lexer) : l.readChar.readPosition = l.readPosition + 1 := by
  simp only [Lexer.readChar]; split <;> split <;> rfl

/-- The character loaded by `readChar`. -/
theorem readChar_ch (l : Lexer) :
    l.readChar.ch = if l.input.length ≤ l.readPosition then charNul
                    else l.input.getD l.readPosition charNul := by
  simp only [Lexer.readChar, ge_iff_le, List.getD]
  by_cases hb : l.input.length ≤ l.readPosition <;> simp [hb] <;> split <;> rfl

/-- An in-bounds `getD` is a member. -/
theorem getD_mem_of_lt {l : List Char} {j : Nat} (h : j < l.length) (d : Char) :
    l.getD j d ∈ l := by
  rw [List.getD_eq_getElem l d h]
  exact List.getElem_mem h

/-- When every remaining input character satisfies the predicate (and the
usual position/readPosition/ch invariants of a reachable lexer hold),
`consumeWhile` runs to the end of the input and parks on the NUL sentinel. -/
theorem consumeWhile_all (p : Char → Bool) (hnul : p charNul = false) :
    ∀ (fuel : Nat) (l : Lexer),
      l.readPosition = l.position + 1 →
      l.position ≤ l.input.length →
      l.ch = (if l.input.length ≤ l.position then charNul
              else l.input.getD l.position charNul) →
      (∀ j, l.position ≤ j → j < l.input.length → p (l.input.getD j charNul) = true) →
      l.input.length - l.position < fuel →
      (consumeWhile p fuel l).input = l.input ∧
      (consumeWhile p fuel l).position = l.input.length ∧
      (consumeWhile p fuel l).ch = charNul := by
  intro fuel
  induction fuel with
  | zero => intro l _ _ _ _ hf; omega
  | succ f ih =>
    intro l h1 h2 h3 hall hf
    by_cases hp : p l.ch = true
    · have hlt : l.position < l.input.length := by
        by_contra hge
        rw [h3, if_pos (by omega), hnul] at hp
        exact absurd hp (by decide)
      have hstep : consumeWhile p (f + 1) l = consumeWhile p f l.readChar := by
        simp [consumeWhile, hp]
      have hres := ih l.readChar
        (by rw [readChar_readPosition, readChar_position])
        (by rw [readChar_position, readChar_input, h1]; omega)
        (by rw [readChar_ch, readChar_input, readChar_position, h1])
        (by
          intro j hj1 hj2
          rw [readChar_input] at hj2 ⊢
          rw [readChar_position, h1] at hj1
          exact hall j (by omega) hj2)
        (by rw [readChar_input, readChar_position, h1]; omega)
      rw [hstep]
      exact ⟨hres.1.trans (readChar_input l), by rw [hres.2.1, readChar_input], hres.2.2⟩
    · have hstop := consumeWhile_stop p (f + 1) l (by simpa using hp)
      have hpos : l.position = l.input.length := by
        by_contra hne
        have hlt : l.position < l.input.length := by omega
        have := hall l.position (Nat.le_refl _) hlt
        rw [h3, if_neg (by omega)] at hp
        exact hp this
      rw [hstop]
      refine ⟨rfl, hpos, by rw [h3, if_pos (by omega)]⟩

/-- `readChar` leaves the heredoc queue untouched. -/
theorem readChar_heredocQueue (l : Lexer) : l.readChar.heredocQueue = l.heredocQueue := by
  simp only [Lexer.readChar]; split <;> split <;> rfl

/-- With no string state and no queued heredoc, `NextToken` is the main
dispatch. -/
theorem nextToken_mainScan (f : Nat) (l : Lexer) (h0 : l.hasCurrent = false)
    (h1 : l.heredocQueue = []) :
    nextToken (f + 1) l = mainScan (nextToken f) l := by
  simp [nextToken, h0, h1]

set_option maxHeartbeats 4000000 in
/-- On a letter or `_`, the main dispatch runs `lexIdentifier` (every
earlier guard tests for a specific non-identifier character). -/
theorem mainScan_ident (recur : Lexer → Token × Lexer) (l : Lexer)
    (hC : isLetter l.ch = true ∨ l.ch = '_') :
    mainScan recur l =
      (setTokenPosition (l.lexIdentifier).1 l.line l.column l.position,
       (l.lexIdentifier).2) := by
  have hskip : l.skipWhitespace = l := by
    apply consumeWhile_stop
    rcases hC with h | h
    · simp only [decide_eq_false_iff_not]
      rintro (he | he | he) <;> rw [he] at h <;> exact absurd h (by decide)
    · rw [h]; decide
  unfold mainScan
  rw [hskip]
  rw [if_neg (fun he : l.ch = '\n' => absurd (he ▸ hC) (by decide)),
      if_neg (fun he : l.ch = charNul => absurd (he ▸ hC) (by decide)),
      if_neg (fun he : l.ch = '+' => absurd (he ▸ hC) (by decide)),
      if_neg (fun he : l.ch = '-' => absurd (he ▸ hC) (by decide)),
      if_neg (fun he : l.ch = '*' => absurd (he ▸ hC) (by decide)),
      if_neg (fun he : l.ch = '/' => absurd (he ▸ hC) (by decide)),
      if_neg (fun he : l.ch = '%' => absurd (he ▸ hC) (by decide)),
      if_neg (fun he : l.ch = '&' => absurd (he ▸ hC) (by decide)),
      if_neg (fun he : l.ch = '|' => absurd (he ▸ hC) (by decide)),
      if_neg (fun he : l.ch = '^' => absurd (he ▸ hC) (by decide)),
      if_neg (fun he : l.ch = '~' => absurd (he ▸ hC) (by decide)),
      if_neg (fun he : l.ch = '<' => absurd (he ▸ hC) (by decide)),
      if_neg (fun he : l.ch = '>' => absurd (he ▸ hC) (by decide)),
      if_neg (fun he : l.ch = '=' => absurd (he ▸ hC) (by decide)),
      if_neg (fun he : l.ch = '!' => absurd (he ▸ hC) (by decide)),
      if_neg (fun he : l.ch = '.' => absurd (he ▸ hC) (by decide)),
      if_neg (fun he : l.ch = ':' => absurd (he ▸ hC) (by decide)),
      if_neg (fun he : l.ch = ',' => absurd (he ▸ hC) (by decide)),
      if_neg (fun he : l.ch = ';' => absurd (he ▸ hC) (by decide)),
      if_neg (fun he : l.ch = '(' => absurd (he ▸ hC) (by decide)),
      if_neg (fun he : l.ch = ')' => absurd (he ▸ hC) (by decide)),
      if_neg (fun he : l.ch = '[' => absurd (he ▸ hC) (by decide)),
      if_neg (fun he : l.ch = ']' => absurd (he ▸ hC) (by decide)),
      if_neg (fun he : l.ch = '\x7b' => absurd (he ▸ hC) (by decide)),
      if_neg (fun he : l.ch = '\x7d' => absurd (he ▸ hC) (by decide)),
      if_neg (fun he : l.ch = '\'' => absurd (he ▸ hC) (by decide)),
      if_neg (fun he : l.ch = '"' => absurd (he ▸ hC) (by decide)),
      if_neg (fun he : l.ch = '\x60' => absurd (he ▸ hC) (by decide)),
      if_neg (fun he : l.ch = '#' => absurd (he ▸ hC) (by decide)),
      if_neg (fun he : l.ch = '?' => absurd (he ▸ hC) (by decide)),
      if_neg (fun he : l.ch = '\\' => absurd (he ▸ hC) (by decide)),
      if_neg (fun he : l.ch = '@' => absurd (he ▸ hC) (by decide)),
      if_neg (fun he : l.ch = '$' => absurd (he ▸ hC) (by decide))]
  rw [if_pos (by
    rcases hC with h | h
    · exact Or.inl (by simpa using h)
    · exact Or.inr h)]

set_option maxHeartbeats 2000000 in
/-- On an all-identifier-character input, `lexIdentifier` consumes the whole
input and classifies it with `LookupIdent` (given the literal is not
`__END__`). -/
theorem lexIdentifier_token (l : Lexer)
    (hpos : l.position = 0) (hrp : l.readPosition = 1) (hlen : 0 < l.input.length)
    (hch : l.ch = l.input.getD 0 charNul)
    (hall : ∀ ch ∈ l.input, isLetter ch = true ∨ isDigit ch = true ∨ ch = '_')
    (hend : String.mk l.input ≠ "__END__") :
    (l.lexIdentifier).1 = newToken (lookupIdent (String.mk l.input)) (String.mk l.input) := by
  have hrun := consumeWhile_all (fun c => isLetter c ∨ isDigit c ∨ c = '_') (by decide)
    (l.input.length + 2) l (by rw [hrp, hpos]) (by omega)
    (by rw [hpos, if_neg (by omega)]; exact hch)
    (fun j hj1 hj2 => by
      have hm := hall _ (getD_mem_of_lt hj2 charNul)
      simpa using hm)
    (by omega)
  obtain ⟨hi, hp2, hc2⟩ := hrun
  have hlit : subStr l.input 0 l.input.length = String.mk l.input := by
    simp [subStr, subList, List.take_length]
  simp only [Lexer.lexIdentifier, Lexer.runConsume]
  rw [hi, hp2, hc2, hpos, hlit]
  rw [if_neg (by rintro (he | he) <;> exact absurd he (by decide))]
  rw [if_neg (fun hand => absurd hand.1 (by decide))]
  rw [if_neg (fun hand => absurd hand.1 (by decide))]
  rw [if_neg (fun hand => hend hand.1)]

set_option maxHeartbeats 1000000 in
/-- The lexer run on an identifier-shaped input: the first token carries the
whole input as literal with type `LookupIdent`. -/
theorem c5_general (s : String) (hne : s.data ≠ [])
    (hall : ∀ ch ∈ s.data, isLetter ch = true ∨ isDigit ch = true ∨ ch = '_')
    (hhead : isLetter (s.data.headD ' ') = true ∨ s.data.headD ' ' = '_')
    (hend : s ≠ "__END__") :
    (lexNthToken s 0).literal = s ∧ (lexNthToken s 0).type = lookupIdent s := by
  obtain ⟨data⟩ := s
  obtain ⟨c, cs, hd⟩ : ∃ c cs, data = c :: cs := by
    cases data with
    | nil => exact absurd rfl hne
    | cons c cs => exact ⟨c, cs, rfl⟩
  have hlen : 0 < data.length := by rw [hd]; simp
  have hinput : (Lexer.new (String.mk data)).input = data := readChar_input _
  have hpos : (Lexer.new (String.mk data)).position = 0 := readChar_position _
  have hrp : (Lexer.new (String.mk data)).readPosition = 1 := readChar_readPosition _
  have hcur : (Lexer.new (String.mk data)).hasCurrent = false := readChar_hasCurrent _
  have hq : (Lexer.new (String.mk data)).heredocQueue = [] := readChar_heredocQueue _
  have hch : (Lexer.new (String.mk data)).ch = data.getD 0 charNul := by
    refine (readChar_ch _).trans ?_
    show (if data.length ≤ 0 then charNul else data.getD 0 charNul) = _
    rw [if_neg (by omega)]
  have hCc : isLetter (Lexer.new (String.mk data)).ch = true ∨
      (Lexer.new (String.mk data)).ch = '_' := by
    rw [hch, hd, List.getD_cons_zero]
    simpa [hd] using hhead
  have hnt : lexNthToken (String.mk data) 0 =
      (nextToken ((Lexer.new (String.mk data)).input.length + 2)
        (Lexer.new (String.mk data))).1 := rfl
  rw [hnt, hinput]
  rw [show data.length + 2 = data.length + 1 + 1 from rfl,
    nextToken_mainScan _ _ hcur hq, mainScan_ident _ _ hCc]
  rw [lexIdentifier_token _ hpos hrp (by rw [hinput]; exact hlen)
    (by rw [hinput, hch]) (by rw [hinput]; exact hall)
    (by rw [hinput]; exact hend)]
  simp [setTokenPosition, newToken, hinput]

/-- C5: for every identifier-shaped literal other than `__END__`, the first
token lexed from it is the whole literal, classified as its keyword kind if
it is a reserved word, else `CONSTANT` iff its first character is uppercase,
else `IDENT`.  The original claim fails on `__END__` (identifier-shaped, not
a keyword, lowercase start — so the claim demands `IDENT`), which the lexer
special-cases to `END_MARKER`. -/
theorem spec_c5_identifier_classification (s : String) (hne : s.data ≠ [])
    (hall : ∀ ch ∈ s.data, isLetter ch = true ∨ isDigit ch = true ∨ ch = '_')
    (hhead : isLetter (s.data.headD ' ') = true ∨ s.data.headD ' ' = '_')
    (hend : s ≠ "__END__") :
    (lexNthToken s 0).literal = s ∧
    (lexNthToken s 0).type =
      (match keywordsFind s with
       | some kw => kw
       | none =>
           if 'A' ≤ s.data.headD 'a' ∧ s.data.headD 'a' ≤ 'Z' then TokenType.CONSTANT
           else TokenType.IDENT) := by
  obtain ⟨hlit, hty⟩ := c5_general s hne hall hhead hend
  refine ⟨hlit, hty.trans ?_⟩
  unfold lookupIdent
  cases hk : keywordsFind s with
  | some kw => rfl
  | none =>
    have hlen : s.length > 0 := by
      cases s with
      | mk data => simpa [String.length] using List.length_pos.mpr hne
    by_cases hu : 'A' ≤ s.data.headD 'a' ∧ s.data.headD 'a' ≤ 'Z'
    · rw [if_pos ⟨hlen, hu.1, hu.2⟩, if_pos hu]
    · rw [if_neg (fun h3 => hu ⟨h3.2.1, h3.2.2⟩), if_neg hu]

/-- Counterexample to C5 as stated: `__END__` is identifier-shaped, is not a
reserved word, and starts with a non-uppercase character, so the claim
demands `IDENT`; the lexer emits `END_MARKER`. -/
theorem spec_c5_counterexample :
    keywordsFind "__END__" = none ∧
    ¬('A' ≤ ("__END__".data.headD 'a') ∧ ("__END__".data.headD 'a') ≤ 'Z') ∧
    ("__END__".data ≠ [] ∧
      ∀ ch ∈ "__END__".data, isLetter ch = true ∨ isDigit ch = true ∨ ch = '_') ∧
    (lexNthToken "__END__" 0).type = TokenType.END_MARKER ∧
    TokenType.END_MARKER ≠ TokenType.IDENT := by
  refine ⟨by decide, by decide, by decide, by decide, by decide⟩

/-- Witness for `spec_c5_identifier_classification`: the uppercase-first
identifier `Foo` is classified `CONSTANT`. -/
theorem spec_c5_witness :
    (lexNthToken "Foo" 0).literal = "Foo" ∧
    (lexNthToken "Foo" 0).type =
      (match keywordsFind "Foo" with
       | some kw => kw
       | none =>
           if 'A' ≤ ("Foo".data.headD 'a') ∧ ("Foo".data.headD 'a') ≤ 'Z' then
             TokenType.CONSTANT
           else TokenType.IDENT) :=
  spec_c5_identifier_classification "Foo" (by decide) (by decide) (by decide) (by decide)

